import Mathlib

/-!
# FieboLib: GPU resource lifecycle and frame loop

A shallow embedding of `util/vulkaninfo.go` and `Test.go`.  Every Vulkan
entry point is a `Call`; the driver is an oracle (`Backend`) that answers each
call given the calls made so far; the program is a state-passing computation
(`VkM`) that logs every call with its reply and may end in a Go run-time
panic.
-/

namespace FieboLib

/-! ## Handles, constants and plain data -/

/-- Opaque Vulkan handle (instance, device, swapchain, ...); `0` is the null handle. -/
abbrev Handle := Nat

/-- The null handle (`vk.NullFence`, `vk.NullSwapchain`, `vk.NullImageView`, ...). -/
def NullHandle : Handle := 0

/-- Result code `vk.Success`. -/
def Success : Int := 0

/-- Result code `vk.Timeout`. -/
def Timeout : Int := 2

/-- Result code `vk.ErrorOutOfDate`. -/
def ErrorOutOfDate : Int := -1000001004

/-- Whether `vk.Error(result)` is a non-nil error: every code but `vk.Success`. -/
def vkError (result : Int) : Bool := result != Success

/-- Constant `vk.MaxUint64`. -/
def MaxUint64 : Nat := 2 ^ 64 - 1

/-- Constant `vk.MaxUint32`. -/
def MaxUint32 : Nat := 2 ^ 32 - 1

/-- Conversion to Go `uint32`. -/
def toUint32 (n : Nat) : Nat := n % 2 ^ 32

/-- Constant `timeoutNano` of `VulkanDrawFrame`: 10 seconds in nanoseconds. -/
def timeoutNano : Nat := 10 * 1000 * 1000 * 1000

/-- Constant `enableDebug` of `vulkaninfo.go`. -/
def enableDebug : Bool := false

/-- Format code `vk.FormatB8g8r8a8Unorm`. -/
def FormatB8g8r8a8Unorm : Nat := 44

/-- Format code `vk.FormatR8g8b8a8Unorm`. -/
def FormatR8g8b8a8Unorm : Nat := 37

/-- Format code `vk.FormatR32g32b32Sfloat`. -/
def FormatR32g32b32Sfloat : Nat := 106

/-- Constant `vk.SampleCount1Bit`. -/
def SampleCount1Bit : Nat := 1

/-- Constant `vk.AttachmentLoadOpClear`. -/
def AttachmentLoadOpClear : Nat := 1

/-- Constant `vk.AttachmentLoadOpDontCare`. -/
def AttachmentLoadOpDontCare : Nat := 2

/-- Constant `vk.AttachmentStoreOpStore`. -/
def AttachmentStoreOpStore : Nat := 0

/-- Constant `vk.AttachmentStoreOpDontCare`. -/
def AttachmentStoreOpDontCare : Nat := 1

/-- Constant `vk.ImageLayoutColorAttachmentOptimal`. -/
def ImageLayoutColorAttachmentOptimal : Nat := 2

/-- Constant `vk.PipelineBindPointGraphics`. -/
def PipelineBindPointGraphics : Nat := 0

/-- Constant `vk.SubpassContentsInline`. -/
def SubpassContentsInline : Nat := 0

/-- Constant `vk.CommandPoolCreateResetCommandBufferBit`. -/
def CommandPoolCreateResetCommandBufferBit : Nat := 2

/-- Constant `vk.CommandBufferLevelPrimary`. -/
def CommandBufferLevelPrimary : Nat := 0

/-- Constant `vk.ImageUsageColorAttachmentBit`. -/
def ImageUsageColorAttachmentBit : Nat := 16

/-- Constant `vk.SurfaceTransformIdentityBit`. -/
def SurfaceTransformIdentityBit : Nat := 1

/-- Constant `vk.SharingModeExclusive`. -/
def SharingModeExclusive : Nat := 0

/-- Constant `vk.PresentModeFifo`. -/
def PresentModeFifo : Nat := 2

/-- Constant `vk.ImageViewType2d`. -/
def ImageViewType2d : Nat := 1

/-- Constant `vk.ImageAspectColorBit`. -/
def ImageAspectColorBit : Nat := 1

/-- Constant `vk.BufferUsageVertexBufferBit`. -/
def BufferUsageVertexBufferBit : Nat := 128

/-- Constant `vk.MemoryPropertyHostVisibleBit`. -/
def MemoryPropertyHostVisibleBit : Nat := 2

/-- Constant `vk.ShaderStageVertexBit`. -/
def ShaderStageVertexBit : Nat := 1

/-- Constant `vk.ShaderStageFragmentBit`. -/
def ShaderStageFragmentBit : Nat := 16

/-- Constant `vk.VertexInputRateVertex`. -/
def VertexInputRateVertex : Nat := 0

/-- Constant `vk.PrimitiveTopologyTriangleStrip`. -/
def PrimitiveTopologyTriangleStrip : Nat := 4

/-- Constant `vk.PolygonModeFill`. -/
def PolygonModeFill : Nat := 0

/-- Constant `vk.CullModeNone`. -/
def CullModeNone : Nat := 0

/-- Constant `vk.FrontFaceClockwise`. -/
def FrontFaceClockwise : Nat := 1

/-- Constants `vk.DebugReportErrorBit | vk.DebugReportWarningBit`. -/
def DebugReportErrorOrWarning : Nat := 10

/-- Go type `vk.Extent2D`. -/
structure Extent2D where
  Width : Nat := 0
  Height : Nat := 0
  deriving DecidableEq, Repr

/-- Go type `vk.SurfaceFormat`. -/
structure SurfaceFormat where
  Format : Nat := 0
  ColorSpace : Nat := 0
  deriving DecidableEq, Repr

/-- Go type `vk.SurfaceCapabilities` (the fields the program reads). -/
structure SurfaceCapabilities where
  MinImageCount : Nat := 0
  MaxImageCount : Nat := 0
  CurrentExtent : Extent2D := {}
  deriving DecidableEq, Repr

/-- Go type `vk.SubmitInfo`. -/
structure SubmitInfo where
  WaitSemaphoreCount : Nat
  PWaitSemaphores : List Handle
  CommandBufferCount : Nat
  PCommandBuffers : List Handle
  deriving DecidableEq, Repr

/-- Go type `vk.PresentInfo`. -/
structure PresentInfo where
  SwapchainCount : Nat
  PSwapchains : List Handle
  PImageIndices : List Nat
  deriving DecidableEq, Repr

/-- Go type `vk.RenderPassBeginInfo`; clear colours are kept in thousandths. -/
structure RenderPassBeginInfo where
  RenderPass : Handle
  Framebuffer : Handle
  OffsetX : Int
  OffsetY : Int
  Extent : Extent2D
  ClearValueCount : Nat
  PClearValues : List (List Nat)
  deriving DecidableEq, Repr

/-- Go type `vk.CommandBufferAllocateInfo`. -/
structure CommandBufferAllocateInfo where
  CommandPool : Handle
  Level : Nat
  CommandBufferCount : Nat
  deriving DecidableEq, Repr

/-- Go type `vk.AttachmentDescription`. -/
structure AttachmentDescription where
  Format : Nat
  Samples : Nat
  LoadOp : Nat
  StoreOp : Nat
  StencilLoadOp : Nat
  StencilStoreOp : Nat
  InitialLayout : Nat
  FinalLayout : Nat
  deriving DecidableEq, Repr

/-- Go type `vk.RenderPassCreateInfo` with its single subpass flattened. -/
structure RenderPassCreateInfo where
  AttachmentCount : Nat
  PAttachments : List AttachmentDescription
  SubpassCount : Nat
  SubpassBindPoint : Nat
  ColorAttachmentCount : Nat
  ColorAttachment : Nat
  ColorAttachmentLayout : Nat
  deriving DecidableEq, Repr

/-- Go type `vk.InstanceCreateInfo`. -/
structure InstanceCreateInfo where
  EnabledExtensionCount : Nat
  PpEnabledExtensionNames : List String
  EnabledLayerCount : Nat
  PpEnabledLayerNames : List String
  deriving DecidableEq, Repr

/-- Go type `vk.DeviceCreateInfo` with its single queue request flattened. -/
structure DeviceCreateInfo where
  QueueCreateInfoCount : Nat
  QueueFamilyIndex : Nat
  QueueCount : Nat
  EnabledExtensionCount : Nat
  PpEnabledExtensionNames : List String
  EnabledLayerCount : Nat
  PpEnabledLayerNames : List String
  deriving DecidableEq, Repr

/-- Go type `vk.SwapchainCreateInfo`. -/
structure SwapchainCreateInfo where
  Surface : Handle
  MinImageCount : Nat
  ImageFormat : Nat
  ImageColorSpace : Nat
  ImageExtent : Extent2D
  ImageUsage : Nat
  PreTransform : Nat
  ImageArrayLayers : Nat
  ImageSharingMode : Nat
  QueueFamilyIndexCount : Nat
  PQueueFamilyIndices : List Nat
  PresentMode : Nat
  OldSwapchain : Handle
  Clipped : Bool
  deriving DecidableEq, Repr

/-- Go type `vk.ImageViewCreateInfo`. -/
structure ImageViewCreateInfo where
  Image : Handle
  ViewType : Nat
  Format : Nat
  AspectMask : Nat
  LevelCount : Nat
  LayerCount : Nat
  deriving DecidableEq, Repr

/-- Go type `vk.FramebufferCreateInfo`. -/
structure FramebufferCreateInfo where
  RenderPass : Handle
  Layers : Nat
  AttachmentCount : Nat
  PAttachments : List Handle
  Width : Nat
  Height : Nat
  deriving DecidableEq, Repr

/-- Go type `vk.BufferCreateInfo`. -/
structure BufferCreateInfo where
  Size : Nat
  Usage : Nat
  SharingMode : Nat
  QueueFamilyIndexCount : Nat
  PQueueFamilyIndices : List Nat
  deriving DecidableEq, Repr

/-- Go type `vk.MemoryAllocateInfo`. -/
structure MemoryAllocateInfo where
  AllocationSize : Nat
  MemoryTypeIndex : Nat
  deriving DecidableEq, Repr

/-- Go type `vk.PipelineShaderStageCreateInfo`. -/
structure PipelineShaderStageCreateInfo where
  Stage : Nat
  Module : Handle
  PName : String
  deriving DecidableEq, Repr

/-- Go type `vk.GraphicsPipelineCreateInfo` with its fixed-function state flattened. -/
structure GraphicsPipelineCreateInfo where
  StageCount : Nat
  PStages : List PipelineShaderStageCreateInfo
  VertexBinding : Nat
  VertexStride : Nat
  VertexInputRate : Nat
  AttributeBinding : Nat
  AttributeLocation : Nat
  AttributeFormat : Nat
  AttributeOffset : Nat
  Topology : Nat
  PrimitiveRestartEnable : Bool
  ViewportCount : Nat
  ViewportWidth : Nat
  ViewportHeight : Nat
  ScissorCount : Nat
  ScissorExtent : Extent2D
  PolygonMode : Nat
  CullMode : Nat
  FrontFace : Nat
  RasterizationSamples : Nat
  BlendEnable : Bool
  Layout : Handle
  RenderPass : Handle
  deriving DecidableEq, Repr

/-! ## Backend calls, replies and the trace -/

/-- Every external call the program makes: Vulkan entry points with the
arguments the program passes, plus the file read of `LoadShader` and the window
system calls of `main`. -/
inductive Call where
  | EnumerateInstanceExtensionProperties (capacity : Option Nat)
  | CreateInstance (info : InstanceCreateInfo)
  | InitInstance (inst : Handle)
  | CreateSurface (inst : Handle)
  | DestroySurface (inst surface : Handle)
  | DestroyInstance (inst : Handle)
  | EnumeratePhysicalDevices (inst : Handle) (capacity : Option Nat)
  | EnumerateDeviceExtensionProperties (gpu : Handle) (capacity : Option Nat)
  | CreateDevice (gpu : Handle) (info : DeviceCreateInfo)
  | GetDeviceQueue (device : Handle) (queueFamilyIndex queueIndex : Nat)
  | CreateDebugReportCallback (inst : Handle) (flags : Nat)
  | DestroyDebugReportCallback (inst callback : Handle)
  | DestroyDevice (device : Handle)
  | GetPhysicalDeviceSurfaceCapabilities (gpu surface : Handle)
  | GetPhysicalDeviceSurfaceFormats (gpu surface : Handle) (capacity : Option Nat)
  | CreateSwapchain (device : Handle) (info : SwapchainCreateInfo)
  | GetSwapchainImages (device swapchain : Handle) (capacity : Option Nat)
  | DestroySwapchain (device swapchain : Handle)
  | CreateImageView (device : Handle) (info : ImageViewCreateInfo)
  | DestroyImageView (device view : Handle)
  | CreateFramebuffer (device : Handle) (info : FramebufferCreateInfo)
  | DestroyFramebuffer (device framebuffer : Handle)
  | CreateRenderPass (device : Handle) (info : RenderPassCreateInfo)
  | DestroyRenderPass (device renderPass : Handle)
  | CreateCommandPool (device : Handle) (flags queueFamilyIndex : Nat)
  | DestroyCommandPool (device pool : Handle)
  | AllocateCommandBuffers (device : Handle) (info : CommandBufferAllocateInfo)
  | FreeCommandBuffers (device pool : Handle) (count : Nat) (buffers : List Handle)
  | CreateBuffer (device : Handle) (info : BufferCreateInfo)
  | DestroyBuffer (device buffer : Handle)
  | GetBufferMemoryRequirements (device buffer : Handle)
  | FindMemoryTypeIndex (gpu : Handle) (typeBits properties : Nat)
  | AllocateMemory (device : Handle) (info : MemoryAllocateInfo)
  | MapMemory (device memory : Handle) (offset size flags : Nat)
  | Memcopy (dst : Handle) (src : List Int)
  | UnmapMemory (device memory : Handle)
  | BindBufferMemory (device buffer memory : Handle) (offset : Nat)
  | ReadFile (path : String)
  | CreateShaderModule (device : Handle) (codeSize : Nat) (code : List Nat)
  | DestroyShaderModule (device module : Handle)
  | CreatePipelineLayout (device : Handle)
  | DestroyPipelineLayout (device layout : Handle)
  | CreatePipelineCache (device : Handle)
  | DestroyPipelineCache (device cache : Handle)
  | CreateGraphicsPipelines (device cache : Handle) (count : Nat)
      (infos : List GraphicsPipelineCreateInfo)
  | DestroyPipeline (device pipeline : Handle)
  | BeginCommandBuffer (cmd : Handle)
  | CmdBeginRenderPass (cmd : Handle) (info : RenderPassBeginInfo) (contents : Nat)
  | CmdBindPipeline (cmd : Handle) (bindPoint : Nat) (pipeline : Handle)
  | CmdBindVertexBuffers (cmd : Handle) (firstBinding bindingCount : Nat)
      (buffers : List Handle) (offsets : List Nat)
  | CmdDraw (cmd : Handle) (vertexCount instanceCount firstVertex firstInstance : Nat)
  | CmdEndRenderPass (cmd : Handle)
  | EndCommandBuffer (cmd : Handle)
  | CreateFence (device : Handle)
  | CreateSemaphore (device : Handle)
  | AcquireNextImage (device swapchain : Handle) (timeout : Nat) (semaphore fence : Handle)
  | ResetFences (device : Handle) (count : Nat) (fences : List Handle)
  | QueueSubmit (queue : Handle) (submitCount : Nat) (submits : List SubmitInfo)
      (fence : Handle)
  | WaitForFences (device : Handle) (count : Nat) (fences : List Handle) (waitAll : Bool)
      (timeout : Nat)
  | QueuePresent (queue : Handle) (info : PresentInfo)
  | DeviceWaitIdle (device : Handle)
  | GetPhysicalDeviceProperties (gpu : Handle)
  | EnumerateInstanceLayerProperties (capacity : Option Nat)
  | EnumerateDeviceLayerProperties (gpu : Handle) (capacity : Option Nat)
  | WindowShouldClose
  | PollEvents
  | WindowDestroy
  | GlfwTerminate
  deriving Repr

/-- The entry point a call goes to, without its arguments. -/
inductive CallKind where
  | EnumerateInstanceExtensionProperties
  | CreateInstance
  | InitInstance
  | CreateSurface
  | DestroySurface
  | DestroyInstance
  | EnumeratePhysicalDevices
  | EnumerateDeviceExtensionProperties
  | CreateDevice
  | GetDeviceQueue
  | CreateDebugReportCallback
  | DestroyDebugReportCallback
  | DestroyDevice
  | GetPhysicalDeviceSurfaceCapabilities
  | GetPhysicalDeviceSurfaceFormats
  | CreateSwapchain
  | GetSwapchainImages
  | DestroySwapchain
  | CreateImageView
  | DestroyImageView
  | CreateFramebuffer
  | DestroyFramebuffer
  | CreateRenderPass
  | DestroyRenderPass
  | CreateCommandPool
  | DestroyCommandPool
  | AllocateCommandBuffers
  | FreeCommandBuffers
  | CreateBuffer
  | DestroyBuffer
  | GetBufferMemoryRequirements
  | FindMemoryTypeIndex
  | AllocateMemory
  | MapMemory
  | Memcopy
  | UnmapMemory
  | BindBufferMemory
  | ReadFile
  | CreateShaderModule
  | DestroyShaderModule
  | CreatePipelineLayout
  | DestroyPipelineLayout
  | CreatePipelineCache
  | DestroyPipelineCache
  | CreateGraphicsPipelines
  | DestroyPipeline
  | BeginCommandBuffer
  | CmdBeginRenderPass
  | CmdBindPipeline
  | CmdBindVertexBuffers
  | CmdDraw
  | CmdEndRenderPass
  | EndCommandBuffer
  | CreateFence
  | CreateSemaphore
  | AcquireNextImage
  | ResetFences
  | QueueSubmit
  | WaitForFences
  | QueuePresent
  | DeviceWaitIdle
  | GetPhysicalDeviceProperties
  | EnumerateInstanceLayerProperties
  | EnumerateDeviceLayerProperties
  | WindowShouldClose
  | PollEvents
  | WindowDestroy
  | GlfwTerminate
  deriving DecidableEq, Repr

/-- The entry point of a call. -/
def Call.kind : Call → CallKind
  | .EnumerateInstanceExtensionProperties .. => .EnumerateInstanceExtensionProperties
  | .CreateInstance .. => .CreateInstance
  | .InitInstance .. => .InitInstance
  | .CreateSurface .. => .CreateSurface
  | .DestroySurface .. => .DestroySurface
  | .DestroyInstance .. => .DestroyInstance
  | .EnumeratePhysicalDevices .. => .EnumeratePhysicalDevices
  | .EnumerateDeviceExtensionProperties .. => .EnumerateDeviceExtensionProperties
  | .CreateDevice .. => .CreateDevice
  | .GetDeviceQueue .. => .GetDeviceQueue
  | .CreateDebugReportCallback .. => .CreateDebugReportCallback
  | .DestroyDebugReportCallback .. => .DestroyDebugReportCallback
  | .DestroyDevice .. => .DestroyDevice
  | .GetPhysicalDeviceSurfaceCapabilities .. => .GetPhysicalDeviceSurfaceCapabilities
  | .GetPhysicalDeviceSurfaceFormats .. => .GetPhysicalDeviceSurfaceFormats
  | .CreateSwapchain .. => .CreateSwapchain
  | .GetSwapchainImages .. => .GetSwapchainImages
  | .DestroySwapchain .. => .DestroySwapchain
  | .CreateImageView .. => .CreateImageView
  | .DestroyImageView .. => .DestroyImageView
  | .CreateFramebuffer .. => .CreateFramebuffer
  | .DestroyFramebuffer .. => .DestroyFramebuffer
  | .CreateRenderPass .. => .CreateRenderPass
  | .DestroyRenderPass .. => .DestroyRenderPass
  | .CreateCommandPool .. => .CreateCommandPool
  | .DestroyCommandPool .. => .DestroyCommandPool
  | .AllocateCommandBuffers .. => .AllocateCommandBuffers
  | .FreeCommandBuffers .. => .FreeCommandBuffers
  | .CreateBuffer .. => .CreateBuffer
  | .DestroyBuffer .. => .DestroyBuffer
  | .GetBufferMemoryRequirements .. => .GetBufferMemoryRequirements
  | .FindMemoryTypeIndex .. => .FindMemoryTypeIndex
  | .AllocateMemory .. => .AllocateMemory
  | .MapMemory .. => .MapMemory
  | .Memcopy .. => .Memcopy
  | .UnmapMemory .. => .UnmapMemory
  | .BindBufferMemory .. => .BindBufferMemory
  | .ReadFile .. => .ReadFile
  | .CreateShaderModule .. => .CreateShaderModule
  | .DestroyShaderModule .. => .DestroyShaderModule
  | .CreatePipelineLayout .. => .CreatePipelineLayout
  | .DestroyPipelineLayout .. => .DestroyPipelineLayout
  | .CreatePipelineCache .. => .CreatePipelineCache
  | .DestroyPipelineCache .. => .DestroyPipelineCache
  | .CreateGraphicsPipelines .. => .CreateGraphicsPipelines
  | .DestroyPipeline .. => .DestroyPipeline
  | .BeginCommandBuffer .. => .BeginCommandBuffer
  | .CmdBeginRenderPass .. => .CmdBeginRenderPass
  | .CmdBindPipeline .. => .CmdBindPipeline
  | .CmdBindVertexBuffers .. => .CmdBindVertexBuffers
  | .CmdDraw .. => .CmdDraw
  | .CmdEndRenderPass .. => .CmdEndRenderPass
  | .EndCommandBuffer .. => .EndCommandBuffer
  | .CreateFence .. => .CreateFence
  | .CreateSemaphore .. => .CreateSemaphore
  | .AcquireNextImage .. => .AcquireNextImage
  | .ResetFences .. => .ResetFences
  | .QueueSubmit .. => .QueueSubmit
  | .WaitForFences .. => .WaitForFences
  | .QueuePresent .. => .QueuePresent
  | .DeviceWaitIdle .. => .DeviceWaitIdle
  | .GetPhysicalDeviceProperties .. => .GetPhysicalDeviceProperties
  | .EnumerateInstanceLayerProperties .. => .EnumerateInstanceLayerProperties
  | .EnumerateDeviceLayerProperties .. => .EnumerateDeviceLayerProperties
  | .WindowShouldClose .. => .WindowShouldClose
  | .PollEvents .. => .PollEvents
  | .WindowDestroy .. => .WindowDestroy
  | .GlfwTerminate .. => .GlfwTerminate

/-- What a call hands back: the result code and the output parameters. A call
reads only the outputs it has; the others are ignored. -/
structure Reply where
  result : Int := 0
  handle : Handle := 0
  index : Nat := 0
  count : Nat := 0
  flag : Bool := false
  handles : List Handle := []
  names : List String := []
  formats : List SurfaceFormat := []
  capabilities : SurfaceCapabilities := {}
  size : Nat := 0
  typeBits : Nat := 0
  bytes : List Nat := []
  deriving DecidableEq, Repr

/-- One logged call with the reply it got. -/
structure Event where
  call : Call
  reply : Reply
  deriving Repr

/-- The calls made so far, oldest first. -/
abbrev Trace := List Event

/-- A deterministic driver and window system: the reply to a call may depend
on everything that was called before.  `checkPanics` fixes the one behaviour of
the helper `check` (called in `vulkaninfo.go`, defined outside it) that the
callers can observe: whether it aborts on a failed result or only logs it. -/
structure Backend where
  reply : Trace → Call → Reply
  checkPanics : Bool := false

/-- Outcome of running a piece of the program: it returns a value, or a Go
run-time panic ends the process; either way with the trace up to that point. -/
inductive Res (α : Type) where
  | ok (val : α) (trace : Trace)
  | panic (trace : Trace)
  deriving Repr

/-- The trace at the end of a run. -/
def Res.trace {α : Type} : Res α → Trace
  | .ok _ t => t
  | .panic t => t

/-- The value a run returned, if it returned. -/
def Res.val? {α : Type} : Res α → Option α
  | .ok a _ => some a
  | .panic _ => none

/-- Computations of the program: given the backend and the trace so far. -/
def VkM (α : Type) : Type := Backend → Trace → Res α

/-- Sequencing of `VkM`: a panic cuts the rest off. -/
def VkM.bind {α β : Type} (m : VkM α) (f : α → VkM β) : VkM β := fun b t =>
  match m b t with
  | .ok a t1 => f a b t1
  | .panic t1 => .panic t1

instance : Monad VkM where
  pure a := fun _ t => .ok a t
  bind := VkM.bind

/-- The event logged when call `c` is made after trace `t`. -/
def ev (b : Backend) (t : Trace) (c : Call) : Event :=
  { call := c, reply := b.reply t c }

/-- Issue one call: ask the backend and log the call with its reply. -/
def call (c : Call) : VkM Reply := fun b t =>
  .ok (b.reply t c) (t ++ [ev b t c])

/-- A Go run-time panic (index out of range, explicit `panic`). -/
def goPanic {α : Type} : VkM α := fun _ t => .panic t

/-- Go indexing `xs[i]`, panicking when out of range. -/
def index {α : Type} (xs : List α) (i : Nat) : VkM α :=
  match xs[i]? with
  | some x => pure x
  | none => goPanic

/-- Go slicing `xs[i:]`, panicking when `i > len(xs)`. -/
def sliceFrom {α : Type} (xs : List α) (i : Nat) : VkM (List α) :=
  if i ≤ xs.length then pure (xs.drop i) else goPanic

/-- The events a computation adds when started after trace `t`. -/
def newEvents {α : Type} (m : VkM α) (b : Backend) (t : Trace) : Trace :=
  (m b t).trace.drop t.length

/-- The helper `check(ret, name)`: on a failed result it logs, and aborts when
the backend parameter says so. -/
def check (ret : Int) : VkM Unit := fun b t =>
  if vkError ret && b.checkPanics then .panic t else .ok () t

/-- The helper `orPanic` applied to a result code. -/
def orPanic (ret : Int) : VkM Unit :=
  if vkError ret then goPanic else pure ()

/-! ## The data model of `vulkaninfo.go` -/

/-- Go `error` values the program builds with `fmt.Errorf`. -/
inductive GoError where
  | failedWith (op : String) (result : Int)
  | noGPUs
  | noSuitableFormat
  | assetNotFound (path : String)
  deriving DecidableEq, Repr

/-- Go struct `VulkanDeviceInfo`. -/
structure VulkanDeviceInfo where
  gpuDevices : List Handle := []
  dbg : Handle := 0
  Instance : Handle := 0
  Surface : Handle := 0
  Queue : Handle := 0
  Device : Handle := 0
  deriving DecidableEq, Repr

/-- Go struct `VulkanSwapchainInfo`. -/
structure VulkanSwapchainInfo where
  Device : Handle := 0
  Swapchains : List Handle := []
  SwapchainLen : List Nat := []
  DisplaySize : Extent2D := {}
  DisplayFormat : Nat := 0
  Framebuffers : List Handle := []
  DisplayViews : List Handle := []
  deriving DecidableEq, Repr

/-- Go struct `VulkanBufferInfo`. -/
structure VulkanBufferInfo where
  device : Handle := 0
  vertexBuffers : List Handle := []
  deriving DecidableEq, Repr

/-- Go struct `VulkanGfxPipelineInfo`. -/
structure VulkanGfxPipelineInfo where
  device : Handle := 0
  layout : Handle := 0
  cache : Handle := 0
  pipeline : Handle := 0
  deriving DecidableEq, Repr

/-- Go struct `VulkanRenderInfo`. -/
structure VulkanRenderInfo where
  device : Handle := 0
  RenderPass : Handle := 0
  cmdPool : Handle := 0
  cmdBuffers : List Handle := []
  semaphores : List Handle := []
  fences : List Handle := []
  deriving DecidableEq, Repr

/-- Method `DefaultSwapchain`: `Swapchains[0]`. -/
def VulkanSwapchainInfo.DefaultSwapchain (swapchainInfo : VulkanSwapchainInfo) : VkM Handle :=
  index swapchainInfo.Swapchains 0

/-- Method `DefaultSwapchainLen`: `SwapchainLen[0]`. -/
def VulkanSwapchainInfo.DefaultSwapchainLen (swapchainInfo : VulkanSwapchainInfo) : VkM Nat :=
  index swapchainInfo.SwapchainLen 0

/-- Method `DefaultVertexBuffer`: `vertexBuffers[0]`. -/
def VulkanBufferInfo.DefaultVertexBuffer (v : VulkanBufferInfo) : VkM Handle :=
  index v.vertexBuffers 0

/-- Method `DefaultFence`: `fences[0]`. -/
def VulkanRenderInfo.DefaultFence (v : VulkanRenderInfo) : VkM Handle :=
  index v.fences 0

/-- Method `DefaultSemaphore`: `semaphores[0]`. -/
def VulkanRenderInfo.DefaultSemaphore (v : VulkanRenderInfo) : VkM Handle :=
  index v.semaphores 0

/-! ## The frame tick -/

/-- Function `VulkanDrawFrame`: acquire, reset fence, submit, wait, present.
The three structs are passed by value and nothing is written through their
slices, so the only effects are the backend calls and the returned flag. -/
def VulkanDrawFrame (deviceInfo : VulkanDeviceInfo) (swapchainInfo : VulkanSwapchainInfo)
    (renderInfo : VulkanRenderInfo) : VkM Bool := do
  let swapchain ← swapchainInfo.DefaultSwapchain
  let semaphore ← renderInfo.DefaultSemaphore
  let acquired ← call (.AcquireNextImage deviceInfo.Device swapchain MaxUint64 semaphore
    NullHandle)
  let nextIdx := toUint32 acquired.index
  if vkError acquired.result then
    pure false
  else do
    let _ ← call (.ResetFences deviceInfo.Device 1 renderInfo.fences)
    let pCommandBuffers ← sliceFrom renderInfo.cmdBuffers nextIdx
    let submitInfo : List SubmitInfo := [{
      WaitSemaphoreCount := 1
      PWaitSemaphores := renderInfo.semaphores
      CommandBufferCount := 1
      PCommandBuffers := pCommandBuffers }]
    let fence ← renderInfo.DefaultFence
    let submitted ← call (.QueueSubmit deviceInfo.Queue 1 submitInfo fence)
    if vkError submitted.result then
      pure false
    else do
      let waited ← call (.WaitForFences deviceInfo.Device 1 renderInfo.fences true
        timeoutNano)
      if vkError waited.result then
        pure false
      else do
        let presentInfo : PresentInfo := {
          SwapchainCount := 1
          PSwapchains := swapchainInfo.Swapchains
          PImageIndices := [nextIdx] }
        let presented ← call (.QueuePresent deviceInfo.Queue presentInfo)
        if vkError presented.result then
          pure false
        else
          pure true

/-! ## Command recording and synchronisation objects -/

/-- Go `make([]T, n)` filled by a call that writes at most `n` outputs: the
outputs the backend gave, cut or padded with the zero value to length `n`. -/
def fill {α : Type} (zero : α) (n : Nat) (outputs : List α) : List α :=
  outputs.take n ++ List.replicate (n - outputs.length) zero

/-- Go `for` over a list of items, running `body` on each in order. -/
def forEach {α : Type} : List α → (α → VkM Unit) → VkM Unit
  | [], _ => pure ()
  | x :: xs, body => do
    body x
    forEach xs body

/-- The body of the recording loop of `VulkanInit` for index `i`. -/
def recordCommandBuffer (s : VulkanSwapchainInfo) (r : VulkanRenderInfo)
    (bufferInfo : VulkanBufferInfo) (gfx : VulkanGfxPipelineInfo) (i : Nat) : VkM Unit := do
  let framebuffer ← index s.Framebuffers i
  let renderPassBeginInfo : RenderPassBeginInfo := {
    RenderPass := r.RenderPass
    Framebuffer := framebuffer
    OffsetX := 0
    OffsetY := 0
    Extent := s.DisplaySize
    ClearValueCount := 1
    PClearValues := [[98, 710, 996, 1000]] }
  let cmd ← index r.cmdBuffers i
  let ret ← call (.BeginCommandBuffer cmd)
  check ret.result
  let _ ← call (.CmdBeginRenderPass cmd renderPassBeginInfo SubpassContentsInline)
  let _ ← call (.CmdBindPipeline cmd PipelineBindPointGraphics gfx.pipeline)
  let offsets := List.replicate bufferInfo.vertexBuffers.length 0
  let _ ← call (.CmdBindVertexBuffers cmd 0 1 bufferInfo.vertexBuffers offsets)
  let _ ← call (.CmdDraw cmd 4 1 0 0)
  let _ ← call (.CmdEndRenderPass cmd)
  let ret ← call (.EndCommandBuffer cmd)
  check ret.result

/-- Function `VulkanInit`: record every command buffer, then create the fence
and the semaphore. Returns the updated render info. -/
def VulkanInit (v : VulkanDeviceInfo) (s : VulkanSwapchainInfo) (r : VulkanRenderInfo)
    (bufferInfo : VulkanBufferInfo) (gfx : VulkanGfxPipelineInfo) : VkM VulkanRenderInfo := do
  forEach (List.range r.cmdBuffers.length) (recordCommandBuffer s r bufferInfo gfx)
  let ret ← call (.CreateFence v.Device)
  let r := { r with fences := [ret.handle] }
  check ret.result
  let ret ← call (.CreateSemaphore v.Device)
  let r := { r with semaphores := [ret.handle] }
  check ret.result
  pure r

/-- Method `CreateCommandBuffers`: allocate `n` primary command buffers. -/
def VulkanRenderInfo.CreateCommandBuffers (r : VulkanRenderInfo) (n : Nat) :
    VkM (VulkanRenderInfo × Option GoError) := do
  let cmdBufferAllocateInfo : CommandBufferAllocateInfo := {
    CommandPool := r.cmdPool
    Level := CommandBufferLevelPrimary
    CommandBufferCount := n }
  let ret ← call (.AllocateCommandBuffers r.device cmdBufferAllocateInfo)
  let r := { r with cmdBuffers := fill NullHandle n ret.handles }
  if vkError ret.result then
    pure (r, some (.failedWith "vk.AllocateCommandBuffers" ret.result))
  else
    pure (r, none)

/-- Function `CreateRenderer`: the render pass and the command pool. -/
def CreateRenderer (device : Handle) (displayFormat : Nat) :
    VkM (VulkanRenderInfo × Option GoError) := do
  let renderPassCreateInfo : RenderPassCreateInfo := {
    AttachmentCount := 1
    PAttachments := [{
      Format := displayFormat
      Samples := SampleCount1Bit
      LoadOp := AttachmentLoadOpClear
      StoreOp := AttachmentStoreOpStore
      StencilLoadOp := AttachmentLoadOpDontCare
      StencilStoreOp := AttachmentStoreOpDontCare
      InitialLayout := ImageLayoutColorAttachmentOptimal
      FinalLayout := ImageLayoutColorAttachmentOptimal }]
    SubpassCount := 1
    SubpassBindPoint := PipelineBindPointGraphics
    ColorAttachmentCount := 1
    ColorAttachment := 0
    ColorAttachmentLayout := ImageLayoutColorAttachmentOptimal }
  let r : VulkanRenderInfo := {}
  let ret ← call (.CreateRenderPass device renderPassCreateInfo)
  let r := { r with RenderPass := ret.handle }
  if vkError ret.result then
    pure (r, some (.failedWith "vk.CreateRenderPass" ret.result))
  else do
    let ret ← call (.CreateCommandPool device CommandPoolCreateResetCommandBufferBit 0)
    let r := { r with cmdPool := ret.handle }
    if vkError ret.result then
      pure (r, some (.failedWith "vk.CreateCommandPool" ret.result))
    else
      pure ({ r with device := device }, none)

/-! ## Device creation -/

/-- Function `getInstanceExtensions`. -/
def getInstanceExtensions : VkM (List String) := do
  let ret ← call (.EnumerateInstanceExtensionProperties none)
  check ret.result
  let instanceExtLen := toUint32 ret.count
  let ret ← call (.EnumerateInstanceExtensionProperties (some instanceExtLen))
  check ret.result
  pure (fill "" instanceExtLen ret.names)

/-- Function `getDeviceExtensions`. -/
def getDeviceExtensions (gpu : Handle) : VkM (List String) := do
  let ret ← call (.EnumerateDeviceExtensionProperties gpu none)
  check ret.result
  let deviceExtLen := toUint32 ret.count
  let ret ← call (.EnumerateDeviceExtensionProperties gpu (some deviceExtLen))
  check ret.result
  pure (fill "" deviceExtLen ret.names)

/-- Function `getPhysicalDevices`. -/
def getPhysicalDevices (inst : Handle) : VkM (List Handle × Option GoError) := do
  let ret ← call (.EnumeratePhysicalDevices inst none)
  let gpuCount := toUint32 ret.count
  if vkError ret.result then
    pure ([], some (.failedWith "vk.EnumeratePhysicalDevices" ret.result))
  else if gpuCount == 0 then
    pure ([], some .noGPUs)
  else do
    let ret ← call (.EnumeratePhysicalDevices inst (some gpuCount))
    if vkError ret.result then
      pure ([], some (.failedWith "vk.EnumeratePhysicalDevices" ret.result))
    else
      pure (fill NullHandle gpuCount ret.handles, none)

/-- Function `NewVulkanDevice`: instance, surface (through the caller's
factory), first physical device, one logical device with one queue. -/
def NewVulkanDevice (instanceExtensions : List String)
    (createSurfaceFunc : Handle → VkM Handle) : VkM (VulkanDeviceInfo × Option GoError) := do
  let _existingExtensions ← getInstanceExtensions
  let instanceExtensions :=
    if enableDebug then instanceExtensions ++ ["VK_EXT_debug_report\x00"] else instanceExtensions
  let instanceLayers : List String := []
  let instanceCreateInfo : InstanceCreateInfo := {
    EnabledExtensionCount := toUint32 instanceExtensions.length
    PpEnabledExtensionNames := instanceExtensions
    EnabledLayerCount := toUint32 instanceLayers.length
    PpEnabledLayerNames := instanceLayers }
  let v : VulkanDeviceInfo := {}
  let ret ← call (.CreateInstance instanceCreateInfo)
  let v := { v with Instance := ret.handle }
  let err : Option GoError :=
    if vkError ret.result then some (.failedWith "vk.CreateInstance" ret.result) else none
  if err.isSome then
    pure (v, err)
  else do
    let _ ← call (.InitInstance v.Instance)
    let surface ← createSurfaceFunc v.Instance
    let v := { v with Surface := surface }
    if err.isSome then do
      let _ ← call (.DestroyInstance v.Instance)
      pure (v, some (.failedWith "vkCreateWindowSurface" ret.result))
    else do
      let (gpus, err) ← getPhysicalDevices v.Instance
      let v := { v with gpuDevices := gpus }
      if err.isSome then do
        let v := { v with gpuDevices := [] }
        let _ ← call (.DestroySurface v.Instance v.Surface)
        let _ ← call (.DestroyInstance v.Instance)
        pure (v, err)
      else do
        let gpu0 ← index v.gpuDevices 0
        let _existingExtensions ← getDeviceExtensions gpu0
        let deviceLayers : List String := []
        let deviceExtensions : List String := ["VK_KHR_swapchain\x00"]
        let deviceCreateInfo : DeviceCreateInfo := {
          QueueCreateInfoCount := 1
          QueueFamilyIndex := 0
          QueueCount := 1
          EnabledExtensionCount := toUint32 deviceExtensions.length
          PpEnabledExtensionNames := deviceExtensions
          EnabledLayerCount := toUint32 deviceLayers.length
          PpEnabledLayerNames := deviceLayers }
        let gpu0 ← index v.gpuDevices 0
        let ret ← call (.CreateDevice gpu0 deviceCreateInfo)
        if vkError ret.result then do
          let v := { v with gpuDevices := [] }
          let _ ← call (.DestroySurface v.Instance v.Surface)
          let _ ← call (.DestroyInstance v.Instance)
          pure (v, some (.failedWith "vk.CreateDevice" ret.result))
        else do
          let device := ret.handle
          let v := { v with Device := device }
          let queue ← call (.GetDeviceQueue device 0 0)
          let v := { v with Queue := queue.handle }
          if enableDebug then do
            let ret ← call (.CreateDebugReportCallback v.Instance DebugReportErrorOrWarning)
            if vkError ret.result then
              pure (v, none)
            else
              pure ({ v with dbg := ret.handle }, none)
          else
            pure (v, none)

/-! ## Swapchain, image views and framebuffers -/

/-- The format search loop of `CreateSwapchain`: from index `i`, for at most
`fuel` more rounds, the first index whose format is BGRA8 or RGBA8 unorm, or
`-1`.  Reading `formats[i]` past the end of the slice panics. -/
def chooseFormat (formats : List SurfaceFormat) : Nat → Nat → VkM Int
  | 0, _ => pure (-1)
  | fuel + 1, i => do
    let f ← index formats i
    if f.Format == FormatB8g8r8a8Unorm || f.Format == FormatR8g8b8a8Unorm then
      pure (Int.ofNat i)
    else
      chooseFormat formats fuel (i + 1)

/-- Method `CreateSwapchain` of `VulkanDeviceInfo`. -/
def VulkanDeviceInfo.CreateSwapchain (v : VulkanDeviceInfo) :
    VkM (VulkanSwapchainInfo × Option GoError) := do
  let gpu ← index v.gpuDevices 0
  let s : VulkanSwapchainInfo := {}
  let ret ← call (.GetPhysicalDeviceSurfaceCapabilities gpu v.Surface)
  let surfaceCapabilities := ret.capabilities
  if vkError ret.result then
    pure (s, some (.failedWith "vk.GetPhysicalDeviceSurfaceCapabilities" ret.result))
  else do
    let ret ← call (.GetPhysicalDeviceSurfaceFormats gpu v.Surface none)
    let formatCount := toUint32 ret.count
    let ret ← call (.GetPhysicalDeviceSurfaceFormats gpu v.Surface (some formatCount))
    let formats := fill ({} : SurfaceFormat) formatCount ret.formats
    let formatCount := toUint32 ret.count
    let chosenFormat ← chooseFormat formats formatCount 0
    if chosenFormat < 0 then
      pure (s, some .noSuitableFormat)
    else do
      let s := { s with DisplaySize := surfaceCapabilities.CurrentExtent }
      let chosen ← index formats chosenFormat.toNat
      let s := { s with DisplayFormat := chosen.Format }
      let swapchainCreateInfo : SwapchainCreateInfo := {
        Surface := v.Surface
        MinImageCount := surfaceCapabilities.MinImageCount
        ImageFormat := chosen.Format
        ImageColorSpace := chosen.ColorSpace
        ImageExtent := surfaceCapabilities.CurrentExtent
        ImageUsage := ImageUsageColorAttachmentBit
        PreTransform := SurfaceTransformIdentityBit
        ImageArrayLayers := 1
        ImageSharingMode := SharingModeExclusive
        QueueFamilyIndexCount := 1
        PQueueFamilyIndices := [0]
        PresentMode := PresentModeFifo
        OldSwapchain := NullHandle
        Clipped := false }
      let ret ← call (.CreateSwapchain v.Device swapchainCreateInfo)
      let s := { s with Swapchains := [ret.handle] }
      if vkError ret.result then
        pure (s, some (.failedWith "vk.CreateSwapchain" ret.result))
      else do
        let swapchain ← s.DefaultSwapchain
        let ret ← call (.GetSwapchainImages v.Device swapchain none)
        let s := { s with SwapchainLen := [toUint32 ret.count] }
        if vkError ret.result then
          pure (s, some (.failedWith "vk.GetSwapchainImages" ret.result))
        else
          pure ({ s with Device := v.Device }, none)

/-- The image-view loop of `CreateFramebuffers` over the indices still to do,
writing each created view into `DisplayViews[i]`. -/
def createImageViews (swapchainInfo : VulkanSwapchainInfo) (swapchainImages : List Handle) :
    List Nat → VkM (VulkanSwapchainInfo × Option GoError)
  | [] => pure (swapchainInfo, none)
  | i :: rest => do
    let image ← index swapchainImages i
    let viewCreateInfo : ImageViewCreateInfo := {
      Image := image
      ViewType := ImageViewType2d
      Format := swapchainInfo.DisplayFormat
      AspectMask := ImageAspectColorBit
      LevelCount := 1
      LayerCount := 1 }
    let ret ← call (.CreateImageView swapchainInfo.Device viewCreateInfo)
    let swapchainInfo :=
      { swapchainInfo with DisplayViews := swapchainInfo.DisplayViews.set i ret.handle }
    if vkError ret.result then
      pure (swapchainInfo, some (.failedWith "vk.CreateImageView" ret.result))
    else
      createImageViews swapchainInfo swapchainImages rest

/-- The framebuffer loop of `CreateFramebuffers` over the indices still to do,
writing each created framebuffer into `Framebuffers[i]`. -/
def createFramebufferLoop (swapchainInfo : VulkanSwapchainInfo) (renderPass depthView : Handle) :
    List Nat → VkM (VulkanSwapchainInfo × Option GoError)
  | [] => pure (swapchainInfo, none)
  | i :: rest => do
    let view ← index swapchainInfo.DisplayViews i
    let fbCreateInfo : FramebufferCreateInfo := {
      RenderPass := renderPass
      Layers := 1
      AttachmentCount := if depthView != NullHandle then 2 else 1
      PAttachments := [view, depthView]
      Width := swapchainInfo.DisplaySize.Width
      Height := swapchainInfo.DisplaySize.Height }
    let ret ← call (.CreateFramebuffer swapchainInfo.Device fbCreateInfo)
    let swapchainInfo :=
      { swapchainInfo with Framebuffers := swapchainInfo.Framebuffers.set i ret.handle }
    if vkError ret.result then
      pure (swapchainInfo, some (.failedWith "vk.CreateFramebuffer" ret.result))
    else
      createFramebufferLoop swapchainInfo renderPass depthView rest

/-- Method `CreateFramebuffers`: one image view per swapchain image as the
backend counts them now, one framebuffer per `SwapchainLen[0]`. -/
def VulkanSwapchainInfo.CreateFramebuffers (swapchainInfo : VulkanSwapchainInfo)
    (renderPass depthView : Handle) : VkM (VulkanSwapchainInfo × Option GoError) := do
  let swapchain ← swapchainInfo.DefaultSwapchain
  let ret ← call (.GetSwapchainImages swapchainInfo.Device swapchain none)
  let swapchainImagesCount := toUint32 ret.count
  if vkError ret.result then
    pure (swapchainInfo, some (.failedWith "vk.GetSwapchainImages" ret.result))
  else do
    let swapchain ← swapchainInfo.DefaultSwapchain
    let ret ← call (.GetSwapchainImages swapchainInfo.Device swapchain
      (some swapchainImagesCount))
    let swapchainImages := fill NullHandle swapchainImagesCount ret.handles
    let swapchainInfo :=
      { swapchainInfo with DisplayViews := List.replicate swapchainImages.length NullHandle }
    let (swapchainInfo, err) ←
      createImageViews swapchainInfo swapchainImages (List.range swapchainInfo.DisplayViews.length)
    if err.isSome then
      pure (swapchainInfo, err)
    else do
      let n ← swapchainInfo.DefaultSwapchainLen
      let swapchainInfo := { swapchainInfo with Framebuffers := List.replicate n NullHandle }
      createFramebufferLoop swapchainInfo renderPass depthView
        (List.range swapchainInfo.Framebuffers.length)

/-! ## Vertex buffer -/

/-- The triangle of `CreateBuffers`: nine `float32` values (all integral). -/
def vertexData : List Int := [-1, -1, 0, 1, -1, 0, 0, 1, 0]

/-- Method `Sizeof` of `linmath.ArrayFloat32`: four bytes per value. -/
def sizeofFloat32Array (data : List Int) : Nat := data.length * 4

/-- Method `CreateBuffers` of `VulkanDeviceInfo`. -/
def VulkanDeviceInfo.CreateBuffers (v : VulkanDeviceInfo) :
    VkM (VulkanBufferInfo × Option GoError) := do
  let gpu ← index v.gpuDevices 0
  let bufferCreateInfo : BufferCreateInfo := {
    Size := sizeofFloat32Array vertexData
    Usage := BufferUsageVertexBufferBit
    SharingMode := SharingModeExclusive
    QueueFamilyIndexCount := 1
    PQueueFamilyIndices := [0] }
  let ret ← call (.CreateBuffer v.Device bufferCreateInfo)
  let buffer : VulkanBufferInfo := { vertexBuffers := [ret.handle] }
  if vkError ret.result then
    pure (buffer, some (.failedWith "vk.CreateBuffer" ret.result))
  else do
    let vertexBuffer ← buffer.DefaultVertexBuffer
    let memReq ← call (.GetBufferMemoryRequirements v.Device vertexBuffer)
    let found ← call (.FindMemoryTypeIndex gpu memReq.typeBits MemoryPropertyHostVisibleBit)
    let allocInfo : MemoryAllocateInfo := {
      AllocationSize := memReq.size
      MemoryTypeIndex := toUint32 found.index }
    let ret ← call (.AllocateMemory v.Device allocInfo)
    let deviceMemory := ret.handle
    if vkError ret.result then
      pure (buffer, some (.failedWith "vk.AllocateMemory" ret.result))
    else do
      let mapped ← call (.MapMemory v.Device deviceMemory 0 (sizeofFloat32Array vertexData) 0)
      let _n ← call (.Memcopy mapped.handle vertexData)
      let _ ← call (.UnmapMemory v.Device deviceMemory)
      let vertexBuffer ← buffer.DefaultVertexBuffer
      let ret ← call (.BindBufferMemory v.Device vertexBuffer deviceMemory 0)
      if vkError ret.result then
        pure (buffer, some (.failedWith "vk.BindBufferMemory" ret.result))
      else
        pure ({ buffer with device := v.Device }, none)

/-- Method `Destroy` of `VulkanBufferInfo`. -/
def VulkanBufferInfo.Destroy (buf : VulkanBufferInfo) : VkM Unit :=
  forEach buf.vertexBuffers fun vertexBuffer => do
    let _ ← call (.DestroyBuffer buf.device vertexBuffer)

/-! ## Graphics pipeline -/

/-- Function `LoadShader`: read the file, then create the shader module. The
code words are passed as the bytes read. -/
def LoadShader (device : Handle) (pathToShader : String) :
    VkM (Handle × Option GoError) := do
  let file ← call (.ReadFile pathToShader)
  if vkError file.result then
    pure (NullHandle, some (.assetNotFound pathToShader))
  else do
    let ret ← call (.CreateShaderModule device file.bytes.length file.bytes)
    if vkError ret.result then
      pure (ret.handle, some (.failedWith "vk.CreateShaderModule" ret.result))
    else
      pure (ret.handle, none)

/-- The create info `CreateGraphicsPipeline` fills in. -/
def pipelineCreateInfo (displaySize : Extent2D) (renderPass layout vertexShader
    fragmentShader : Handle) : GraphicsPipelineCreateInfo := {
  StageCount := 2
  PStages := [
    { Stage := ShaderStageVertexBit, Module := vertexShader, PName := "main\x00" },
    { Stage := ShaderStageFragmentBit, Module := fragmentShader, PName := "main\x00" }]
  VertexBinding := 0
  VertexStride := 3 * 4
  VertexInputRate := VertexInputRateVertex
  AttributeBinding := 0
  AttributeLocation := 0
  AttributeFormat := FormatR32g32b32Sfloat
  AttributeOffset := 0
  Topology := PrimitiveTopologyTriangleStrip
  PrimitiveRestartEnable := true
  ViewportCount := 1
  ViewportWidth := displaySize.Width
  ViewportHeight := displaySize.Height
  ScissorCount := 1
  ScissorExtent := displaySize
  PolygonMode := PolygonModeFill
  CullMode := CullModeNone
  FrontFace := FrontFaceClockwise
  RasterizationSamples := SampleCount1Bit
  BlendEnable := false
  Layout := layout
  RenderPass := renderPass }

/-- Function `CreateGraphicsPipeline`. The two deferred `DestroyShaderModule`
calls run at every return after their `defer`, last deferred first. -/
def CreateGraphicsPipeline (device : Handle) (displaySize : Extent2D) (renderPass : Handle) :
    VkM (VulkanGfxPipelineInfo × Option GoError) := do
  let gfxPipeline : VulkanGfxPipelineInfo := {}
  let ret ← call (.CreatePipelineLayout device)
  let gfxPipeline := { gfxPipeline with layout := ret.handle }
  if vkError ret.result then
    pure (gfxPipeline, some (.failedWith "vk.CreatePipelineLayout" ret.result))
  else do
    let (vertexShader, err) ← LoadShader device "./util/shader/vert.spv"
    if err.isSome then
      pure (gfxPipeline, err)
    else do
      let (fragmentShader, err) ← LoadShader device "./util/shader/frag.spv"
      if err.isSome then do
        let _ ← call (.DestroyShaderModule device vertexShader)
        pure (gfxPipeline, err)
      else do
        let ret ← call (.CreatePipelineCache device)
        let gfxPipeline := { gfxPipeline with cache := ret.handle }
        if vkError ret.result then do
          let _ ← call (.DestroyShaderModule device fragmentShader)
          let _ ← call (.DestroyShaderModule device vertexShader)
          pure (gfxPipeline, some (.failedWith "vk.CreatePipelineCache" ret.result))
        else do
          let ret ← call (.CreateGraphicsPipelines device gfxPipeline.cache 1
            [pipelineCreateInfo displaySize renderPass gfxPipeline.layout vertexShader
              fragmentShader])
          let pipelines := fill NullHandle 1 ret.handles
          if vkError ret.result then do
            let _ ← call (.DestroyShaderModule device fragmentShader)
            let _ ← call (.DestroyShaderModule device vertexShader)
            pure (gfxPipeline, some (.failedWith "vk.CreateGraphicsPipelines" ret.result))
          else do
            let pipeline ← index pipelines 0
            let gfxPipeline := { gfxPipeline with pipeline := pipeline, device := device }
            let _ ← call (.DestroyShaderModule device fragmentShader)
            let _ ← call (.DestroyShaderModule device vertexShader)
            pure (gfxPipeline, none)

/-! ## Reporting -/

/-- Function `getInstanceLayers`. -/
def getInstanceLayers : VkM (List String) := do
  let ret ← call (.EnumerateInstanceLayerProperties none)
  orPanic ret.result
  let instanceLayerLen := toUint32 ret.count
  let ret ← call (.EnumerateInstanceLayerProperties (some instanceLayerLen))
  orPanic ret.result
  pure (fill "" instanceLayerLen ret.names)

/-- Function `getDeviceLayers`. -/
def getDeviceLayers (gpu : Handle) : VkM (List String) := do
  let ret ← call (.EnumerateDeviceLayerProperties gpu none)
  orPanic ret.result
  let deviceLayerLen := toUint32 ret.count
  let ret ← call (.EnumerateDeviceLayerProperties gpu (some deviceLayerLen))
  orPanic ret.result
  pure (fill "" deviceLayerLen ret.names)

/-- Function `PrintInfo`, reduced to the backend queries it makes; the table it
prints is not modelled. -/
def PrintInfo (deviceInfo : VulkanDeviceInfo) : VkM Unit := do
  let gpu ← index deviceInfo.gpuDevices 0
  let _ ← call (.GetPhysicalDeviceProperties gpu)
  if deviceInfo.Surface != NullHandle then do
    let gpu ← index deviceInfo.gpuDevices 0
    let _ ← call (.GetPhysicalDeviceSurfaceCapabilities gpu deviceInfo.Surface)
    let gpu ← index deviceInfo.gpuDevices 0
    let _ ← call (.GetPhysicalDeviceSurfaceFormats gpu deviceInfo.Surface none)
  let _instanceExt ← getInstanceExtensions
  let gpu ← index deviceInfo.gpuDevices 0
  let _deviceExt ← getDeviceExtensions gpu
  let _instanceLayers ← getInstanceLayers
  let gpu ← index deviceInfo.gpuDevices 0
  let _deviceLayers ← getDeviceLayers gpu

/-! ## Teardown -/

/-- Method `Destroy` of `VulkanGfxPipelineInfo`, with its guard against a nil
receiver. -/
def VulkanGfxPipelineInfo.Destroy : Option VulkanGfxPipelineInfo → VkM Unit
  | none => pure ()
  | some pipelineInfo => do
    let _ ← call (.DestroyPipeline pipelineInfo.device pipelineInfo.pipeline)
    let _ ← call (.DestroyPipelineCache pipelineInfo.device pipelineInfo.cache)
    let _ ← call (.DestroyPipelineLayout pipelineInfo.device pipelineInfo.layout)

/-- Method `Destroy` of `VulkanSwapchainInfo`: framebuffer and image view of
each index below `SwapchainLen[0]`, then both slices are dropped, then every
swapchain. Nothing in the first loop writes `SwapchainLen`, so its bound is read
once. Returns the updated struct. -/
def VulkanSwapchainInfo.Destroy (swapchainInfo : VulkanSwapchainInfo) :
    VkM VulkanSwapchainInfo := do
  let n ← swapchainInfo.DefaultSwapchainLen
  forEach (List.range n) fun i => do
    let framebuffer ← index swapchainInfo.Framebuffers i
    let _ ← call (.DestroyFramebuffer swapchainInfo.Device framebuffer)
    let view ← index swapchainInfo.DisplayViews i
    let _ ← call (.DestroyImageView swapchainInfo.Device view)
  let swapchainInfo := { swapchainInfo with Framebuffers := [], DisplayViews := [] }
  forEach swapchainInfo.Swapchains fun swapchain => do
    let _ ← call (.DestroySwapchain swapchainInfo.Device swapchain)
  pure swapchainInfo

/-- The five process-wide structs of `Test.go`. -/
structure Globals where
  deviceInfo : VulkanDeviceInfo := {}
  swapChainInfo : VulkanSwapchainInfo := {}
  renderInfo : VulkanRenderInfo := {}
  bufferInfo : VulkanBufferInfo := {}
  pipelineInfo : VulkanGfxPipelineInfo := {}
  deriving DecidableEq, Repr

/-- Function `DestroyInOrder`; `pipelineInfo` is the one pointer whose callee
guards against nil. Returns the structs it wrote to. -/
def DestroyInOrder (deviceInfo : VulkanDeviceInfo) (swapchainInfo : VulkanSwapchainInfo)
    (renderInfo : VulkanRenderInfo) (bufferInfo : VulkanBufferInfo)
    (pipelineInfo : Option VulkanGfxPipelineInfo) :
    VkM (VulkanSwapchainInfo × VulkanRenderInfo) := do
  let _ ← call (.FreeCommandBuffers deviceInfo.Device renderInfo.cmdPool
    (toUint32 renderInfo.cmdBuffers.length) renderInfo.cmdBuffers)
  let renderInfo := { renderInfo with cmdBuffers := [] }
  let _ ← call (.DestroyCommandPool deviceInfo.Device renderInfo.cmdPool)
  let _ ← call (.DestroyRenderPass deviceInfo.Device renderInfo.RenderPass)
  let swapchainInfo ← swapchainInfo.Destroy
  VulkanGfxPipelineInfo.Destroy pipelineInfo
  bufferInfo.Destroy
  let _ ← call (.DestroyDevice deviceInfo.Device)
  if deviceInfo.dbg != NullHandle then do
    let _ ← call (.DestroyDebugReportCallback deviceInfo.Instance deviceInfo.dbg)
  let _ ← call (.DestroyInstance deviceInfo.Instance)
  pure (swapchainInfo, renderInfo)

/-- Method `Destroy` of `VulkanDeviceInfo`, with its guard against a nil
receiver. -/
def VulkanDeviceInfo.Destroy : Option VulkanDeviceInfo → VkM (Option VulkanDeviceInfo)
  | none => pure none
  | some deviceInfo => do
    let deviceInfo := { deviceInfo with gpuDevices := [] }
    let _ ← call (.DestroyDevice deviceInfo.Device)
    let _ ← call (.DestroyInstance deviceInfo.Instance)
    pure (some deviceInfo)

/-! ## `Test.go`: start-up, swapchain rebuild and the frame loop -/

/-- Function `recreateSwapChain` of `Test.go`, statement by statement. Only
`swapChainInfo.Destroy`, `swapChainInfo.CreateFramebuffers` and
`renderInfo.CreateCommandBuffers` write to the globals (through their pointer
receivers); the values the other four calls return are dropped, as in the
source. -/
def recreateSwapChain (g : Globals) : VkM Globals := do
  let _ ← call (.DeviceWaitIdle g.deviceInfo.Device)
  let swapChainInfo ← g.swapChainInfo.Destroy
  let g := { g with swapChainInfo := swapChainInfo }
  let _ ← g.deviceInfo.CreateSwapchain
  let _ ← CreateRenderer g.deviceInfo.Device g.swapChainInfo.DisplayFormat
  let (swapChainInfo, _) ← g.swapChainInfo.CreateFramebuffers g.renderInfo.RenderPass NullHandle
  let g := { g with swapChainInfo := swapChainInfo }
  let _ ← g.deviceInfo.CreateBuffers
  let _ ← CreateGraphicsPipeline g.deviceInfo.Device g.swapChainInfo.DisplaySize
    g.renderInfo.RenderPass
  let n ← g.swapChainInfo.DefaultSwapchainLen
  let (renderInfo, _) ← g.renderInfo.CreateCommandBuffers n
  pure { g with renderInfo := renderInfo }

/-- The helper `orPanic` of `Test.go` applied to a Go `error`. -/
def orPanicErr (err : Option GoError) : VkM Unit :=
  if err.isSome then goPanic else pure ()

/-- The surface factory `main` hands to `NewVulkanDevice`. -/
def createSurface (inst : Handle) : VkM Handle := do
  let ret ← call (.CreateSurface inst)
  orPanic ret.result
  pure ret.handle

/-- The start-up part of `main`, from `NewVulkanDevice` to `VulkanInit`;
`instanceExtensions` is what the window system requires. -/
def startUp (instanceExtensions : List String) : VkM Globals := do
  let (deviceInfo, err) ← NewVulkanDevice instanceExtensions createSurface
  orPanicErr err
  let (swapChainInfo, err) ← deviceInfo.CreateSwapchain
  orPanicErr err
  let (renderInfo, err) ← CreateRenderer deviceInfo.Device swapChainInfo.DisplayFormat
  orPanicErr err
  let (swapChainInfo, err) ← swapChainInfo.CreateFramebuffers renderInfo.RenderPass NullHandle
  orPanicErr err
  let (bufferInfo, err) ← deviceInfo.CreateBuffers
  orPanicErr err
  let (pipelineInfo, err) ← CreateGraphicsPipeline deviceInfo.Device swapChainInfo.DisplaySize
    renderInfo.RenderPass
  orPanicErr err
  let n ← swapChainInfo.DefaultSwapchainLen
  let (renderInfo, err) ← renderInfo.CreateCommandBuffers n
  orPanicErr err
  PrintInfo deviceInfo
  let renderInfo ← VulkanInit deviceInfo swapChainInfo renderInfo bufferInfo pipelineInfo
  pure {
    deviceInfo := deviceInfo
    swapChainInfo := swapChainInfo
    renderInfo := renderInfo
    bufferInfo := bufferInfo
    pipelineInfo := pipelineInfo }

/-- Which case the `select` of the frame loop takes in one round. -/
inductive LoopEvent where
  | exit
  | tick
  deriving DecidableEq, Repr

/-- Where the frame loop stands after a round: still looping (with the number
of messages waiting in `exitC`), returned from `main`, or stuck sending to the
full channel `exitC`. -/
inductive LoopState where
  | running (g : Globals) (pending : Nat)
  | returned
  | blocked
  deriving DecidableEq, Repr

/-- One round of the `for`/`select` loop of `main`. -/
def loopRound (g : Globals) (pending : Nat) : LoopEvent → VkM LoopState
  | .exit => do
    let _ ← DestroyInOrder g.deviceInfo g.swapChainInfo g.renderInfo g.bufferInfo
      (some g.pipelineInfo)
    let _ ← call .WindowDestroy
    let _ ← call .GlfwTerminate
    pure .returned
  | .tick => do
    let shouldClose ← call .WindowShouldClose
    if shouldClose.flag then
      if pending < 2 then pure (.running g (pending + 1)) else pure .blocked
    else do
      let _ ← call .PollEvents
      let _ ← VulkanDrawFrame g.deviceInfo g.swapChainInfo g.renderInfo
      pure (.running g pending)

/-- The frame loop of `main` under a schedule of `select` choices. -/
def frameLoop : LoopState → List LoopEvent → VkM LoopState
  | .running g pending, e :: rest => do
    let st ← loopRound g pending e
    frameLoop st rest
  | st, _ => pure st

/-! ## Concrete backends -/

/-- Number of events of a given kind in a trace. -/
def countKind (k : CallKind) (t : Trace) : Nat :=
  (t.filter fun e => e.call.kind == k).length

/-- The entries of a trace of a given kind. -/
def eventsOfKind (k : CallKind) (t : Trace) : Trace :=
  t.filter fun e => e.call.kind == k

/-- How many outputs a call asks for in its output array. -/
def Call.capacity : Call → Nat
  | .EnumeratePhysicalDevices _ (some n) => n
  | .GetSwapchainImages _ _ (some n) => n
  | .AllocateCommandBuffers _ info => info.CommandBufferCount
  | .CreateGraphicsPipelines _ _ n _ => n
  | _ => 0

/-- The swapchains destroyed in a trace, oldest first. -/
def destroyedSwapchains (t : Trace) : List Handle :=
  t.filterMap fun e =>
    match e.call with
    | .DestroySwapchain _ h => some h
    | _ => none

/-- What varies between the fake drivers: the image count and the surface size
reported after a given trace, and whether a new swapchain takes over the handle
of the swapchain destroyed last (as an allocator that reuses freed slots does)
or gets a fresh one. -/
structure FakeDriver where
  images : Trace → Nat
  extent : Trace → Extent2D
  reuseHandles : Bool

/-- A driver on which every call succeeds: one GPU, one BGRA8 surface format,
and a handle never handed out before for every object created, unless the
driver reuses swapchain handles. -/
def fakeReply (cfg : FakeDriver) (t : Trace) (c : Call) : Reply := {
  result := Success
  handle :=
    match c with
    | .CreateSwapchain .. =>
      if cfg.reuseHandles then (destroyedSwapchains t).getLast?.getD (100 * (t.length + 1))
      else 100 * (t.length + 1)
    | _ => 100 * (t.length + 1)
  index := countKind .AcquireNextImage t % 2
  count :=
    match c with
    | .EnumeratePhysicalDevices .. => 1
    | .GetPhysicalDeviceSurfaceFormats .. => 1
    | .GetSwapchainImages .. => cfg.images t
    | .Memcopy _ src => sizeofFloat32Array src
    | _ => 0
  flag := false
  handles := (List.range c.capacity).map fun i => 100 * (t.length + 1) + i + 1
  names := []
  formats := [{ Format := FormatB8g8r8a8Unorm, ColorSpace := 0 }]
  capabilities := { MinImageCount := 2, MaxImageCount := 8, CurrentExtent := cfg.extent t }
  size := 36
  typeBits := 1
  bytes := [3, 2, 35, 7] }

/-- The succeeding driver with a 500 x 500 surface whose swapchains always have
two images; every handle is fresh. -/
def steadyBackend : Backend :=
  { reply := fakeReply {
      images := fun _ => 2
      extent := fun _ => { Width := 500, Height := 500 }
      reuseHandles := false } }

/-- The succeeding driver of a window that is resized when the first swapchain
is destroyed: the surface is 500 x 500 before and 800 x 600 after; two images
always, every handle fresh. -/
def resizingBackend : Backend :=
  { reply := fakeReply {
      images := fun _ => 2
      extent := fun t =>
        if countKind .DestroySwapchain t = 0 then { Width := 500, Height := 500 }
        else { Width := 800, Height := 600 }
      reuseHandles := false } }

/-- The succeeding driver that reuses the handle of a destroyed swapchain for
the next one created, and on which every swapchain has one image more than the
one before (two for the first).  At most one swapchain is alive at a time in
the runs considered, so the image count reported is that of the swapchain the
queried handle denotes. -/
def recyclingBackend : Backend :=
  { reply := fakeReply {
      images := fun t => 1 + countKind .CreateSwapchain t
      extent := fun _ => { Width := 500, Height := 500 }
      reuseHandles := true } }

/-- The succeeding driver of a machine without a GPU: as the steady driver,
except that the enumeration of physical devices reports none. -/
def noGpuBackend : Backend :=
  { reply := fun t c =>
      if c.kind = .EnumeratePhysicalDevices then
        { steadyBackend.reply t c with count := 0, handles := [] }
      else steadyBackend.reply t c }

/-- The steady driver, except that every call of kind `k` returns `code`. -/
def failingBackend (k : CallKind) (code : Int) : Backend :=
  { reply := fun t c =>
      if c.kind = k then { steadyBackend.reply t c with result := code }
      else steadyBackend.reply t c }

/-- The steady driver, except that every acquire hands out image index `i`. -/
def fixedIndexBackend (i : Nat) : Backend :=
  { reply := fun t c => { steadyBackend.reply t c with index := i } }

/-- Every reply of the backend carries `vk.Success`. -/
def AllSucceed (b : Backend) : Prop :=
  ∀ t c, (b.reply t c).result = Success

/-! ## Sample state -/

/-- A device context with distinct handles. -/
def sampleDevice : VulkanDeviceInfo :=
  { gpuDevices := [1], Instance := 2, Surface := 3, Queue := 4, Device := 5 }

/-- A swapchain of two images with its views and framebuffers. -/
def sampleSwapchain : VulkanSwapchainInfo :=
  { Device := 5, Swapchains := [6], SwapchainLen := [2],
    DisplaySize := { Width := 500, Height := 500 }, DisplayFormat := FormatB8g8r8a8Unorm,
    Framebuffers := [9, 10], DisplayViews := [7, 8] }

/-- A swapchain of four images with its views and framebuffers. -/
def wideSwapchain : VulkanSwapchainInfo :=
  { Device := 5, Swapchains := [6], SwapchainLen := [4],
    DisplaySize := { Width := 500, Height := 500 }, DisplayFormat := FormatB8g8r8a8Unorm,
    Framebuffers := [25, 26, 27, 28], DisplayViews := [21, 22, 23, 24] }

/-- Render state with two command buffers, one semaphore and one fence. -/
def sampleRender : VulkanRenderInfo :=
  { device := 5, RenderPass := 11, cmdPool := 12, cmdBuffers := [13, 14],
    semaphores := [16], fences := [15] }

/-- One vertex buffer. -/
def sampleBuffer : VulkanBufferInfo := { device := 5, vertexBuffers := [17] }

/-- A built pipeline. -/
def samplePipeline : VulkanGfxPipelineInfo :=
  { device := 5, layout := 18, cache := 19, pipeline := 20 }

/-! ## Reading a trace -/

/-- The command buffers the `QueueSubmit` calls of a trace hand to the queue:
of each call the first `submitCount` submit infos, of each of them the first
`CommandBufferCount` entries of `PCommandBuffers`. -/
def submittedBuffers (t : Trace) : List Handle :=
  t.flatMap fun e =>
    match e.call with
    | .QueueSubmit _ submitCount submits _ =>
      (submits.take submitCount).flatMap fun info =>
        info.PCommandBuffers.take info.CommandBufferCount
    | _ => []

/-- The (swapchain, image index) pairs the `QueuePresent` calls of a trace
present: of each call the first `SwapchainCount` pairs. -/
def presentedImages (t : Trace) : List (Handle × Nat) :=
  t.flatMap fun e =>
    match e.call with
    | .QueuePresent _ info => (info.PSwapchains.zip info.PImageIndices).take info.SwapchainCount
    | _ => []

/-- The handles returned by the calls of kind `k` in a trace. -/
def createdHandles (k : CallKind) (t : Trace) : List Handle :=
  (eventsOfKind k t).map fun e => e.reply.handle

/-- Computation `m` always returns, and the calls it makes are exactly `cs`,
whatever the backend answers. -/
def EmitsCalls {α : Type} (m : VkM α) (cs : List Call) : Prop :=
  ∀ b t, ∃ a l, m b t = .ok a (t ++ l) ∧ l.map (fun e => e.call) = cs

/-- Computation `m` never makes a call of kind `k`: whatever the backend
answers and however the run ends, the events it adds are of other kinds. -/
def Avoids {α : Type} (k : CallKind) (m : VkM α) : Prop :=
  ∀ b t, ∃ l, (m b t).trace = t ++ l ∧ ∀ e ∈ l, e.call.kind ≠ k

/-- Whenever computation `m` returns, the value it returns satisfies `P`. -/
def Returns {α : Type} (m : VkM α) (P : α → Prop) : Prop :=
  ∀ b t a t1, m b t = .ok a t1 → P a

/-- The fields of a `VulkanSwapchainInfo` that describe the swapchain itself
(all but the two slices of per-image objects) agree. -/
def SameSwapchain (s s1 : VulkanSwapchainInfo) : Prop :=
  s1.Device = s.Device ∧ s1.Swapchains = s.Swapchains ∧ s1.SwapchainLen = s.SwapchainLen ∧
    s1.DisplaySize = s.DisplaySize ∧ s1.DisplayFormat = s.DisplayFormat

/-- The object a destroy or free call releases (for `FreeCommandBuffers` the
pool is not released, so it has none). -/
def Call.destroyed : Call → Option Handle
  | .DestroySurface _ h => some h
  | .DestroyInstance h => some h
  | .DestroyDebugReportCallback _ h => some h
  | .DestroyDevice h => some h
  | .DestroySwapchain _ h => some h
  | .DestroyImageView _ h => some h
  | .DestroyFramebuffer _ h => some h
  | .DestroyRenderPass _ h => some h
  | .DestroyCommandPool _ h => some h
  | .DestroyBuffer _ h => some h
  | .DestroyShaderModule _ h => some h
  | .DestroyPipelineLayout _ h => some h
  | .DestroyPipelineCache _ h => some h
  | .DestroyPipeline _ h => some h
  | _ => none

/-- The handles released by the destroy calls of a trace. -/
def destroyedHandles (t : Trace) : List Handle :=
  t.filterMap fun e => e.call.destroyed

/-- The extents the `CreateSwapchain` calls of a trace ask for. -/
def requestedExtents (t : Trace) : List Extent2D :=
  t.flatMap fun e =>
    match e.call with
    | .CreateSwapchain _ info => [info.ImageExtent]
    | _ => []

/-- The command buffer a recording call writes to. -/
def Call.recorded : Call → Option Handle
  | .BeginCommandBuffer cmd => some cmd
  | .CmdBeginRenderPass cmd _ _ => some cmd
  | .CmdBindPipeline cmd _ _ => some cmd
  | .CmdBindVertexBuffers cmd _ _ _ _ => some cmd
  | .CmdDraw cmd _ _ _ _ => some cmd
  | .CmdEndRenderPass cmd => some cmd
  | .EndCommandBuffer cmd => some cmd
  | _ => none

/-- The command buffers the recording calls of a trace write to. -/
def recordedBuffers (t : Trace) : List Handle :=
  t.filterMap fun e => e.call.recorded

/-- The kinds of call that record into a command buffer. -/
def recordingKinds : List CallKind :=
  [.BeginCommandBuffer, .CmdBeginRenderPass, .CmdBindPipeline, .CmdBindVertexBuffers,
   .CmdDraw, .CmdEndRenderPass, .EndCommandBuffer]

/-! ## Runs of `main` -/

/-- Start-up (no instance extensions required) followed by one call of
`recreateSwapChain`. -/
def rebuildRun (b : Backend) : Res Globals :=
  (startUp [] >>= recreateSwapChain) b []

/-- The events of the rebuild in `rebuildRun`: those after start-up. -/
def rebuildEvents (b : Backend) : Trace :=
  (rebuildRun b).trace.drop (startUp [] b []).trace.length

/-- Start-up followed by the frame loop under a schedule. -/
def mainRun (schedule : List LoopEvent) (b : Backend) : Res LoopState :=
  (startUp [] >>= fun g => frameLoop (.running g 0) schedule) b []

/-- The events of the frame loop in `mainRun`: those after start-up. -/
def loopEvents (schedule : List LoopEvent) (b : Backend) : Trace :=
  (mainRun schedule b).trace.drop (startUp [] b []).trace.length


/-! ## Handle tracking -/

/-- The handles a successful create or allocate call hands to the program: the
one output handle, or for the two array-filling calls the outputs cut or padded
to the size of the array. A failed call creates nothing. -/
def Event.created (e : Event) : List Handle :=
  if vkError e.reply.result then []
  else
    match e.call with
    | .CreateInstance _ => [e.reply.handle]
    | .CreateSurface _ => [e.reply.handle]
    | .CreateDevice _ _ => [e.reply.handle]
    | .CreateDebugReportCallback _ _ => [e.reply.handle]
    | .CreateSwapchain _ _ => [e.reply.handle]
    | .CreateImageView _ _ => [e.reply.handle]
    | .CreateFramebuffer _ _ => [e.reply.handle]
    | .CreateRenderPass _ _ => [e.reply.handle]
    | .CreateCommandPool _ _ _ => [e.reply.handle]
    | .AllocateCommandBuffers _ info =>
      fill NullHandle info.CommandBufferCount e.reply.handles
    | .CreateBuffer _ _ => [e.reply.handle]
    | .AllocateMemory _ _ => [e.reply.handle]
    | .CreateShaderModule _ _ _ => [e.reply.handle]
    | .CreatePipelineLayout _ => [e.reply.handle]
    | .CreatePipelineCache _ => [e.reply.handle]
    | .CreateGraphicsPipelines _ _ count _ => fill NullHandle count e.reply.handles
    | .CreateFence _ => [e.reply.handle]
    | .CreateSemaphore _ => [e.reply.handle]
    | _ => []

/-- The handles a call releases: the object of a destroy call, or the first
`count` command buffers of a `FreeCommandBuffers` call. -/
def Call.released : Call → List Handle
  | .FreeCommandBuffers _ _ count buffers => buffers.take count
  | c => c.destroyed.toList

/-- The handles created in a trace, each with the kind of call that made it. -/
def createdIn (t : Trace) : List (CallKind × Handle) :=
  t.flatMap fun e => e.created.map fun h => (e.call.kind, h)

/-- The handles released in a trace. -/
def releasedIn (t : Trace) : List Handle :=
  t.flatMap fun e => e.call.released

/-- The handles created in a trace and never released in it, each with the
kind of call that made it. -/
def leakedIn (t : Trace) : List (CallKind × Handle) :=
  (createdIn t).filter fun p => !(releasedIn t).contains p.2


/-- The kinds of call `DestroyInOrder` can make. -/
def teardownKinds : List CallKind :=
  [.FreeCommandBuffers, .DestroyCommandPool, .DestroyRenderPass, .DestroyFramebuffer,
   .DestroyImageView, .DestroySwapchain, .DestroyPipeline, .DestroyPipelineCache,
   .DestroyPipelineLayout, .DestroyBuffer, .DestroyDevice, .DestroyDebugReportCallback,
   .DestroyInstance]

/-- The kinds of call `CreateGraphicsPipeline` can make. -/
def pipelineBuildKinds : List CallKind :=
  [.CreatePipelineLayout, .ReadFile, .CreateShaderModule, .DestroyShaderModule,
   .CreatePipelineCache, .CreateGraphicsPipelines]

/-! ## Vertex data and the draw -/

/-- The vertex counts of the `CmdDraw` calls of a trace. -/
def drawnVertexCounts (t : Trace) : List Nat :=
  t.flatMap fun e =>
    match e.call with
    | .CmdDraw _ vertexCount _ _ _ => [vertexCount]
    | _ => []

/-- The vertex strides (bytes per vertex) of the pipelines a trace asks for. -/
def vertexStrides (t : Trace) : List Nat :=
  t.flatMap fun e =>
    match e.call with
    | .CreateGraphicsPipelines _ _ count infos =>
      (infos.take count).map fun info => info.VertexStride
    | _ => []

/-- The sizes in bytes of the buffers a trace asks for. -/
def createdBufferSizes (t : Trace) : List Nat :=
  t.flatMap fun e =>
    match e.call with
    | .CreateBuffer _ info => [info.Size]
    | _ => []


/-- The handles released by the calls of kind `k` of a trace, in order. -/
def destroyedOfKind (k : CallKind) (t : Trace) : List Handle :=
  t.filterMap fun e => if e.call.kind = k then e.call.destroyed else none


/-! ## Runs that destroy a swapchain -/

/-- Create the swapchain of the sample device and destroy it at once. -/
def createThenDestroy : VkM VulkanSwapchainInfo := do
  let (s, _) ← sampleDevice.CreateSwapchain
  s.Destroy

/-- Create the swapchain of the sample device and its framebuffers, then
destroy the swapchain context `rounds` times in a row. -/
def createThenDestroyTimes (renderPass : Handle) :
    Nat → VkM (VulkanSwapchainInfo × Option GoError)
  | 0 => do
    let (s, _) ← sampleDevice.CreateSwapchain
    s.CreateFramebuffers renderPass NullHandle
  | rounds + 1 => do
    let (s, err) ← createThenDestroyTimes renderPass rounds
    let s ← s.Destroy
    pure (s, err)


/-- The test the format search of `CreateSwapchain` applies to an entry. -/
def preferredFormat (f : SurfaceFormat) : Bool :=
  f.Format == FormatB8g8r8a8Unorm || f.Format == FormatR8g8b8a8Unorm


/-! ## The recording the specification describes -/

/-- The call sequence the specification gives for command buffer `i`: begin,
begin render pass on `Framebuffers[i]` with one clear value, bind pipeline,
bind vertex buffers from binding 0 with zero offsets, draw `(4, 1, 0, 0)`, end
render pass, end. -/
def expectedRecording (s : VulkanSwapchainInfo) (r : VulkanRenderInfo)
    (bufferInfo : VulkanBufferInfo) (gfx : VulkanGfxPipelineInfo) (i : Nat) : List Call :=
  let cmd := r.cmdBuffers.getD i NullHandle
  [ .BeginCommandBuffer cmd,
    .CmdBeginRenderPass cmd
      { RenderPass := r.RenderPass
        Framebuffer := s.Framebuffers.getD i NullHandle
        OffsetX := 0
        OffsetY := 0
        Extent := s.DisplaySize
        ClearValueCount := 1
        PClearValues := [[98, 710, 996, 1000]] }
      SubpassContentsInline,
    .CmdBindPipeline cmd PipelineBindPointGraphics gfx.pipeline,
    .CmdBindVertexBuffers cmd 0 1 bufferInfo.vertexBuffers
      (List.replicate bufferInfo.vertexBuffers.length 0),
    .CmdDraw cmd 4 1 0 0,
    .CmdEndRenderPass cmd,
    .EndCommandBuffer cmd ]


/-- The kinds of call by which `NewVulkanDevice` creates the instance, finds
the GPUs, creates the logical device and fetches its queue; the surface
factory handed to it is expected to leave them alone. -/
def deviceSetupKinds : List CallKind :=
  [.CreateInstance, .EnumeratePhysicalDevices, .CreateDevice, .GetDeviceQueue]


/-- Whether a call of the enumerate style asks for the count only (its output
array is `nil`). -/
def Call.countOnly : Call → Bool
  | .EnumerateInstanceExtensionProperties none => true
  | .EnumeratePhysicalDevices _ none => true
  | .EnumerateDeviceExtensionProperties _ none => true
  | .GetPhysicalDeviceSurfaceFormats _ _ none => true
  | .GetSwapchainImages _ _ none => true
  | .EnumerateInstanceLayerProperties none => true
  | .EnumerateDeviceLayerProperties _ none => true
  | _ => false


/-! ## Properties of the monad -/

theorem bind_apply {α β : Type} (m : VkM α) (f : α → VkM β) (b : Backend) (t : Trace) :
    (m >>= f) b t = match m b t with
      | .ok a t1 => f a b t1
      | .panic t1 => .panic t1 := rfl

theorem pure_apply {α : Type} (a : α) (b : Backend) (t : Trace) :
    (pure a : VkM α) b t = .ok a t := rfl

theorem ev_call (b : Backend) (t : Trace) (c : Call) : (ev b t c).call = c := rfl

theorem ev_reply (b : Backend) (t : Trace) (c : Call) : (ev b t c).reply = b.reply t c := rfl

theorem call_apply (c : Call) (b : Backend) (t : Trace) :
    call c b t = .ok (ev b t c).reply (t ++ [ev b t c]) := rfl

theorem goPanic_apply {α : Type} (b : Backend) (t : Trace) :
    (goPanic : VkM α) b t = .panic t := rfl

theorem ite_apply_vk {α : Type} (c : Prop) [Decidable c] (x y : VkM α) (b : Backend) (t : Trace) :
    (if c then x else y) b t = if c then x b t else y b t := by
  split <;> rfl

theorem drawFrame_cases (b : Backend) (t : Trace) (d : VulkanDeviceInfo)
    (s : VulkanSwapchainInfo) (r : VulkanRenderInfo) :
    (VulkanDrawFrame d s r b t = .panic t ∧ (s.Swapchains = [] ∨ r.semaphores = [])) ∨
    ∃ sc scs sem sems, s.Swapchains = sc :: scs ∧ r.semaphores = sem :: sems ∧
    ∃ e1, e1 = ev b t (.AcquireNextImage d.Device sc MaxUint64 sem NullHandle) ∧
    ((vkError e1.reply.result = true ∧ VulkanDrawFrame d s r b t = .ok false (t ++ [e1])) ∨
     (vkError e1.reply.result = false ∧
      ∃ e2, e2 = ev b (t ++ [e1]) (.ResetFences d.Device 1 r.fences) ∧
      ((VulkanDrawFrame d s r b t = .panic (t ++ [e1, e2]) ∧
          (r.cmdBuffers.length < toUint32 e1.reply.index ∨ r.fences = [])) ∨
       (∃ f fs, r.fences = f :: fs ∧ toUint32 e1.reply.index ≤ r.cmdBuffers.length ∧
        ∃ e3, e3 = ev b (t ++ [e1, e2]) (.QueueSubmit d.Queue 1
            [{ WaitSemaphoreCount := 1, PWaitSemaphores := r.semaphores,
               CommandBufferCount := 1,
               PCommandBuffers := r.cmdBuffers.drop (toUint32 e1.reply.index) }] f) ∧
        ((vkError e3.reply.result = true ∧
            VulkanDrawFrame d s r b t = .ok false (t ++ [e1, e2, e3])) ∨
         (vkError e3.reply.result = false ∧
          ∃ e4, e4 = ev b (t ++ [e1, e2, e3])
              (.WaitForFences d.Device 1 r.fences true timeoutNano) ∧
          ((vkError e4.reply.result = true ∧
              VulkanDrawFrame d s r b t = .ok false (t ++ [e1, e2, e3, e4])) ∨
           (vkError e4.reply.result = false ∧
            ∃ e5, e5 = ev b (t ++ [e1, e2, e3, e4]) (.QueuePresent d.Queue
                { SwapchainCount := 1, PSwapchains := s.Swapchains,
                  PImageIndices := [toUint32 e1.reply.index] }) ∧
              VulkanDrawFrame d s r b t =
                .ok (!vkError e5.reply.result) (t ++ [e1, e2, e3, e4, e5]))))))))) := by
  simp only [VulkanDrawFrame, VulkanSwapchainInfo.DefaultSwapchain,
    VulkanRenderInfo.DefaultSemaphore, VulkanRenderInfo.DefaultFence, index, sliceFrom,
    bind_apply, pure_apply, goPanic_apply, call_apply, ite_apply_vk]
  rcases hs : s.Swapchains with _ | ⟨sc, scs⟩
  · left; simp [goPanic_apply]
  rcases hr : r.semaphores with _ | ⟨sem, sems⟩
  · left; simp [goPanic_apply, pure_apply]
  right
  refine ⟨sc, scs, sem, sems, rfl, rfl, _, rfl, ?_⟩
  simp only [List.getElem?_cons_zero, pure_apply, call_apply]
  generalize ev b t (.AcquireNextImage d.Device sc MaxUint64 sem NullHandle) = e1
  cases ha : vkError e1.reply.result
  swap
  · left; simp
  right
  refine ⟨rfl, _, rfl, ?_⟩
  simp only [Bool.false_eq_true, if_false]
  generalize ev b (t ++ [e1]) (.ResetFences d.Device 1 r.fences) = e2
  by_cases hi : toUint32 e1.reply.index ≤ r.cmdBuffers.length
  swap
  · left; simp [hi, goPanic_apply]; omega
  rcases hf : r.fences with _ | ⟨f, fs⟩
  · left; simp [hi, pure_apply, goPanic_apply]
  right
  refine ⟨f, fs, rfl, hi, _, rfl, ?_⟩
  simp only [hi, if_true, pure_apply, List.getElem?_cons_zero, call_apply, List.append_assoc,
    List.singleton_append]
  generalize ev b (t ++ [e1, e2]) _ = e3
  cases h3 : vkError e3.reply.result
  swap
  · left; simp
  right
  refine ⟨rfl, _, rfl, ?_⟩
  simp only [Bool.false_eq_true, if_false, List.append_assoc, List.cons_append,
    List.nil_append]
  generalize ev b (t ++ [e1, e2, e3]) _ = e4
  cases h4 : vkError e4.reply.result
  swap
  · left; simp
  right
  refine ⟨rfl, _, rfl, ?_⟩
  simp only [Bool.false_eq_true, if_false, List.append_assoc, List.cons_append,
    List.nil_append]
  generalize ev b (t ++ [e1, e2, e3, e4]) _ = e5
  cases h5 : vkError e5.reply.result <;> simp

theorem newEvents_of_ok {α : Type} (m : VkM α) (b : Backend) (t l : Trace) (a : α)
    (h : m b t = .ok a (t ++ l)) : newEvents m b t = l := by
  simp [newEvents, h, Res.trace]

theorem newEvents_of_panic {α : Type} (m : VkM α) (b : Backend) (t l : Trace)
    (h : m b t = .panic (t ++ l)) : newEvents m b t = l := by
  simp [newEvents, h, Res.trace]

theorem newEvents_of_panic_nil {α : Type} (m : VkM α) (b : Backend) (t : Trace)
    (h : m b t = .panic t) : newEvents m b t = [] := by
  simp [newEvents, h, Res.trace]

/-- C1. Whenever the `AcquireNextImage` call of a tick returns a non-success
result, whatever the state and the backend, `VulkanDrawFrame` returns false
and the tick contains no `QueueSubmit` and no `QueuePresent` call. -/
theorem drawFrame_acquire_failure (b : Backend) (t : Trace) (d : VulkanDeviceInfo)
    (s : VulkanSwapchainInfo) (r : VulkanRenderInfo)
    (h : ∃ e ∈ newEvents (VulkanDrawFrame d s r) b t,
      e.call.kind = .AcquireNextImage ∧ e.reply.result ≠ Success) :
    (VulkanDrawFrame d s r b t).val? = some false ∧
    ∀ e ∈ newEvents (VulkanDrawFrame d s r) b t,
      e.call.kind ≠ .QueueSubmit ∧ e.call.kind ≠ .QueuePresent := by
  rcases drawFrame_cases b t d s r with ⟨hp, _⟩ | ⟨sc, scs, sem, sems, -, -, e1, he1, hrest⟩
  · rw [newEvents_of_panic_nil _ _ _ hp] at h
    simp at h
  have k1 : e1.call.kind = .AcquireNextImage := by rw [he1]; rfl
  rcases hrest with ⟨ha, hres⟩ | ⟨ha, e2, he2, hrest⟩
  · rw [newEvents_of_ok _ _ _ _ _ hres, hres]
    simp [Res.val?, k1]
  exfalso
  have k2 : e2.call.kind = .ResetFences := by rw [he2]; rfl
  have r1 : e1.reply.result = Success := by simpa [vkError] using ha
  rcases hrest with ⟨hres, _⟩ | ⟨f, fs, -, -, e3, he3, hrest⟩
  · rw [newEvents_of_panic _ _ _ _ hres] at h
    simp [k1, k2, r1] at h
  have k3 : e3.call.kind = .QueueSubmit := by rw [he3]; rfl
  rcases hrest with ⟨_, hres⟩ | ⟨_, e4, he4, hrest⟩
  · rw [newEvents_of_ok _ _ _ _ _ hres] at h
    simp [k1, k2, k3, r1] at h
  have k4 : e4.call.kind = .WaitForFences := by rw [he4]; rfl
  rcases hrest with ⟨_, hres⟩ | ⟨_, e5, he5, hres⟩
  · rw [newEvents_of_ok _ _ _ _ _ hres] at h
    simp [k1, k2, k3, k4, r1] at h
  have k5 : e5.call.kind = .QueuePresent := by rw [he5]; rfl
  rw [newEvents_of_ok _ _ _ _ _ hres] at h
  simp [k1, k2, k3, k4, k5, r1] at h

/-- Witness of C1: the sample state on a driver whose acquire is out of date. -/
theorem drawFrame_acquire_failure_witness :
    (∃ e ∈ newEvents (VulkanDrawFrame sampleDevice sampleSwapchain sampleRender)
        (failingBackend .AcquireNextImage ErrorOutOfDate) [],
      e.call.kind = .AcquireNextImage ∧ e.reply.result ≠ Success) ∧
    (VulkanDrawFrame sampleDevice sampleSwapchain sampleRender
        (failingBackend .AcquireNextImage ErrorOutOfDate) []).val? = some false ∧
    ∀ e ∈ newEvents (VulkanDrawFrame sampleDevice sampleSwapchain sampleRender)
        (failingBackend .AcquireNextImage ErrorOutOfDate) [],
      e.call.kind ≠ .QueueSubmit ∧ e.call.kind ≠ .QueuePresent :=
  ⟨by decide!, drawFrame_acquire_failure _ _ _ _ _ (by decide!)⟩

/-- C4. `VulkanDrawFrame` returns true exactly when the tick contains an
`AcquireNextImage`, a `QueueSubmit`, a `WaitForFences` and a `QueuePresent`
call that each returned success; and then its calls are, in this order,
acquire (timeout 2^64-1, signalling `semaphores[0]`), `ResetFences(fences)`,
submit (waiting on the semaphores, signalling `fences[0]`), `WaitForFences`
(timeout 10^10 ns) and present. -/
theorem drawFrame_true_iff (b : Backend) (t : Trace) (d : VulkanDeviceInfo)
    (s : VulkanSwapchainInfo) (r : VulkanRenderInfo) :
    ((VulkanDrawFrame d s r b t).val? = some true ↔
      (∃ e ∈ newEvents (VulkanDrawFrame d s r) b t,
        e.call.kind = .AcquireNextImage ∧ e.reply.result = Success) ∧
      (∃ e ∈ newEvents (VulkanDrawFrame d s r) b t,
        e.call.kind = .QueueSubmit ∧ e.reply.result = Success) ∧
      (∃ e ∈ newEvents (VulkanDrawFrame d s r) b t,
        e.call.kind = .WaitForFences ∧ e.reply.result = Success) ∧
      (∃ e ∈ newEvents (VulkanDrawFrame d s r) b t,
        e.call.kind = .QueuePresent ∧ e.reply.result = Success)) ∧
    ((VulkanDrawFrame d s r b t).val? = some true →
      ∃ sc sem f i, s.Swapchains[0]? = some sc ∧ r.semaphores[0]? = some sem ∧
        r.fences[0]? = some f ∧
        (newEvents (VulkanDrawFrame d s r) b t).map (fun e => e.call) =
          [.AcquireNextImage d.Device sc (2 ^ 64 - 1) sem NullHandle,
           .ResetFences d.Device 1 r.fences,
           .QueueSubmit d.Queue 1
             [{ WaitSemaphoreCount := 1, PWaitSemaphores := r.semaphores,
                CommandBufferCount := 1, PCommandBuffers := r.cmdBuffers.drop i }] f,
           .WaitForFences d.Device 1 r.fences true 10000000000,
           .QueuePresent d.Queue
             { SwapchainCount := 1, PSwapchains := s.Swapchains, PImageIndices := [i] }]) := by
  rcases drawFrame_cases b t d s r with ⟨hp, _⟩ | ⟨sc, scs, sem, sems, hs, hr, e1, he1, hrest⟩
  · rw [newEvents_of_panic_nil _ _ _ hp, hp]
    simp [Res.val?]
  have k1 : e1.call.kind = .AcquireNextImage := by rw [he1]; rfl
  rcases hrest with ⟨ha, hres⟩ | ⟨ha, e2, he2, hrest⟩
  · rw [newEvents_of_ok _ _ _ _ _ hres, hres]
    simp [Res.val?, k1]
  have k2 : e2.call.kind = .ResetFences := by rw [he2]; rfl
  rcases hrest with ⟨hres, _⟩ | ⟨f, fs, hf, -, e3, he3, hrest⟩
  · rw [newEvents_of_panic _ _ _ _ hres, hres]
    simp [Res.val?, k1, k2]
  have k3 : e3.call.kind = .QueueSubmit := by rw [he3]; rfl
  rcases hrest with ⟨h3, hres⟩ | ⟨h3, e4, he4, hrest⟩
  · rw [newEvents_of_ok _ _ _ _ _ hres, hres]
    simp [Res.val?, k1, k2, k3]
  have k4 : e4.call.kind = .WaitForFences := by rw [he4]; rfl
  rcases hrest with ⟨h4, hres⟩ | ⟨h4, e5, he5, hres⟩
  · rw [newEvents_of_ok _ _ _ _ _ hres, hres]
    simp [Res.val?, k1, k2, k3, k4]
  have k5 : e5.call.kind = .QueuePresent := by rw [he5]; rfl
  have r1 : e1.reply.result = Success := by simpa [vkError] using ha
  have r3 : e3.reply.result = Success := by simpa [vkError] using h3
  have r4 : e4.reply.result = Success := by simpa [vkError] using h4
  rw [newEvents_of_ok _ _ _ _ _ hres, hres]
  constructor
  · simp [Res.val?, k1, k2, k3, k4, k5, r1, r3, r4, vkError]
  · intro _
    refine ⟨sc, sem, f, toUint32 e1.reply.index, by simp [hs], by simp [hr], by simp [hf], ?_⟩
    simp [he1, he2, he3, he4, he5, ev_call, MaxUint64, timeoutNano]

/-- Witness of C4: the sample state on the steady driver draws a frame. -/
theorem drawFrame_true_iff_witness :
    (VulkanDrawFrame sampleDevice sampleSwapchain sampleRender steadyBackend []).val?
      = some true :=
  (drawFrame_true_iff steadyBackend [] sampleDevice sampleSwapchain sampleRender).1.2
    (by decide!)

theorem take_one_drop {α : Type} (l : List α) (i : Nat) (h : i < l.length) :
    (l.drop i).take 1 = [l[i]] := by
  simp [List.take_one, List.head?_drop, List.getElem?_eq_getElem h]

/-- C3. When the acquire of a tick succeeds with image index `i` and
`i < len(cmdBuffers)`: what the tick submits is exactly the one command buffer
`cmdBuffers[i]` (nothing only in a state without a fence, where the tick
panics before the submit), what it presents is at most the one pair of
`Swapchains[0]` and image index `i`, and exactly that pair when the tick
returns true. -/
theorem drawFrame_uses_acquired_index (b : Backend) (t : Trace) (d : VulkanDeviceInfo)
    (s : VulkanSwapchainInfo) (r : VulkanRenderInfo) (i : Nat) (sc : Handle)
    (hacq : ∃ e ∈ newEvents (VulkanDrawFrame d s r) b t,
      e.call.kind = .AcquireNextImage ∧ e.reply.result = Success ∧
        toUint32 e.reply.index = i)
    (hi : i < r.cmdBuffers.length) (hsc : s.Swapchains[0]? = some sc) :
    submittedBuffers (newEvents (VulkanDrawFrame d s r) b t) =
      (if r.fences = [] then [] else [r.cmdBuffers[i]]) ∧
    (presentedImages (newEvents (VulkanDrawFrame d s r) b t) = [(sc, i)] ∨
      presentedImages (newEvents (VulkanDrawFrame d s r) b t) = []) ∧
    ((VulkanDrawFrame d s r b t).val? = some true →
      presentedImages (newEvents (VulkanDrawFrame d s r) b t) = [(sc, i)]) := by
  rcases drawFrame_cases b t d s r with ⟨hp, _⟩ | ⟨sc1, scs, sem, sems, hs, hr, e1, he1, hrest⟩
  · rw [newEvents_of_panic_nil _ _ _ hp] at hacq
    simp at hacq
  have hsc1 : sc1 = sc := by simpa [hs] using hsc
  subst hsc1
  have k1 : e1.call.kind = .AcquireNextImage := by rw [he1]; rfl
  have c1 : e1.call = .AcquireNextImage d.Device sc1 MaxUint64 sem NullHandle := by
    rw [he1]; rfl
  rcases hrest with ⟨ha, hres⟩ | ⟨ha, e2, he2, hrest⟩
  · rw [newEvents_of_ok _ _ _ _ _ hres] at hacq
    have : e1.reply.result ≠ Success := by simpa [vkError] using ha
    simp [k1, this] at hacq
  have k2 : e2.call.kind = .ResetFences := by rw [he2]; rfl
  have c2 : e2.call = .ResetFences d.Device 1 r.fences := by rw [he2]; rfl
  rcases hrest with ⟨hres, hbad⟩ | ⟨f, fs, hf, hle, e3, he3, hrest⟩
  · rw [newEvents_of_panic _ _ _ _ hres] at hacq ⊢
    have hidx : toUint32 e1.reply.index = i :=
      (by simpa [k1, k2] using hacq : _ ∧ _).2
    rcases hbad with hbad | hbad
    · omega
    · simp [hres, Res.val?, submittedBuffers, presentedImages, c1, c2, hbad]
  have k3 : e3.call.kind = .QueueSubmit := by rw [he3]; rfl
  have c3 : e3.call = .QueueSubmit d.Queue 1
      [{ WaitSemaphoreCount := 1, PWaitSemaphores := r.semaphores, CommandBufferCount := 1,
         PCommandBuffers := r.cmdBuffers.drop (toUint32 e1.reply.index) }] f := by
    rw [he3]; rfl
  have hidx : toUint32 e1.reply.index = i := by
    rcases hrest with ⟨_, hres⟩ | ⟨_, e4, he4, hrest⟩
    · rw [newEvents_of_ok _ _ _ _ _ hres] at hacq
      exact (by simpa [k1, k2, k3] using hacq : _ ∧ _).2
    have k4 : e4.call.kind = .WaitForFences := by rw [he4]; rfl
    rcases hrest with ⟨_, hres⟩ | ⟨_, e5, he5, hres⟩
    · rw [newEvents_of_ok _ _ _ _ _ hres] at hacq
      exact (by simpa [k1, k2, k3, k4] using hacq : _ ∧ _).2
    have k5 : e5.call.kind = .QueuePresent := by rw [he5]; rfl
    rw [newEvents_of_ok _ _ _ _ _ hres] at hacq
    exact (by simpa [k1, k2, k3, k4, k5] using hacq : _ ∧ _).2
  rw [hidx] at c3
  have hfne : r.fences ≠ [] := by simp [hf]
  rcases hrest with ⟨_, hres⟩ | ⟨_, e4, he4, hrest⟩
  · rw [newEvents_of_ok _ _ _ _ _ hres, hres]
    simp [Res.val?, submittedBuffers, presentedImages, c1, c2, c3, hfne, take_one_drop _ _ hi]
  have c4 : e4.call = .WaitForFences d.Device 1 r.fences true timeoutNano := by
    rw [he4]; rfl
  rcases hrest with ⟨_, hres⟩ | ⟨_, e5, he5, hres⟩
  · rw [newEvents_of_ok _ _ _ _ _ hres, hres]
    simp [Res.val?, submittedBuffers, presentedImages, c1, c2, c3, c4, hfne,
      take_one_drop _ _ hi]
  have c5 : e5.call = .QueuePresent d.Queue
      { SwapchainCount := 1, PSwapchains := s.Swapchains, PImageIndices := [i] } := by
    rw [he5, hidx]; rfl
  rw [newEvents_of_ok _ _ _ _ _ hres, hres]
  simp [Res.val?, submittedBuffers, presentedImages, c1, c2, c3, c4, c5, hfne,
    take_one_drop _ _ hi, hs]

/-- Witness of C3: the sample state on a driver that hands out image index 1. -/
theorem drawFrame_uses_acquired_index_witness :
    submittedBuffers (newEvents (VulkanDrawFrame sampleDevice sampleSwapchain sampleRender)
        (fixedIndexBackend 1) []) = [14] ∧
    (presentedImages (newEvents (VulkanDrawFrame sampleDevice sampleSwapchain sampleRender)
        (fixedIndexBackend 1) []) = [(6, 1)] ∨
      presentedImages (newEvents (VulkanDrawFrame sampleDevice sampleSwapchain sampleRender)
        (fixedIndexBackend 1) []) = []) ∧
    ((VulkanDrawFrame sampleDevice sampleSwapchain sampleRender (fixedIndexBackend 1)
        []).val? = some true →
      presentedImages (newEvents (VulkanDrawFrame sampleDevice sampleSwapchain sampleRender)
        (fixedIndexBackend 1) []) = [(6, 1)]) :=
  drawFrame_uses_acquired_index (fixedIndexBackend 1) [] sampleDevice sampleSwapchain
    sampleRender 1 6 (by decide!) (by decide) rfl

theorem vkError_of_allSucceed (b : Backend) (h : AllSucceed b) (t : Trace) (c : Call) :
    vkError (ev b t c).reply.result = false := by
  simp [ev_reply, h t c, vkError]

/-- Counterexample to C2 as stated: a state whose swapchain has four images
but which holds two command buffers. After a tick whose fence wait timed out,
a second tick on the same state, against a driver on which every call succeeds
and which hands out image index 3, panics (slice bounds out of range) instead
of returning true. -/
theorem drawFrame_after_timeout_counterexample :
    (∃ e ∈ newEvents (VulkanDrawFrame sampleDevice wideSwapchain sampleRender)
        (failingBackend .WaitForFences Timeout) [],
      e.call.kind = .AcquireNextImage ∧ e.reply.result = Success) ∧
    (∃ e ∈ newEvents (VulkanDrawFrame sampleDevice wideSwapchain sampleRender)
        (failingBackend .WaitForFences Timeout) [],
      e.call.kind = .QueueSubmit ∧ e.reply.result = Success) ∧
    (∃ e ∈ newEvents (VulkanDrawFrame sampleDevice wideSwapchain sampleRender)
        (failingBackend .WaitForFences Timeout) [],
      e.call.kind = .WaitForFences ∧ e.reply.result = Timeout) ∧
    AllSucceed (fixedIndexBackend 3) ∧
    (VulkanDrawFrame sampleDevice wideSwapchain sampleRender (fixedIndexBackend 3)
      (VulkanDrawFrame sampleDevice wideSwapchain sampleRender
        (failingBackend .WaitForFences Timeout) []).trace).val? = none :=
  ⟨by decide!, by decide!, by decide!, fun _ _ => rfl, by decide!⟩

/-- C2, amended. When in a tick acquire and submit succeed and `WaitForFences`
returns a non-success result (timeout or error), `VulkanDrawFrame` returns
false without panicking and without a `QueuePresent` call; its arguments are
passed by value, so the caller's state is the same afterwards, and a following
call on that state, against a backend on which every call succeeds and whose
acquired image index is at most `len(cmdBuffers)`, returns true. -/
theorem drawFrame_after_wait_failure (b : Backend) (t : Trace) (d : VulkanDeviceInfo)
    (s : VulkanSwapchainInfo) (r : VulkanRenderInfo)
    (hacq : ∃ e ∈ newEvents (VulkanDrawFrame d s r) b t,
      e.call.kind = .AcquireNextImage ∧ e.reply.result = Success)
    (hsub : ∃ e ∈ newEvents (VulkanDrawFrame d s r) b t,
      e.call.kind = .QueueSubmit ∧ e.reply.result = Success)
    (hwait : ∃ e ∈ newEvents (VulkanDrawFrame d s r) b t,
      e.call.kind = .WaitForFences ∧ e.reply.result ≠ Success) :
    (VulkanDrawFrame d s r b t).val? = some false ∧
    (∀ e ∈ newEvents (VulkanDrawFrame d s r) b t, e.call.kind ≠ .QueuePresent) ∧
    ∀ (b2 : Backend) (t2 : Trace), AllSucceed b2 →
      (∀ u c, c.kind = .AcquireNextImage →
        toUint32 (b2.reply u c).index ≤ r.cmdBuffers.length) →
      (VulkanDrawFrame d s r b2 t2).val? = some true := by
  rcases drawFrame_cases b t d s r with ⟨hp, _⟩ | ⟨sc, scs, sem, sems, hs, hr, e1, he1, hrest⟩
  · rw [newEvents_of_panic_nil _ _ _ hp] at hacq
    simp at hacq
  have k1 : e1.call.kind = .AcquireNextImage := by rw [he1]; rfl
  rcases hrest with ⟨ha, hres⟩ | ⟨ha, e2, he2, hrest⟩
  · rw [newEvents_of_ok _ _ _ _ _ hres] at hsub
    simp [k1] at hsub
  have k2 : e2.call.kind = .ResetFences := by rw [he2]; rfl
  rcases hrest with ⟨hres, _⟩ | ⟨f, fs, hf, -, e3, he3, hrest⟩
  · rw [newEvents_of_panic _ _ _ _ hres] at hsub
    simp [k1, k2] at hsub
  have k3 : e3.call.kind = .QueueSubmit := by rw [he3]; rfl
  rcases hrest with ⟨h3, hres⟩ | ⟨h3, e4, he4, hrest⟩
  · rw [newEvents_of_ok _ _ _ _ _ hres] at hwait
    simp [k1, k2, k3] at hwait
  have k4 : e4.call.kind = .WaitForFences := by rw [he4]; rfl
  have r4 : vkError e4.reply.result = true ∧
      VulkanDrawFrame d s r b t = .ok false (t ++ [e1, e2, e3, e4]) := by
    rcases hrest with h | ⟨h4, e5, he5, hres⟩
    · exact h
    · exfalso
      have k5 : e5.call.kind = .QueuePresent := by rw [he5]; rfl
      have : e4.reply.result = Success := by simpa [vkError] using h4
      rw [newEvents_of_ok _ _ _ _ _ hres] at hwait
      simp [k1, k2, k3, k4, k5, this] at hwait
  obtain ⟨-, hres⟩ := r4
  rw [newEvents_of_ok _ _ _ _ _ hres, hres]
  refine ⟨rfl, by simp [k1, k2, k3, k4], ?_⟩
  intro b2 t2 hall hidx
  rcases drawFrame_cases b2 t2 d s r with
    ⟨_, hbad⟩ | ⟨sc', scs', sem', sems', -, -, a1, ha1, hrest⟩
  · simp [hs, hr] at hbad
  have v1 : vkError a1.reply.result = false := by rw [ha1]; exact vkError_of_allSucceed b2 hall _ _
  have i1 : toUint32 a1.reply.index ≤ r.cmdBuffers.length := by
    rw [ha1]; exact hidx _ _ rfl
  rcases hrest with ⟨h, _⟩ | ⟨_, a2, -, hrest⟩
  · simp [v1] at h
  rcases hrest with ⟨_, hbad⟩ | ⟨f', fs', -, -, a3, ha3, hrest⟩
  · rcases hbad with hbad | hbad
    · omega
    · simp [hf] at hbad
  have v3 : vkError a3.reply.result = false := by rw [ha3]; exact vkError_of_allSucceed b2 hall _ _
  rcases hrest with ⟨h, _⟩ | ⟨_, a4, ha4, hrest⟩
  · simp [v3] at h
  have v4 : vkError a4.reply.result = false := by rw [ha4]; exact vkError_of_allSucceed b2 hall _ _
  rcases hrest with ⟨h, _⟩ | ⟨_, a5, ha5, hres2⟩
  · simp [v4] at h
  have v5 : vkError a5.reply.result = false := by rw [ha5]; exact vkError_of_allSucceed b2 hall _ _
  rw [hres2]
  simp [Res.val?, v5]

/-- Witness of the amended C2: the fence wait of the sample state times out. -/
theorem drawFrame_after_wait_failure_witness :
    (VulkanDrawFrame sampleDevice sampleSwapchain sampleRender
      (failingBackend .WaitForFences Timeout) []).val? = some false ∧
    (VulkanDrawFrame sampleDevice sampleSwapchain sampleRender steadyBackend
      (VulkanDrawFrame sampleDevice sampleSwapchain sampleRender
        (failingBackend .WaitForFences Timeout) []).trace).val? = some true :=
  have h := drawFrame_after_wait_failure (failingBackend .WaitForFences Timeout) []
    sampleDevice sampleSwapchain sampleRender (by decide!) (by decide!) (by decide!)
  ⟨h.1, h.2.2 steadyBackend _ (fun _ _ => rfl) (fun u c _ => by
    show toUint32 (countKind .AcquireNextImage u % 2) ≤ 2
    unfold toUint32
    omega)⟩

/-! ## Teardown order -/

theorem emits_pure {α : Type} (a : α) : EmitsCalls (pure a : VkM α) [] :=
  fun _ t => ⟨a, [], by simp [pure_apply], rfl⟩

theorem emits_call (c : Call) : EmitsCalls (call c) [c] :=
  fun b t => ⟨_, [ev b t c], rfl, rfl⟩

theorem emits_bind {α β : Type} {m : VkM α} {f : α → VkM β} {cs1 cs2 : List Call}
    (hm : EmitsCalls m cs1) (hf : ∀ a, EmitsCalls (f a) cs2) :
    EmitsCalls (m >>= f) (cs1 ++ cs2) := by
  intro b t
  obtain ⟨a, l1, h1, e1⟩ := hm b t
  obtain ⟨c, l2, h2, e2⟩ := hf a b (t ++ l1)
  refine ⟨c, l1 ++ l2, ?_, by simp [e1, e2]⟩
  simp [bind_apply, h1, h2]

theorem emits_congr {α : Type} {m : VkM α} {cs cs' : List Call}
    (h : EmitsCalls m cs) (e : cs = cs') : EmitsCalls m cs' := e ▸ h

theorem emits_forEach {α : Type} (body : α → VkM Unit) (cs : α → List Call) :
    ∀ xs : List α, (∀ x ∈ xs, EmitsCalls (body x) (cs x)) →
      EmitsCalls (forEach xs body) (xs.flatMap cs)
  | [], _ => by
    simpa [FieboLib.forEach] using emits_pure ()
  | x :: xs, h => by
    have hx := h x (by simp)
    have hxs := emits_forEach body cs xs (fun y hy => h y (by simp [hy]))
    simpa [FieboLib.forEach] using emits_bind hx (fun _ => hxs)

theorem flatMap_single {α β : Type} (f : α → β) (l : List α) :
    (l.flatMap fun x => [f x]) = l.map f := by
  induction l with
  | nil => rfl
  | cons x xs ih => simp [ih]

theorem pure_bind_vk {α β : Type} (a : α) (f : α → VkM β) : (pure a >>= f) = f a := rfl

theorem index_of_getElem? {α : Type} (xs : List α) (i : Nat) (x : α) (h : xs[i]? = some x) :
    index xs i = pure x := by
  simp [index, h]

theorem swapchainDestroy_emits (s : VulkanSwapchainInfo) (n : Nat)
    (h0 : s.SwapchainLen[0]? = some n) (hf : n ≤ s.Framebuffers.length)
    (hv : n ≤ s.DisplayViews.length) :
    EmitsCalls s.Destroy
      (((List.range n).flatMap fun i =>
          [Call.DestroyFramebuffer s.Device (s.Framebuffers.getD i NullHandle),
           Call.DestroyImageView s.Device (s.DisplayViews.getD i NullHandle)]) ++
        s.Swapchains.map (Call.DestroySwapchain s.Device)) := by
  unfold VulkanSwapchainInfo.Destroy VulkanSwapchainInfo.DefaultSwapchainLen
  rw [index_of_getElem? _ _ _ h0]
  simp only [pure_bind_vk]
  refine emits_congr (emits_bind (emits_forEach _ (fun i =>
      [Call.DestroyFramebuffer s.Device (s.Framebuffers.getD i NullHandle),
       Call.DestroyImageView s.Device (s.DisplayViews.getD i NullHandle)]) _ ?_) (fun _ =>
    emits_bind (emits_forEach _ (fun sc => [Call.DestroySwapchain s.Device sc]) _ ?_)
      (fun _ => emits_pure _))) ?_
  · intro i hi
    have hi' : i < n := by simpa using hi
    have h1 : s.Framebuffers[i]? = some (s.Framebuffers.getD i NullHandle) := by
      simp [List.getD, List.getElem?_eq_getElem (show i < s.Framebuffers.length by omega)]
    have h2 : s.DisplayViews[i]? = some (s.DisplayViews.getD i NullHandle) := by
      simp [List.getD, List.getElem?_eq_getElem (show i < s.DisplayViews.length by omega)]
    rw [index_of_getElem? _ _ _ h1, index_of_getElem? _ _ _ h2]
    simp only [pure_bind_vk]
    exact (emits_bind (emits_call _) (fun _ =>
      emits_bind (emits_call _) (fun _ => emits_pure _)))
  · intro sc _
    exact (emits_bind (emits_call _) (fun _ => emits_pure _))
  · simp [flatMap_single]

theorem pipelineDestroy_emits (p : VulkanGfxPipelineInfo) :
    EmitsCalls (VulkanGfxPipelineInfo.Destroy (some p))
      [.DestroyPipeline p.device p.pipeline, .DestroyPipelineCache p.device p.cache,
       .DestroyPipelineLayout p.device p.layout] := by
  unfold VulkanGfxPipelineInfo.Destroy
  exact emits_bind (emits_call _) (fun _ =>
    emits_bind (emits_call _) (fun _ =>
      emits_bind (emits_call _) (fun _ => emits_pure _)))

theorem bufferDestroy_emits (buf : VulkanBufferInfo) :
    EmitsCalls buf.Destroy (buf.vertexBuffers.map (Call.DestroyBuffer buf.device)) := by
  unfold VulkanBufferInfo.Destroy
  refine emits_congr (emits_forEach _ (fun x => [Call.DestroyBuffer buf.device x]) _ ?_)
    (flatMap_single _ _)
  intro x _
  exact emits_bind (emits_call _) (fun _ => emits_pure _)

theorem destroyInOrder_emits (d : VulkanDeviceInfo) (s : VulkanSwapchainInfo)
    (r : VulkanRenderInfo) (buf : VulkanBufferInfo) (p : VulkanGfxPipelineInfo) (n : Nat)
    (h0 : s.SwapchainLen[0]? = some n) (hf : n ≤ s.Framebuffers.length)
    (hv : n ≤ s.DisplayViews.length) :
    EmitsCalls (DestroyInOrder d s r buf (some p))
      ([.FreeCommandBuffers d.Device r.cmdPool (toUint32 r.cmdBuffers.length) r.cmdBuffers] ++
      ([.DestroyCommandPool d.Device r.cmdPool] ++
      ([.DestroyRenderPass d.Device r.RenderPass] ++
      ((((List.range n).flatMap fun i =>
        [Call.DestroyFramebuffer s.Device (s.Framebuffers.getD i NullHandle),
         Call.DestroyImageView s.Device (s.DisplayViews.getD i NullHandle)]) ++
        s.Swapchains.map (Call.DestroySwapchain s.Device)) ++
      ([.DestroyPipeline p.device p.pipeline, .DestroyPipelineCache p.device p.cache,
        .DestroyPipelineLayout p.device p.layout] ++
      (buf.vertexBuffers.map (Call.DestroyBuffer buf.device) ++
      ([.DestroyDevice d.Device] ++
      ((if d.dbg ≠ NullHandle then [.DestroyDebugReportCallback d.Instance d.dbg] else []) ++
      ([.DestroyInstance d.Instance] ++ []))))))))) := by
  unfold DestroyInOrder
  refine emits_bind (emits_call _) (fun _ =>
    emits_bind (emits_call _) (fun _ =>
    emits_bind (emits_call _) (fun _ =>
    emits_bind (swapchainDestroy_emits s n h0 hf hv) (fun _ =>
    emits_bind (pipelineDestroy_emits p) (fun _ =>
    emits_bind (bufferDestroy_emits buf) (fun _ =>
    emits_bind (emits_call _) (fun _ => ?_)))))))
  by_cases hd : d.dbg = NullHandle
  · have hb : (d.dbg != NullHandle) = false := by simp [hd]
    simp only [hb, Bool.false_eq_true, if_false]
    exact emits_congr (emits_bind (emits_pure _) (fun _ =>
      emits_bind (emits_call _) (fun _ => emits_pure _))) (by simp [hd])
  · have hb : (d.dbg != NullHandle) = true := by simp [hd]
    simp only [hb, if_true]
    exact emits_congr (emits_bind (emits_call _) (fun _ =>
      emits_bind (emits_pure _) (fun _ =>
      emits_bind (emits_call _) (fun _ => emits_pure _)))) (by simp [hd])

/-- C10. In a state where `Framebuffers` and `DisplayViews` both have at least
`SwapchainLen[0]` entries, `DestroyInOrder` returns and its calls are, in
order: `FreeCommandBuffers`, `DestroyCommandPool`, `DestroyRenderPass`; for
each index below `SwapchainLen[0]` the framebuffer and the image view, then
`DestroySwapchain` for every swapchain; `DestroyPipeline`,
`DestroyPipelineCache`, `DestroyPipelineLayout`; `DestroyBuffer` for every
vertex buffer; `DestroyDevice`; `DestroyDebugReportCallback` exactly when a
callback is registered; `DestroyInstance` last. -/
theorem destroyInOrder_trace (b : Backend) (t : Trace) (d : VulkanDeviceInfo)
    (s : VulkanSwapchainInfo) (r : VulkanRenderInfo) (buf : VulkanBufferInfo)
    (p : VulkanGfxPipelineInfo) (n : Nat)
    (h0 : s.SwapchainLen[0]? = some n) (hf : n ≤ s.Framebuffers.length)
    (hv : n ≤ s.DisplayViews.length) :
    ((DestroyInOrder d s r buf (some p) b t).val?).isSome = true ∧
    (newEvents (DestroyInOrder d s r buf (some p)) b t).map (fun e => e.call) =
      [.FreeCommandBuffers d.Device r.cmdPool (r.cmdBuffers.length % 2 ^ 32) r.cmdBuffers,
       .DestroyCommandPool d.Device r.cmdPool,
       .DestroyRenderPass d.Device r.RenderPass] ++
      ((List.range n).flatMap fun i =>
        [Call.DestroyFramebuffer s.Device (s.Framebuffers.getD i NullHandle),
         Call.DestroyImageView s.Device (s.DisplayViews.getD i NullHandle)]) ++
      s.Swapchains.map (Call.DestroySwapchain s.Device) ++
      [.DestroyPipeline p.device p.pipeline, .DestroyPipelineCache p.device p.cache,
       .DestroyPipelineLayout p.device p.layout] ++
      buf.vertexBuffers.map (Call.DestroyBuffer buf.device) ++
      [.DestroyDevice d.Device] ++
      (if d.dbg ≠ NullHandle then [.DestroyDebugReportCallback d.Instance d.dbg] else []) ++
      [.DestroyInstance d.Instance] := by
  obtain ⟨a, l, hres, hl⟩ := destroyInOrder_emits d s r buf p n h0 hf hv b t
  rw [newEvents_of_ok _ _ _ _ _ hres, hres, hl]
  simp [Res.val?, toUint32]

/-- Witness of C10: the sample state, with no debug callback registered. -/
theorem destroyInOrder_trace_witness :
    (newEvents (DestroyInOrder sampleDevice sampleSwapchain sampleRender sampleBuffer
        (some samplePipeline)) steadyBackend []).map (fun e => e.call) =
      [.FreeCommandBuffers 5 12 2 [13, 14], .DestroyCommandPool 5 12, .DestroyRenderPass 5 11,
       .DestroyFramebuffer 5 9, .DestroyImageView 5 7,
       .DestroyFramebuffer 5 10, .DestroyImageView 5 8,
       .DestroySwapchain 5 6,
       .DestroyPipeline 5 20, .DestroyPipelineCache 5 19, .DestroyPipelineLayout 5 18,
       .DestroyBuffer 5 17, .DestroyDevice 5, .DestroyInstance 2] :=
  (destroyInOrder_trace steadyBackend [] sampleDevice sampleSwapchain sampleRender
    sampleBuffer samplePipeline 2 rfl (by decide) (by decide)).2.trans rfl


/-! ## Calls a computation never makes -/

theorem avoids_pure {α : Type} (k : CallKind) (a : α) : Avoids k (pure a : VkM α) :=
  fun _ t => ⟨[], by simp [pure_apply, Res.trace], by simp⟩

theorem avoids_goPanic {α : Type} (k : CallKind) : Avoids k (goPanic : VkM α) :=
  fun _ t => ⟨[], by simp [goPanic_apply, Res.trace], by simp⟩

theorem avoids_call (k : CallKind) (c : Call) (h : c.kind ≠ k) : Avoids k (call c) :=
  fun b t => ⟨[ev b t c], by simp [call_apply, Res.trace], by simpa [ev_call] using h⟩

theorem avoids_bind {α β : Type} {k : CallKind} {m : VkM α} {f : α → VkM β}
    (hm : Avoids k m) (hf : ∀ a, Avoids k (f a)) : Avoids k (m >>= f) := by
  intro b t
  obtain ⟨l1, h1, p1⟩ := hm b t
  rw [bind_apply]
  cases hmt : m b t with
  | panic t1 =>
    refine ⟨l1, ?_, p1⟩
    simpa [hmt, Res.trace] using h1
  | ok a t1 =>
    have ht1 : t1 = t ++ l1 := by simpa [hmt, Res.trace] using h1
    subst ht1
    obtain ⟨l2, h2, p2⟩ := hf a b (t ++ l1)
    refine ⟨l1 ++ l2, ?_, ?_⟩
    · simp only [h2, List.append_assoc]
    · intro e he
      rcases List.mem_append.1 he with he | he
      · exact p1 e he
      · exact p2 e he

theorem avoids_ite {α : Type} {k : CallKind} (c : Prop) [Decidable c] {x y : VkM α}
    (hx : Avoids k x) (hy : Avoids k y) : Avoids k (if c then x else y) := by
  split
  · exact hx
  · exact hy

theorem avoids_index {α : Type} (k : CallKind) (xs : List α) (i : Nat) :
    Avoids k (index xs i) := by
  unfold FieboLib.index
  split
  · exact avoids_pure k _
  · exact avoids_goPanic k

theorem avoids_sliceFrom {α : Type} (k : CallKind) (xs : List α) (i : Nat) :
    Avoids k (sliceFrom xs i) := by
  unfold FieboLib.sliceFrom
  exact avoids_ite _ (avoids_pure k _) (avoids_goPanic k)

theorem avoids_forEach {α : Type} (k : CallKind) (body : α → VkM Unit)
    (h : ∀ x, Avoids k (body x)) : ∀ xs : List α, Avoids k (forEach xs body)
  | [] => by
    simpa [FieboLib.forEach] using avoids_pure k ()
  | x :: xs => by
    simpa [FieboLib.forEach] using avoids_bind (h x) (fun _ => avoids_forEach k body h xs)

theorem drawFrame_avoids (k : CallKind) (d : VulkanDeviceInfo) (s : VulkanSwapchainInfo)
    (r : VulkanRenderInfo) (h1 : k ≠ .AcquireNextImage) (h2 : k ≠ .ResetFences)
    (h3 : k ≠ .QueueSubmit) (h4 : k ≠ .WaitForFences) (h5 : k ≠ .QueuePresent) :
    Avoids k (VulkanDrawFrame d s r) := by
  unfold VulkanDrawFrame VulkanSwapchainInfo.DefaultSwapchain VulkanRenderInfo.DefaultSemaphore
    VulkanRenderInfo.DefaultFence
  refine avoids_bind (avoids_index k _ _) (fun _ => avoids_bind (avoids_index k _ _) (fun _ =>
    avoids_bind (avoids_call k _ (Ne.symm h1)) (fun _ => avoids_ite _ (avoids_pure k _)
    (avoids_bind (avoids_call k _ (Ne.symm h2)) (fun _ =>
    avoids_bind (avoids_sliceFrom k _ _) (fun _ => avoids_bind (avoids_index k _ _) (fun _ =>
    avoids_bind (avoids_call k _ (Ne.symm h3)) (fun _ => avoids_ite _ (avoids_pure k _)
    (avoids_bind (avoids_call k _ (Ne.symm h4)) (fun _ => avoids_ite _ (avoids_pure k _)
    (avoids_bind (avoids_call k _ (Ne.symm h5)) (fun _ =>
      avoids_ite _ (avoids_pure k _) (avoids_pure k _)))))))))))))

theorem swapchainDestroy_avoids (k : CallKind) (s : VulkanSwapchainInfo)
    (h1 : k ≠ .DestroyFramebuffer) (h2 : k ≠ .DestroyImageView) (h3 : k ≠ .DestroySwapchain) :
    Avoids k s.Destroy := by
  unfold VulkanSwapchainInfo.Destroy VulkanSwapchainInfo.DefaultSwapchainLen
  refine avoids_bind (avoids_index k _ _) (fun _ =>
    avoids_bind (avoids_forEach k _ (fun _ => ?_) _) (fun _ =>
    avoids_bind (avoids_forEach k _ (fun _ => ?_) _) (fun _ => avoids_pure k _)))
  · exact avoids_bind (avoids_index k _ _) (fun _ =>
      avoids_bind (avoids_call k _ (Ne.symm h1)) (fun _ =>
      avoids_bind (avoids_index k _ _) (fun _ =>
      avoids_bind (avoids_call k _ (Ne.symm h2)) (fun _ => avoids_pure k _))))
  · exact avoids_bind (avoids_call k _ (Ne.symm h3)) (fun _ => avoids_pure k _)

theorem destroyInOrder_avoids (k : CallKind) (d : VulkanDeviceInfo)
    (s : VulkanSwapchainInfo) (r : VulkanRenderInfo) (buf : VulkanBufferInfo)
    (p : VulkanGfxPipelineInfo) (hk : k = .DeviceWaitIdle ∨ k = .CreateSwapchain) :
    Avoids k (DestroyInOrder d s r buf (some p)) := by
  have ne : ∀ c : Call, (c.kind ≠ .DeviceWaitIdle ∧ c.kind ≠ .CreateSwapchain) →
      c.kind ≠ k := by
    intro c hc
    rcases hk with hk | hk <;> rw [hk]
    · exact hc.1
    · exact hc.2
  have nk : ∀ k' : CallKind, (k' ≠ .DeviceWaitIdle ∧ k' ≠ .CreateSwapchain) → k ≠ k' := by
    intro k' hk'
    rcases hk with hk | hk <;> rw [hk]
    · exact Ne.symm hk'.1
    · exact Ne.symm hk'.2
  unfold DestroyInOrder VulkanGfxPipelineInfo.Destroy VulkanBufferInfo.Destroy
  refine avoids_bind (avoids_call k _ (ne _ (by constructor <;> simp [Call.kind]))) (fun _ =>
    avoids_bind (avoids_call k _ (ne _ (by constructor <;> simp [Call.kind]))) (fun _ =>
    avoids_bind (avoids_call k _ (ne _ (by constructor <;> simp [Call.kind]))) (fun _ =>
    avoids_bind (swapchainDestroy_avoids k s (nk _ (by decide)) (nk _ (by decide))
      (nk _ (by decide))) (fun _ =>
    avoids_bind (avoids_bind (avoids_call k _ (ne _ (by constructor <;> simp [Call.kind]))) (fun _ =>
      avoids_bind (avoids_call k _ (ne _ (by constructor <;> simp [Call.kind]))) (fun _ =>
      avoids_bind (avoids_call k _ (ne _ (by constructor <;> simp [Call.kind]))) (fun _ => avoids_pure k _)))) (fun _ =>
    avoids_bind (avoids_forEach k _ (fun _ =>
      avoids_bind (avoids_call k _ (ne _ (by constructor <;> simp [Call.kind]))) (fun _ => avoids_pure k _)) _) (fun _ =>
    avoids_bind (avoids_call k _ (ne _ (by constructor <;> simp [Call.kind]))) (fun _ => ?_)))))))
  refine avoids_ite _ ?_ ?_
  · exact avoids_bind (avoids_call k _ (ne _ (by constructor <;> simp [Call.kind]))) (fun _ =>
      avoids_bind (avoids_pure k _) (fun _ =>
      avoids_bind (avoids_call k _ (ne _ (by constructor <;> simp [Call.kind]))) (fun _ => avoids_pure k _)))
  · exact avoids_bind (avoids_pure k _) (fun _ =>
      avoids_bind (avoids_call k _ (ne _ (by constructor <;> simp [Call.kind]))) (fun _ => avoids_pure k _))

theorem loopRound_avoids (k : CallKind) (g : Globals) (pending : Nat) (e : LoopEvent)
    (hk : k = .DeviceWaitIdle ∨ k = .CreateSwapchain) : Avoids k (loopRound g pending e) := by
  have ne : ∀ c : Call, (c.kind ≠ .DeviceWaitIdle ∧ c.kind ≠ .CreateSwapchain) →
      c.kind ≠ k := by
    intro c hc
    rcases hk with hk | hk <;> rw [hk]
    · exact hc.1
    · exact hc.2
  have nk : ∀ k' : CallKind, (k' ≠ .DeviceWaitIdle ∧ k' ≠ .CreateSwapchain) → k ≠ k' := by
    intro k' hk'
    rcases hk with hk | hk <;> rw [hk]
    · exact Ne.symm hk'.1
    · exact Ne.symm hk'.2
  cases e with
  | exit =>
    unfold loopRound
    exact avoids_bind (destroyInOrder_avoids k _ _ _ _ _ hk) (fun _ =>
      avoids_bind (avoids_call k _ (ne _ (by constructor <;> simp [Call.kind]))) (fun _ =>
      avoids_bind (avoids_call k _ (ne _ (by constructor <;> simp [Call.kind]))) (fun _ => avoids_pure k _)))
  | tick =>
    unfold loopRound
    exact avoids_bind (avoids_call k _ (ne _ (by constructor <;> simp [Call.kind]))) (fun _ =>
      avoids_ite _ (avoids_ite _ (avoids_pure k _) (avoids_pure k _))
      (avoids_bind (avoids_call k _ (ne _ (by constructor <;> simp [Call.kind]))) (fun _ =>
      avoids_bind (drawFrame_avoids k _ _ _ (nk _ (by decide)) (nk _ (by decide))
        (nk _ (by decide)) (nk _ (by decide)) (nk _ (by decide))) (fun _ => avoids_pure k _))))

theorem frameLoop_avoids (k : CallKind) (hk : k = .DeviceWaitIdle ∨ k = .CreateSwapchain) :
    ∀ (schedule : List LoopEvent) (st : LoopState), Avoids k (frameLoop st schedule)
  | [], st => by
    cases st <;> simpa [frameLoop] using avoids_pure k _
  | e :: rest, st => by
    cases st with
    | running g pending =>
      simpa [frameLoop] using
        avoids_bind (loopRound_avoids k g pending e hk) (fun st1 => frameLoop_avoids k hk rest st1)
    | returned => simpa [frameLoop] using avoids_pure k LoopState.returned
    | blocked => simpa [frameLoop] using avoids_pure k LoopState.blocked

/-! ## What a rebuild returns -/

theorem returns_pure {α : Type} (a : α) (P : α → Prop) (h : P a) :
    Returns (pure a : VkM α) P := by
  intro b t a1 t1 heq
  simp only [pure_apply, Res.ok.injEq] at heq
  exact heq.1 ▸ h

theorem returns_goPanic {α : Type} (P : α → Prop) : Returns (goPanic : VkM α) P := by
  intro b t a1 t1 heq
  simp [goPanic_apply] at heq

theorem returns_index {α : Type} (xs : List α) (i : Nat) :
    Returns (index xs i) (fun a => xs[i]? = some a) := by
  unfold index
  split
  · rename_i x hx
    exact returns_pure _ _ hx
  · exact returns_goPanic _

theorem returns_any {α : Type} (m : VkM α) : Returns m (fun _ => True) :=
  fun _ _ _ _ _ => trivial

theorem returns_bind {α β : Type} {m : VkM α} {f : α → VkM β} {Q : α → Prop}
    {P : β → Prop} (hm : Returns m Q) (hf : ∀ a, Q a → Returns (f a) P) :
    Returns (m >>= f) P := by
  intro b t c t2 heq
  rw [bind_apply] at heq
  cases hmt : m b t with
  | panic t1 => simp [hmt] at heq
  | ok a t1 =>
    rw [hmt] at heq
    exact hf a (hm b t a t1 hmt) b t1 c t2 heq

theorem returns_ite {α : Type} (c : Prop) [Decidable c] {x y : VkM α} {P : α → Prop}
    (hx : Returns x P) (hy : Returns y P) : Returns (if c then x else y) P := by
  split
  · exact hx
  · exact hy

theorem returns_mono {α : Type} {m : VkM α} {P Q : α → Prop} (h : Returns m P)
    (hpq : ∀ a, P a → Q a) : Returns m Q :=
  fun b t a t1 heq => hpq a (h b t a t1 heq)

theorem sameSwapchain_refl (s : VulkanSwapchainInfo) : SameSwapchain s s :=
  ⟨rfl, rfl, rfl, rfl, rfl⟩

theorem sameSwapchain_trans {s s1 s2 : VulkanSwapchainInfo} (h1 : SameSwapchain s s1)
    (h2 : SameSwapchain s1 s2) : SameSwapchain s s2 := by
  obtain ⟨a1, a2, a3, a4, a5⟩ := h1
  obtain ⟨b1, b2, b3, b4, b5⟩ := h2
  exact ⟨b1.trans a1, b2.trans a2, b3.trans a3, b4.trans a4, b5.trans a5⟩

theorem swapchainDestroy_returns (s : VulkanSwapchainInfo) :
    Returns s.Destroy (fun s1 => SameSwapchain s s1) := by
  unfold VulkanSwapchainInfo.Destroy
  exact returns_bind (returns_any _) (fun _ _ => returns_bind (returns_any _) (fun _ _ =>
    returns_bind (returns_any _) (fun _ _ => returns_pure _ _ ⟨rfl, rfl, rfl, rfl, rfl⟩)))

theorem createImageViews_returns (images : List Handle) :
    ∀ (todo : List Nat) (s : VulkanSwapchainInfo),
      Returns (createImageViews s images todo) (fun p => SameSwapchain s p.1)
  | [], s => by
    unfold createImageViews
    exact returns_pure _ _ (sameSwapchain_refl s)
  | i :: rest, s => by
    unfold createImageViews
    refine returns_bind (returns_any _) (fun _ _ => returns_bind (returns_any _) (fun r _ =>
      returns_ite _ (returns_pure _ _ ⟨rfl, rfl, rfl, rfl, rfl⟩) ?_))
    exact returns_mono (createImageViews_returns images rest _)
      (fun p hp => sameSwapchain_trans ⟨rfl, rfl, rfl, rfl, rfl⟩ hp)

theorem createFramebufferLoop_returns (renderPass depthView : Handle) :
    ∀ (todo : List Nat) (s : VulkanSwapchainInfo),
      Returns (createFramebufferLoop s renderPass depthView todo)
        (fun p => SameSwapchain s p.1)
  | [], s => by
    unfold createFramebufferLoop
    exact returns_pure _ _ (sameSwapchain_refl s)
  | i :: rest, s => by
    unfold createFramebufferLoop
    refine returns_bind (returns_any _) (fun _ _ => returns_bind (returns_any _) (fun r _ =>
      returns_ite _ (returns_pure _ _ ⟨rfl, rfl, rfl, rfl, rfl⟩) ?_))
    exact returns_mono (createFramebufferLoop_returns renderPass depthView rest _)
      (fun p hp => sameSwapchain_trans ⟨rfl, rfl, rfl, rfl, rfl⟩ hp)

theorem createFramebuffers_returns (s : VulkanSwapchainInfo) (renderPass depthView : Handle) :
    Returns (s.CreateFramebuffers renderPass depthView) (fun p => SameSwapchain s p.1) := by
  unfold VulkanSwapchainInfo.CreateFramebuffers
  refine returns_bind (returns_any _) (fun _ _ => returns_bind (returns_any _) (fun _ _ =>
    returns_ite _ (returns_pure _ _ (sameSwapchain_refl s)) ?_))
  refine returns_bind (returns_any _) (fun _ _ => returns_bind (returns_any _) (fun _ _ =>
    returns_bind (createImageViews_returns _ _ _) (fun p hp => ?_)))
  obtain ⟨s1, err⟩ := p
  have hp1 : SameSwapchain s s1 := sameSwapchain_trans ⟨rfl, rfl, rfl, rfl, rfl⟩ hp
  refine returns_ite _ (returns_pure _ _ hp1) ?_
  refine returns_bind (returns_any _) (fun n _ => ?_)
  exact returns_mono (createFramebufferLoop_returns renderPass depthView _ _)
    (fun p hp2 => sameSwapchain_trans hp1 (sameSwapchain_trans ⟨rfl, rfl, rfl, rfl, rfl⟩ hp2))

theorem createCommandBuffers_returns (r : VulkanRenderInfo) (n : Nat) :
    Returns (r.CreateCommandBuffers n) (fun p =>
      p.1.device = r.device ∧ p.1.RenderPass = r.RenderPass ∧ p.1.cmdPool = r.cmdPool ∧
      p.1.semaphores = r.semaphores ∧ p.1.fences = r.fences ∧ p.1.cmdBuffers.length = n) := by
  unfold VulkanRenderInfo.CreateCommandBuffers
  refine returns_bind (returns_any _) (fun ret _ => ?_)
  have hlen : (fill NullHandle n ret.handles).length = n := by
    simp [fill]
    omega
  exact returns_ite _ (returns_pure _ _ ⟨rfl, rfl, rfl, rfl, rfl, hlen⟩)
    (returns_pure _ _ ⟨rfl, rfl, rfl, rfl, rfl, hlen⟩)

theorem recreateSwapChain_returns (g : Globals) :
    Returns (recreateSwapChain g) (fun g1 =>
      g1.deviceInfo = g.deviceInfo ∧ g1.bufferInfo = g.bufferInfo ∧
      g1.pipelineInfo = g.pipelineInfo ∧ SameSwapchain g.swapChainInfo g1.swapChainInfo ∧
      g1.renderInfo.RenderPass = g.renderInfo.RenderPass ∧
      g.swapChainInfo.SwapchainLen[0]? = some g1.renderInfo.cmdBuffers.length) := by
  unfold recreateSwapChain VulkanSwapchainInfo.DefaultSwapchainLen
  refine returns_bind (returns_any _) (fun _ _ =>
    returns_bind (swapchainDestroy_returns _) (fun s1 h1 =>
    returns_bind (returns_any _) (fun _ _ => returns_bind (returns_any _) (fun _ _ =>
    returns_bind (createFramebuffers_returns _ _ _) (fun p hp => ?_)))))
  obtain ⟨s2, err⟩ := p
  have h2 : SameSwapchain g.swapChainInfo s2 := sameSwapchain_trans h1 hp
  refine returns_bind (returns_any _) (fun _ _ => returns_bind (returns_any _) (fun _ _ =>
    returns_bind (returns_index _ _) (fun n hn =>
    returns_bind (createCommandBuffers_returns _ _) (fun q hq => ?_))))
  obtain ⟨r1, err1⟩ := q
  refine returns_pure _ _ ⟨rfl, rfl, rfl, h2, hq.2.1, ?_⟩
  have hlen : r1.cmdBuffers.length = n := hq.2.2.2.2.2
  have hsl : s2.SwapchainLen = g.swapChainInfo.SwapchainLen := h2.2.2.1
  show g.swapChainInfo.SwapchainLen[0]? = some r1.cmdBuffers.length
  rw [hlen, ← hsl]
  exact hn

theorem ok_of_val? {α : Type} (r : Res α) (a : α) (h : r.val? = some a) :
    ∃ t1, r = .ok a t1 := by
  cases r with
  | ok a1 t1 => exact ⟨t1, by simpa [Res.val?] using h⟩
  | panic t1 => simp [Res.val?] at h


/-! ## A rebuild records nothing -/

theorem ne_of_recording {k : CallKind} (hk : k ∈ recordingKinds) (c : Call)
    (hc : c.kind ∉ recordingKinds) : c.kind ≠ k :=
  fun h => hc (h ▸ hk)

theorem loadShader_avoids (k : CallKind) (hk : k ∈ recordingKinds) (device : Handle)
    (path : String) : Avoids k (LoadShader device path) := by
  have hne := ne_of_recording hk
  unfold LoadShader
  exact avoids_bind (avoids_call k _ (hne _ (by simp [Call.kind, recordingKinds]))) (fun _ =>
    avoids_ite _ (avoids_pure k _)
    (avoids_bind (avoids_call k _ (hne _ (by simp [Call.kind, recordingKinds]))) (fun _ =>
    avoids_ite _ (avoids_pure k _) (avoids_pure k _))))

theorem createGraphicsPipeline_avoids (k : CallKind) (hk : k ∈ recordingKinds)
    (device : Handle) (displaySize : Extent2D) (renderPass : Handle) :
    Avoids k (CreateGraphicsPipeline device displaySize renderPass) := by
  have hne := ne_of_recording hk
  have hc : ∀ c : Call, c.kind ∉ recordingKinds → Avoids k (call c) :=
    fun c h => avoids_call k c (hne c h)
  have hd : ∀ m, Avoids k (call (.DestroyShaderModule device m)) :=
    fun m => hc _ (by simp [Call.kind, recordingKinds])
  unfold CreateGraphicsPipeline
  refine avoids_bind (hc _ (by simp [Call.kind, recordingKinds])) (fun _ =>
    avoids_ite _ (avoids_pure k _)
    (avoids_bind (loadShader_avoids k hk _ _) (fun p => ?_)))
  obtain ⟨vs, err⟩ := p
  refine avoids_ite _ (avoids_pure k _)
    (avoids_bind (loadShader_avoids k hk _ _) (fun q => ?_))
  obtain ⟨fs, err2⟩ := q
  refine avoids_ite _ (avoids_bind (hd _) (fun _ => avoids_pure k _))
    (avoids_bind (hc _ (by simp [Call.kind, recordingKinds])) (fun _ =>
    avoids_ite _ (avoids_bind (hd _) (fun _ => avoids_bind (hd _) (fun _ => avoids_pure k _)))
    (avoids_bind (hc _ (by simp [Call.kind, recordingKinds])) (fun _ =>
    avoids_ite _ (avoids_bind (hd _) (fun _ => avoids_bind (hd _) (fun _ => avoids_pure k _)))
    (avoids_bind (avoids_index k _ _) (fun _ =>
    avoids_bind (hd _) (fun _ => avoids_bind (hd _) (fun _ => avoids_pure k _))))))))

theorem chooseFormat_avoids (k : CallKind) (formats : List SurfaceFormat) :
    ∀ fuel i : Nat, Avoids k (chooseFormat formats fuel i)
  | 0, _ => by
    unfold chooseFormat
    exact avoids_pure k _
  | fuel + 1, i => by
    unfold chooseFormat
    exact avoids_bind (avoids_index k _ _) (fun _ =>
      avoids_ite _ (avoids_pure k _) (chooseFormat_avoids k formats fuel (i + 1)))

theorem createSwapchain_avoids (k : CallKind) (hk : k ∈ recordingKinds)
    (v : VulkanDeviceInfo) : Avoids k v.CreateSwapchain := by
  have hc : ∀ c : Call, c.kind ∉ recordingKinds → Avoids k (call c) :=
    fun c h => avoids_call k c (ne_of_recording hk c h)
  unfold VulkanDeviceInfo.CreateSwapchain VulkanSwapchainInfo.DefaultSwapchain
  refine avoids_bind (avoids_index k _ _) (fun _ =>
    avoids_bind (hc _ (by simp [Call.kind, recordingKinds])) (fun _ =>
    avoids_ite _ (avoids_pure k _)
    (avoids_bind (hc _ (by simp [Call.kind, recordingKinds])) (fun _ =>
    avoids_bind (hc _ (by simp [Call.kind, recordingKinds])) (fun _ =>
    avoids_bind (chooseFormat_avoids k _ _ _) (fun _ =>
    avoids_ite _ (avoids_pure k _) ?_))))))
  exact avoids_bind (avoids_index k _ _) (fun _ =>
    avoids_bind (hc _ (by simp [Call.kind, recordingKinds])) (fun _ =>
    avoids_ite _ (avoids_pure k _)
    (avoids_bind (avoids_index k _ _) (fun _ =>
    avoids_bind (hc _ (by simp [Call.kind, recordingKinds])) (fun _ =>
    avoids_ite _ (avoids_pure k _) (avoids_pure k _))))))

theorem createRenderer_avoids (k : CallKind) (hk : k ∈ recordingKinds) (device : Handle)
    (displayFormat : Nat) : Avoids k (CreateRenderer device displayFormat) := by
  have hc : ∀ c : Call, c.kind ∉ recordingKinds → Avoids k (call c) :=
    fun c h => avoids_call k c (ne_of_recording hk c h)
  unfold CreateRenderer
  exact avoids_bind (hc _ (by simp [Call.kind, recordingKinds])) (fun _ =>
    avoids_ite _ (avoids_pure k _)
    (avoids_bind (hc _ (by simp [Call.kind, recordingKinds])) (fun _ =>
    avoids_ite _ (avoids_pure k _) (avoids_pure k _))))

theorem createImageViews_avoids (k : CallKind) (hk : k ∈ recordingKinds)
    (images : List Handle) :
    ∀ (todo : List Nat) (s : VulkanSwapchainInfo), Avoids k (createImageViews s images todo)
  | [], s => by
    unfold createImageViews
    exact avoids_pure k _
  | i :: rest, s => by
    unfold createImageViews
    exact avoids_bind (avoids_index k _ _) (fun _ =>
      avoids_bind (avoids_call k _ (ne_of_recording hk _ (by simp [Call.kind, recordingKinds])))
      (fun _ => avoids_ite _ (avoids_pure k _) (createImageViews_avoids k hk images rest _)))

theorem createFramebufferLoop_avoids (k : CallKind) (hk : k ∈ recordingKinds)
    (renderPass depthView : Handle) :
    ∀ (todo : List Nat) (s : VulkanSwapchainInfo),
      Avoids k (createFramebufferLoop s renderPass depthView todo)
  | [], s => by
    unfold createFramebufferLoop
    exact avoids_pure k _
  | i :: rest, s => by
    unfold createFramebufferLoop
    exact avoids_bind (avoids_index k _ _) (fun _ =>
      avoids_bind (avoids_call k _ (ne_of_recording hk _ (by simp [Call.kind, recordingKinds])))
      (fun _ => avoids_ite _ (avoids_pure k _)
        (createFramebufferLoop_avoids k hk renderPass depthView rest _)))

theorem createFramebuffers_avoids (k : CallKind) (hk : k ∈ recordingKinds)
    (s : VulkanSwapchainInfo) (renderPass depthView : Handle) :
    Avoids k (s.CreateFramebuffers renderPass depthView) := by
  have hc : ∀ c : Call, c.kind ∉ recordingKinds → Avoids k (call c) :=
    fun c h => avoids_call k c (ne_of_recording hk c h)
  unfold VulkanSwapchainInfo.CreateFramebuffers VulkanSwapchainInfo.DefaultSwapchain
    VulkanSwapchainInfo.DefaultSwapchainLen
  refine avoids_bind (avoids_index k _ _) (fun _ =>
    avoids_bind (hc _ (by simp [Call.kind, recordingKinds])) (fun _ =>
    avoids_ite _ (avoids_pure k _)
    (avoids_bind (avoids_index k _ _) (fun _ =>
    avoids_bind (hc _ (by simp [Call.kind, recordingKinds])) (fun _ =>
    avoids_bind (createImageViews_avoids k hk _ _ _) (fun p => ?_))))))
  obtain ⟨s1, err⟩ := p
  exact avoids_ite _ (avoids_pure k _)
    (avoids_bind (avoids_index k _ _) (fun _ => createFramebufferLoop_avoids k hk _ _ _ _))

theorem createBuffers_avoids (k : CallKind) (hk : k ∈ recordingKinds)
    (v : VulkanDeviceInfo) : Avoids k v.CreateBuffers := by
  have hc : ∀ c : Call, c.kind ∉ recordingKinds → Avoids k (call c) :=
    fun c h => avoids_call k c (ne_of_recording hk c h)
  unfold VulkanDeviceInfo.CreateBuffers VulkanBufferInfo.DefaultVertexBuffer
  exact avoids_bind (avoids_index k _ _) (fun _ =>
    avoids_bind (hc _ (by simp [Call.kind, recordingKinds])) (fun _ =>
    avoids_ite _ (avoids_pure k _)
    (avoids_bind (avoids_index k _ _) (fun _ =>
    avoids_bind (hc _ (by simp [Call.kind, recordingKinds])) (fun _ =>
    avoids_bind (hc _ (by simp [Call.kind, recordingKinds])) (fun _ =>
    avoids_bind (hc _ (by simp [Call.kind, recordingKinds])) (fun _ =>
    avoids_ite _ (avoids_pure k _)
    (avoids_bind (hc _ (by simp [Call.kind, recordingKinds])) (fun _ =>
    avoids_bind (hc _ (by simp [Call.kind, recordingKinds])) (fun _ =>
    avoids_bind (hc _ (by simp [Call.kind, recordingKinds])) (fun _ =>
    avoids_bind (avoids_index k _ _) (fun _ =>
    avoids_bind (hc _ (by simp [Call.kind, recordingKinds])) (fun _ =>
    avoids_ite _ (avoids_pure k _) (avoids_pure k _))))))))))))))

theorem createCommandBuffers_avoids (k : CallKind) (hk : k ∈ recordingKinds)
    (r : VulkanRenderInfo) (n : Nat) : Avoids k (r.CreateCommandBuffers n) := by
  unfold VulkanRenderInfo.CreateCommandBuffers
  exact avoids_bind
    (avoids_call k _ (ne_of_recording hk _ (by simp [Call.kind, recordingKinds])))
    (fun _ => avoids_ite _ (avoids_pure k _) (avoids_pure k _))

theorem recreateSwapChain_avoids (k : CallKind) (hk : k ∈ recordingKinds) (g : Globals) :
    Avoids k (recreateSwapChain g) := by
  have hn : ∀ k1 : CallKind, k1 ∉ recordingKinds → k ≠ k1 :=
    fun k1 h1 h => h1 (h ▸ hk)
  unfold recreateSwapChain VulkanSwapchainInfo.DefaultSwapchainLen
  refine avoids_bind
    (avoids_call k _ (ne_of_recording hk _ (by simp [Call.kind, recordingKinds]))) (fun _ =>
    avoids_bind (swapchainDestroy_avoids k _ (hn _ (by decide)) (hn _ (by decide))
      (hn _ (by decide))) (fun _ =>
    avoids_bind (createSwapchain_avoids k hk _) (fun _ =>
    avoids_bind (createRenderer_avoids k hk _ _) (fun _ =>
    avoids_bind (createFramebuffers_avoids k hk _ _ _) (fun p => ?_)))))
  obtain ⟨s1, err⟩ := p
  refine avoids_bind (createBuffers_avoids k hk _) (fun _ =>
    avoids_bind (createGraphicsPipeline_avoids k hk _ _ _) (fun _ =>
    avoids_bind (avoids_index k _ _) (fun _ =>
    avoids_bind (createCommandBuffers_avoids k hk _ _) (fun q => ?_))))
  obtain ⟨r1, err1⟩ := q
  exact avoids_pure k _

theorem recorded_eq_none (c : Call) (h : c.kind ∉ recordingKinds) : c.recorded = none := by
  cases c <;> first
    | rfl
    | exact absurd (by simp [Call.kind, recordingKinds]) h

theorem recordedBuffers_eq_nil (l : Trace)
    (h : ∀ e ∈ l, e.call.kind ∉ recordingKinds) : recordedBuffers l = [] := by
  unfold recordedBuffers
  rw [List.filterMap_eq_nil_iff]
  exact fun e he => recorded_eq_none e.call (h e he)

/-! ## The rebuild path of `Test.go` on concrete drivers -/

/-- C5. The frame loop never rebuilds. For every backend, every state of the
globals and every schedule, the loop makes no `DeviceWaitIdle` call (the first
statement of `recreateSwapChain`) and no `CreateSwapchain` call. In particular,
on a driver whose `AcquireNextImage` always reports out-of-date, two ticks
after start-up make the calls close-check, poll, acquire and again close-check,
poll, acquire, with nothing between the failed frame and the next one; the
loop is still running, on the globals start-up left. -/
theorem frameLoop_does_not_rebuild :
    (∀ (b : Backend) (t : Trace) (g : Globals) (pending : Nat) (schedule : List LoopEvent),
      ∀ e ∈ newEvents (frameLoop (.running g pending) schedule) b t,
        e.call.kind ≠ .DeviceWaitIdle ∧ e.call.kind ≠ .CreateSwapchain) ∧
    (loopEvents [.tick, .tick] (failingBackend .AcquireNextImage ErrorOutOfDate)).map
        (fun e => e.call.kind) =
      [.WindowShouldClose, .PollEvents, .AcquireNextImage,
       .WindowShouldClose, .PollEvents, .AcquireNextImage] ∧
    (∀ e ∈ loopEvents [.tick, .tick] (failingBackend .AcquireNextImage ErrorOutOfDate),
      e.call.kind = .AcquireNextImage → e.reply.result = ErrorOutOfDate) ∧
    (mainRun [.tick, .tick] (failingBackend .AcquireNextImage ErrorOutOfDate)).val? =
      (startUp [] (failingBackend .AcquireNextImage ErrorOutOfDate) []).val?.map
        (fun g => LoopState.running g 0) := by
  refine ⟨?_, by decide!, by decide!, by decide!⟩
  intro b t g pending schedule e he
  obtain ⟨l1, h1, p1⟩ :=
    frameLoop_avoids .DeviceWaitIdle (Or.inl rfl) schedule (.running g pending) b t
  obtain ⟨l2, h2, p2⟩ :=
    frameLoop_avoids .CreateSwapchain (Or.inr rfl) schedule (.running g pending) b t
  have e1 : newEvents (frameLoop (.running g pending) schedule) b t = l1 := by
    simp [newEvents, h1]
  have e2 : newEvents (frameLoop (.running g pending) schedule) b t = l2 := by
    simp [newEvents, h2]
  exact ⟨p1 e (e1 ▸ he), p2 e (e2 ▸ he)⟩

/-- C6. Whatever the backend, when `recreateSwapChain` returns, `SwapchainLen`
is what it was before and `len(cmdBuffers)` equals that old `SwapchainLen[0]`.
On the recycling driver, on which every call succeeds, one rebuild after
start-up therefore leaves two framebuffers and two command buffers but three
image views: the swapchain created during the rebuild has three images and
takes over the handle 1500 of the destroyed one, and the views are counted by
a fresh query on that handle. -/
theorem rebuild_lengths_differ :
    (∀ (b : Backend) (t : Trace) (g g1 : Globals),
      (recreateSwapChain g b t).val? = some g1 →
        g1.swapChainInfo.SwapchainLen = g.swapChainInfo.SwapchainLen ∧
        g.swapChainInfo.SwapchainLen[0]? = some g1.renderInfo.cmdBuffers.length) ∧
    AllSucceed recyclingBackend ∧
    destroyedSwapchains (rebuildEvents recyclingBackend) = [1500] ∧
    createdHandles .CreateSwapchain (rebuildEvents recyclingBackend) = [1500] ∧
    ((rebuildRun recyclingBackend).val?.map fun g =>
      (g.swapChainInfo.Swapchains, g.swapChainInfo.SwapchainLen)) = some ([1500], [2]) ∧
    ((rebuildRun recyclingBackend).val?.map fun g =>
      (g.swapChainInfo.DisplayViews.length, g.swapChainInfo.Framebuffers.length,
        g.renderInfo.cmdBuffers.length)) = some (3, 2, 2) := by
  refine ⟨?_, fun _ _ => rfl, by decide!, by decide!, by decide!, by decide!⟩
  intro b t g g1 h
  obtain ⟨t1, h1⟩ := ok_of_val? _ _ h
  obtain ⟨-, -, -, hs, -, hl⟩ := recreateSwapChain_returns g b t g1 t1 h1
  exact ⟨hs.2.2.1, hl⟩

/-- C7. Whatever the backend, when `recreateSwapChain` returns, the globals
hold the swapchain handles, image count, extent and format, the render pass and
the pipeline they held before it. On the resizing driver the rebuild starts
with `DeviceWaitIdle` and destroys the start-up swapchain 1500, but afterwards
the globals still hold that destroyed handle with the start-up extent
500 x 500, while the swapchain created during the rebuild (handle 7900, extent
800 x 600) is referenced nowhere; the render pass in `renderInfo` is the
start-up one (1700), not the one created during the rebuild (8100), and
`pipelineInfo` is the start-up pipeline. -/
theorem rebuild_keeps_old_handles :
    (∀ (b : Backend) (t : Trace) (g g1 : Globals),
      (recreateSwapChain g b t).val? = some g1 →
        SameSwapchain g.swapChainInfo g1.swapChainInfo ∧
        g1.renderInfo.RenderPass = g.renderInfo.RenderPass ∧
        g1.pipelineInfo = g.pipelineInfo) ∧
    ((rebuildEvents resizingBackend).head?.map fun e => e.call.kind) =
      some .DeviceWaitIdle ∧
    1500 ∈ destroyedHandles (rebuildEvents resizingBackend) ∧
    createdHandles .CreateSwapchain (rebuildEvents resizingBackend) = [7900] ∧
    requestedExtents (rebuildEvents resizingBackend) = [{ Width := 800, Height := 600 }] ∧
    ((rebuildRun resizingBackend).val?.map fun g =>
      (g.swapChainInfo.Swapchains, g.swapChainInfo.DisplaySize, g.swapChainInfo.SwapchainLen)) =
      some ([1500], { Width := 500, Height := 500 }, [2]) ∧
    createdHandles .CreateRenderPass (rebuildEvents resizingBackend) = [8100] ∧
    ((rebuildRun resizingBackend).val?.map fun g => g.renderInfo.RenderPass) = some 1700 ∧
    ((rebuildRun resizingBackend).val?.map fun g => g.pipelineInfo) =
      ((startUp [] resizingBackend []).val?.map fun g => g.pipelineInfo) := by
  refine ⟨?_, by decide!⟩
  intro b t g g1 h
  obtain ⟨t1, h1⟩ := ok_of_val? _ _ h
  obtain ⟨-, -, hp, hs, hr, -⟩ := recreateSwapChain_returns g b t g1 t1 h1
  exact ⟨hs, hr, hp⟩

/-- C8. Whatever the backend and the state, `recreateSwapChain` makes no
recording call. On the steady driver the rebuild replaces the command buffers
by the freshly allocated 10601 and 10602; no call of the whole run records
into either of them, and the next `VulkanDrawFrame` submits the unrecorded
buffer 10601. -/
theorem rebuild_leaves_buffers_unrecorded :
    (∀ (b : Backend) (t : Trace) (g : Globals),
      recordedBuffers (newEvents (recreateSwapChain g) b t) = []) ∧
    ((rebuildRun steadyBackend).val?.map fun g => g.renderInfo.cmdBuffers) =
      some [10601, 10602] ∧
    recordedBuffers (rebuildEvents steadyBackend) = [] ∧
    (∀ h ∈ [10601, 10602], h ∉ recordedBuffers (rebuildRun steadyBackend).trace) ∧
    ((rebuildRun steadyBackend).val?.map fun g =>
      submittedBuffers (newEvents
        (VulkanDrawFrame g.deviceInfo g.swapChainInfo g.renderInfo) steadyBackend
        (rebuildRun steadyBackend).trace)) = some [10601] := by
  refine ⟨?_, by decide!⟩
  intro b t g
  apply recordedBuffers_eq_nil
  intro e he hk
  obtain ⟨l, hl, pl⟩ := recreateSwapChain_avoids e.call.kind hk g b t
  have hnew : newEvents (recreateSwapChain g) b t = l := by simp [newEvents, hl]
  exact pl e (hnew ▸ he) rfl

/-- C9. Whatever the backend, when `recreateSwapChain` returns, `deviceInfo`
and `bufferInfo` are what they were before. But the rebuild does call
`CreateBuffer` and `AllocateMemory`: on the steady driver once each, creating
a second vertex buffer that is dropped. -/
theorem rebuild_allocates_vertex_buffer :
    (∀ (b : Backend) (t : Trace) (g g1 : Globals),
      (recreateSwapChain g b t).val? = some g1 →
        g1.deviceInfo = g.deviceInfo ∧ g1.bufferInfo = g.bufferInfo) ∧
    countKind .CreateBuffer (rebuildEvents steadyBackend) = 1 ∧
    countKind .AllocateMemory (rebuildEvents steadyBackend) = 1 ∧
    ((rebuildRun steadyBackend).val?.map fun g => (g.deviceInfo, g.bufferInfo)) =
      ((startUp [] steadyBackend []).val?.map fun g => (g.deviceInfo, g.bufferInfo)) := by
  refine ⟨?_, by decide!⟩
  intro b t g g1 h
  obtain ⟨t1, h1⟩ := ok_of_val? _ _ h
  obtain ⟨hd, hb, -⟩ := recreateSwapChain_returns g b t g1 t1 h1
  exact ⟨hd, hb⟩

/-! ## Leaks, failed pipeline builds and the vertex data -/

theorem events_of_avoids {α : Type} (m : VkM α) (ks : List CallKind)
    (h : ∀ k, k ∉ ks → Avoids k m) (b : Backend) (t : Trace) :
    ∀ e ∈ newEvents m b t, e.call.kind ∈ ks := by
  intro e he
  by_contra hk
  obtain ⟨l, hl, pl⟩ := h e.call.kind hk b t
  have hnew : newEvents m b t = l := by simp [newEvents, hl]
  exact pl e (hnew ▸ he) rfl

theorem destroyInOrder_avoids_others (k : CallKind) (hk : k ∉ teardownKinds)
    (d : VulkanDeviceInfo) (s : VulkanSwapchainInfo) (r : VulkanRenderInfo)
    (buf : VulkanBufferInfo) (p : Option VulkanGfxPipelineInfo) :
    Avoids k (DestroyInOrder d s r buf p) := by
  have hc : ∀ c : Call, c.kind ∈ teardownKinds → Avoids k (call c) :=
    fun c h => avoids_call k c (fun e => hk (e ▸ h))
  have hn : ∀ k1 : CallKind, k1 ∈ teardownKinds → k ≠ k1 :=
    fun k1 h1 e => hk (e ▸ h1)
  have hpipe : Avoids k (VulkanGfxPipelineInfo.Destroy p) := by
    cases p with
    | none =>
      unfold VulkanGfxPipelineInfo.Destroy
      exact avoids_pure k _
    | some q =>
      unfold VulkanGfxPipelineInfo.Destroy
      exact avoids_bind (hc _ (by simp [Call.kind, teardownKinds])) (fun _ =>
        avoids_bind (hc _ (by simp [Call.kind, teardownKinds])) (fun _ =>
        avoids_bind (hc _ (by simp [Call.kind, teardownKinds])) (fun _ => avoids_pure k _)))
  unfold DestroyInOrder VulkanBufferInfo.Destroy
  refine avoids_bind (hc _ (by simp [Call.kind, teardownKinds])) (fun _ =>
    avoids_bind (hc _ (by simp [Call.kind, teardownKinds])) (fun _ =>
    avoids_bind (hc _ (by simp [Call.kind, teardownKinds])) (fun _ =>
    avoids_bind (swapchainDestroy_avoids k s (hn _ (by decide)) (hn _ (by decide))
      (hn _ (by decide))) (fun _ =>
    avoids_bind hpipe (fun _ =>
    avoids_bind (avoids_forEach k _ (fun _ =>
      avoids_bind (hc _ (by simp [Call.kind, teardownKinds])) (fun _ => avoids_pure k _)) _)
      (fun _ =>
    avoids_bind (hc _ (by simp [Call.kind, teardownKinds])) (fun _ => ?_)))))))
  refine avoids_ite _ ?_ ?_
  · exact avoids_bind (hc _ (by simp [Call.kind, teardownKinds])) (fun _ =>
      avoids_bind (avoids_pure k _) (fun _ =>
      avoids_bind (hc _ (by simp [Call.kind, teardownKinds])) (fun _ => avoids_pure k _)))
  · exact avoids_bind (avoids_pure k _) (fun _ =>
      avoids_bind (hc _ (by simp [Call.kind, teardownKinds])) (fun _ => avoids_pure k _))

/-- C11. Start-up followed by `DestroyInOrder` leaks. Whatever the backend and
the state, every call `DestroyInOrder` makes is one of the thirteen kinds in
`teardownKinds`, none of which releases a surface, a memory allocation, a fence
or a semaphore. On the steady driver, on which every call succeeds, the run of
`main` up to its return leaves four created handles unreleased: the surface
500, the vertex buffer's memory 2800 (the buffer 2500 itself is destroyed), the
fence 6800 and the semaphore 6900. -/
theorem shutdown_leaks_handles :
    (∀ (b : Backend) (t : Trace) (d : VulkanDeviceInfo) (s : VulkanSwapchainInfo)
      (r : VulkanRenderInfo) (buf : VulkanBufferInfo) (p : Option VulkanGfxPipelineInfo),
      ∀ e ∈ newEvents (DestroyInOrder d s r buf p) b t, e.call.kind ∈ teardownKinds) ∧
    AllSucceed steadyBackend ∧
    (mainRun [.exit] steadyBackend).val? = some .returned ∧
    leakedIn (mainRun [.exit] steadyBackend).trace =
      [(.CreateSurface, 500), (.AllocateMemory, 2800), (.CreateFence, 6800),
       (.CreateSemaphore, 6900)] ∧
    (.CreateBuffer, 2500) ∈ createdIn (mainRun [.exit] steadyBackend).trace ∧
    2500 ∈ releasedIn (mainRun [.exit] steadyBackend).trace := by
  refine ⟨?_, fun _ _ => rfl, by decide!, by decide!, by decide!, by decide!⟩
  intro b t d s r buf p
  exact events_of_avoids _ _ (fun k hk => destroyInOrder_avoids_others k hk d s r buf p) b t

theorem createGraphicsPipeline_avoids_others (k : CallKind) (hk : k ∉ pipelineBuildKinds)
    (device : Handle) (displaySize : Extent2D) (renderPass : Handle) :
    Avoids k (CreateGraphicsPipeline device displaySize renderPass) := by
  have hc : ∀ c : Call, c.kind ∈ pipelineBuildKinds → Avoids k (call c) :=
    fun c h => avoids_call k c (fun e => hk (e ▸ h))
  have hd : ∀ m, Avoids k (call (.DestroyShaderModule device m)) :=
    fun m => hc _ (by simp [Call.kind, pipelineBuildKinds])
  have hl : ∀ path, Avoids k (LoadShader device path) := by
    intro path
    unfold LoadShader
    exact avoids_bind (hc _ (by simp [Call.kind, pipelineBuildKinds])) (fun _ =>
      avoids_ite _ (avoids_pure k _)
      (avoids_bind (hc _ (by simp [Call.kind, pipelineBuildKinds])) (fun _ =>
      avoids_ite _ (avoids_pure k _) (avoids_pure k _))))
  unfold CreateGraphicsPipeline
  refine avoids_bind (hc _ (by simp [Call.kind, pipelineBuildKinds])) (fun _ =>
    avoids_ite _ (avoids_pure k _)
    (avoids_bind (hl _) (fun p => ?_)))
  obtain ⟨vs, err⟩ := p
  refine avoids_ite _ (avoids_pure k _)
    (avoids_bind (hl _) (fun q => ?_))
  obtain ⟨fs, err2⟩ := q
  refine avoids_ite _ (avoids_bind (hd _) (fun _ => avoids_pure k _))
    (avoids_bind (hc _ (by simp [Call.kind, pipelineBuildKinds])) (fun _ =>
    avoids_ite _ (avoids_bind (hd _) (fun _ => avoids_bind (hd _) (fun _ => avoids_pure k _)))
    (avoids_bind (hc _ (by simp [Call.kind, pipelineBuildKinds])) (fun _ =>
    avoids_ite _ (avoids_bind (hd _) (fun _ => avoids_bind (hd _) (fun _ => avoids_pure k _)))
    (avoids_bind (avoids_index k _ _) (fun _ =>
    avoids_bind (hd _) (fun _ => avoids_bind (hd _) (fun _ => avoids_pure k _))))))))

/-- C16. A failed `CreateGraphicsPipeline` keeps what it created. Whatever the
backend, every call it makes is one of the six kinds in `pipelineBuildKinds`:
it never destroys a pipeline layout or a pipeline cache. When the vertex shader
file cannot be read, it returns the asset error together with the pipeline
layout 100 it created, which stays alive; when the pipeline build fails, both
shader modules are destroyed but the layout 100 and the cache 600 stay alive
and are returned. -/
theorem failed_pipeline_keeps_layout :
    (∀ (b : Backend) (t : Trace) (device : Handle) (displaySize : Extent2D)
      (renderPass : Handle),
      ∀ e ∈ newEvents (CreateGraphicsPipeline device displaySize renderPass) b t,
        e.call.kind ∈ pipelineBuildKinds) ∧
    (CreateGraphicsPipeline 5 { Width := 500, Height := 500 } 11
        (failingBackend .ReadFile 1) []).val? =
      some ({ device := 0, layout := 100, cache := 0, pipeline := 0 },
        some (.assetNotFound "./util/shader/vert.spv")) ∧
    leakedIn (newEvents (CreateGraphicsPipeline 5 { Width := 500, Height := 500 } 11)
        (failingBackend .ReadFile 1) []) = [(.CreatePipelineLayout, 100)] ∧
    (CreateGraphicsPipeline 5 { Width := 500, Height := 500 } 11
        (failingBackend .CreateGraphicsPipelines (-3)) []).val? =
      some ({ device := 0, layout := 100, cache := 600, pipeline := 0 },
        some (.failedWith "vk.CreateGraphicsPipelines" (-3))) ∧
    leakedIn (newEvents (CreateGraphicsPipeline 5 { Width := 500, Height := 500 } 11)
        (failingBackend .CreateGraphicsPipelines (-3)) []) =
      [(.CreatePipelineLayout, 100), (.CreatePipelineCache, 600)] := by
  refine ⟨?_, by decide!, by decide!, by decide!, by decide!⟩
  intro b t device displaySize renderPass
  exact events_of_avoids _ _
    (fun k hk => createGraphicsPipeline_avoids_others k hk device displaySize renderPass) b t

/-- C20. The draw reads past the vertex data. In the start-up run on the steady
driver every recorded `CmdDraw` draws 4 vertices, the one pipeline built has a
vertex stride of 12 bytes, and the one buffer created holds the 9 `float32`
values of the vertex data, 36 bytes: the draw reads 48 bytes of a 36-byte
buffer. -/
theorem draw_reads_past_vertex_data :
    drawnVertexCounts (startUp [] steadyBackend []).trace = [4, 4] ∧
    vertexStrides (startUp [] steadyBackend []).trace = [12] ∧
    createdBufferSizes (startUp [] steadyBackend []).trace = [36] ∧
    vertexData.length = 9 ∧ sizeofFloat32Array vertexData = 36 ∧
    ¬ (4 * 12 ≤ sizeofFloat32Array vertexData) := by
  decide!

/-! ## Destroying a swapchain -/

theorem range_map_getD {α : Type} (xs : List α) (z : α) (n : Nat) (h : n ≤ xs.length) :
    (List.range n).map (fun i => xs.getD i z) = xs.take n := by
  apply List.ext_getElem
  · simp [h]
  · intro i h1 h2
    have hi : i < n := by simpa using h1
    simp [List.getD, List.getElem?_eq_getElem (show i < xs.length by omega)]

theorem swapchainDestroy_clears (s : VulkanSwapchainInfo) :
    Returns s.Destroy (fun s1 => s1.Framebuffers = [] ∧ s1.DisplayViews = []) := by
  unfold VulkanSwapchainInfo.Destroy
  exact returns_bind (returns_any _) (fun _ _ => returns_bind (returns_any _) (fun _ _ =>
    returns_bind (returns_any _) (fun _ _ => returns_pure _ _ ⟨rfl, rfl⟩)))

theorem kinds_ordered (l : Trace) (A B : List Call) (k1 k2 : CallKind)
    (h : l.map (fun e => e.call) = A ++ B) (hA : ∀ c ∈ A, c.kind ≠ k2)
    (hB : ∀ c ∈ B, c.kind ≠ k1) (i j : Nat) (hi : i < l.length) (hj : j < l.length)
    (h1 : l[i].call.kind = k1) (h2 : l[j].call.kind = k2) : i < j := by
  have hlen : l.length = (A ++ B).length := by rw [← h]; simp
  have ei : (A ++ B)[i]? = some l[i].call := by
    rw [← h]; simp [List.getElem?_eq_getElem hi]
  have ej : (A ++ B)[j]? = some l[j].call := by
    rw [← h]; simp [List.getElem?_eq_getElem hj]
  have hiA : i < A.length := by
    by_contra hc
    rw [List.getElem?_append_right (by omega)] at ei
    exact hB _ (List.getElem?_mem ei) h1
  have hjA : A.length ≤ j := by
    by_contra hc
    rw [List.getElem?_append_left (by omega)] at ej
    exact hA _ (List.getElem?_mem ej) h2
  omega

theorem destroyedOfKind_append (k : CallKind) (l1 l2 : Trace) :
    destroyedOfKind k (l1 ++ l2) = destroyedOfKind k l1 ++ destroyedOfKind k l2 := by
  simp [destroyedOfKind]

/-- The handles released by the calls of kind `k` in a list of calls. -/
theorem destroyedOfKind_eq (k : CallKind) (l : Trace) :
    destroyedOfKind k l =
      (l.map fun e => e.call).filterMap fun c => if c.kind = k then c.destroyed else none := by
  simp [destroyedOfKind, List.filterMap_map, Function.comp_def]

theorem filterMap_flatMap_pair {α β γ : Type} (g : β → Option γ) (f1 f2 : α → β) (l : List α) :
    (l.flatMap fun i => [f1 i, f2 i]).filterMap g =
      l.flatMap fun i => ([f1 i, f2 i]).filterMap g := by
  induction l with
  | nil => rfl
  | cons x xs ih =>
    simp only [List.flatMap_cons, List.filterMap_append, ih]

/-- C18. For every swapchain context whose `SwapchainLen[0]` is `n` and whose
`Framebuffers` and `DisplayViews` have at least `n` entries, on every backend
and after every history `VulkanSwapchainInfo.Destroy` returns; its calls are,
for each `i < n` in order, `DestroyFramebuffer` on `Framebuffers[i]` and
`DestroyImageView` on `DisplayViews[i]`, followed by one `DestroySwapchain` per
swapchain handle. So the framebuffers destroyed are exactly the first `n`, the
views destroyed are exactly the first `n`, the swapchains destroyed are exactly
`Swapchains`, each once; every `DestroyImageView` call comes before every
`DestroySwapchain` call; and the context returned has empty `Framebuffers` and
`DisplayViews`. -/
theorem swapchainDestroy_trace (s : VulkanSwapchainInfo) (n : Nat)
    (h0 : s.SwapchainLen[0]? = some n) (hf : n ≤ s.Framebuffers.length)
    (hv : n ≤ s.DisplayViews.length) (b : Backend) (t : Trace) :
    ∃ s1 l, s.Destroy b t = .ok s1 (t ++ l) ∧
      l.map (fun e => e.call) =
        ((List.range n).flatMap fun i =>
          [Call.DestroyFramebuffer s.Device (s.Framebuffers.getD i NullHandle),
           Call.DestroyImageView s.Device (s.DisplayViews.getD i NullHandle)]) ++
        s.Swapchains.map (Call.DestroySwapchain s.Device) ∧
      destroyedOfKind .DestroyFramebuffer l = s.Framebuffers.take n ∧
      destroyedOfKind .DestroyImageView l = s.DisplayViews.take n ∧
      destroyedOfKind .DestroySwapchain l = s.Swapchains ∧
      (∀ (i j : Nat) (hi : i < l.length) (hj : j < l.length),
        l[i].call.kind = .DestroyImageView → l[j].call.kind = .DestroySwapchain → i < j) ∧
      s1.Framebuffers = [] ∧ s1.DisplayViews = [] := by
  obtain ⟨s1, l, hrun, hl⟩ := swapchainDestroy_emits s n h0 hf hv b t
  obtain ⟨c1, c2⟩ := swapchainDestroy_clears s b t s1 _ hrun
  refine ⟨s1, l, hrun, hl, ?_, ?_, ?_, ?_, c1, c2⟩
  · rw [destroyedOfKind_eq, hl, List.filterMap_append, filterMap_flatMap_pair]
    have hnone : List.filterMap (fun _ : Handle => (none : Option Handle)) s.Swapchains = [] := by
      simp
    simpa [Call.kind, Call.destroyed, flatMap_single, List.filterMap_map, Function.comp_def,
      hnone, List.getD] using range_map_getD s.Framebuffers NullHandle n hf
  · rw [destroyedOfKind_eq, hl, List.filterMap_append, filterMap_flatMap_pair]
    have hnone : List.filterMap (fun _ : Handle => (none : Option Handle)) s.Swapchains = [] := by
      simp
    simpa [Call.kind, Call.destroyed, flatMap_single, List.filterMap_map, Function.comp_def,
      hnone, List.getD] using range_map_getD s.DisplayViews NullHandle n hv
  · rw [destroyedOfKind_eq, hl, List.filterMap_append, filterMap_flatMap_pair]
    simp [Call.kind, Call.destroyed, List.filterMap_map, Function.comp_def]
  · intro i j hi hj h1 h2
    refine kinds_ordered l _ _ _ _ hl ?_ ?_ i j hi hj h1 h2
    · intro c hc
      simp only [List.mem_flatMap, List.mem_range, List.mem_cons, List.mem_singleton,
        List.not_mem_nil, or_false] at hc
      obtain ⟨_, _, rfl | rfl⟩ := hc <;> simp [Call.kind]
    · intro c hc
      simp only [List.mem_map] at hc
      obtain ⟨_, _, rfl⟩ := hc
      simp [Call.kind]

theorem swapchainDestroy_trace_witness :
    ∃ s1 l, sampleSwapchain.Destroy steadyBackend [] = .ok s1 ([] ++ l) ∧
      l.map (fun e => e.call) =
        ((List.range 2).flatMap fun i =>
          [Call.DestroyFramebuffer sampleSwapchain.Device
            (sampleSwapchain.Framebuffers.getD i NullHandle),
           Call.DestroyImageView sampleSwapchain.Device
            (sampleSwapchain.DisplayViews.getD i NullHandle)]) ++
        sampleSwapchain.Swapchains.map (Call.DestroySwapchain sampleSwapchain.Device) ∧
      destroyedOfKind .DestroyFramebuffer l = sampleSwapchain.Framebuffers.take 2 ∧
      destroyedOfKind .DestroyImageView l = sampleSwapchain.DisplayViews.take 2 ∧
      destroyedOfKind .DestroySwapchain l = sampleSwapchain.Swapchains ∧
      (∀ (i j : Nat) (hi : i < l.length) (hj : j < l.length),
        l[i].call.kind = .DestroyImageView → l[j].call.kind = .DestroySwapchain → i < j) ∧
      s1.Framebuffers = [] ∧ s1.DisplayViews = [] :=
  swapchainDestroy_trace sampleSwapchain 2 (by decide) (by decide) (by decide) steadyBackend []

theorem forEach_panics {α : Type} (body : α → VkM Unit) (x : α) (b : Backend)
    (hx : ∀ t, ∃ t1, body x b t = .panic t1) :
    ∀ (xs : List α), x ∈ xs → ∀ t, ∃ t1, forEach xs body b t = .panic t1
  | [], h, _ => by simp at h
  | y :: ys, h, t => by
    simp only [FieboLib.forEach, bind_apply]
    cases hy : body y b t with
    | panic t1 => exact ⟨t1, rfl⟩
    | ok u t1 =>
      rcases List.mem_cons.mp h with rfl | hmem
      · obtain ⟨t2, h2⟩ := hx t
        rw [hy] at h2
        cases h2
      · exact forEach_panics body x b hx ys hmem t1

theorem bind_panics {α β : Type} (m : VkM α) (f : α → VkM β) (b : Backend) (t : Trace)
    (h : ∃ t1, m b t = .panic t1) : ∃ t1, (m >>= f) b t = .panic t1 := by
  obtain ⟨t1, h1⟩ := h
  exact ⟨t1, by rw [bind_apply, h1]⟩

theorem swapchainDestroy_panics (s : VulkanSwapchainInfo) (n : Nat)
    (h0 : s.SwapchainLen[0]? = some n)
    (h : s.Framebuffers.length < n ∨ s.DisplayViews.length < n) (b : Backend) (t : Trace) :
    ∃ t1, s.Destroy b t = .panic t1 := by
  unfold VulkanSwapchainInfo.Destroy VulkanSwapchainInfo.DefaultSwapchainLen
  rw [index_of_getElem? _ _ _ h0]
  simp only [pure_bind_vk]
  apply bind_panics
  by_cases hf : s.Framebuffers.length < n
  · refine forEach_panics _ s.Framebuffers.length b (fun t => ⟨t, ?_⟩) _ (by simpa using hf) t
    simp [index, bind_apply, goPanic_apply]
  · have hv : s.DisplayViews.length < n := by
      rcases h with h | h
      · exact absurd h hf
      · exact h
    have hi : s.DisplayViews.length < s.Framebuffers.length := by omega
    refine forEach_panics _ s.DisplayViews.length b (fun t => ?_) _ (by simpa using hv) t
    simp only [index, bind_apply, List.getElem?_eq_getElem hi, pure_apply, call_apply,
      List.getElem?_eq_none (Nat.le_refl _), goPanic_apply]
    exact ⟨_, rfl⟩

/-- C19. `VulkanSwapchainInfo.Destroy` indexes out of range on reachable
states. Whenever `SwapchainLen[0]` exceeds the length of `Framebuffers` or of
`DisplayViews`, `Destroy` panics, on every backend. Such states are reached on
the steady driver: straight after a successful `CreateSwapchain` (image count
2, no framebuffers yet), where `Destroy` panics before making any call; after
`CreateFramebuffers` failed at its first image view; and after one earlier
`Destroy`, which empties both slices and leaves `SwapchainLen[0]` at 2. -/
theorem swapchainDestroy_out_of_range :
    (∀ (s : VulkanSwapchainInfo) (n : Nat) (b : Backend) (t : Trace),
      s.SwapchainLen[0]? = some n →
      s.Framebuffers.length < n ∨ s.DisplayViews.length < n →
      ∃ t1, s.Destroy b t = .panic t1) ∧
    (sampleDevice.CreateSwapchain steadyBackend []).val? =
      some ({ Device := 5, Swapchains := [400], SwapchainLen := [2],
              DisplaySize := { Width := 500, Height := 500 },
              DisplayFormat := FormatB8g8r8a8Unorm, Framebuffers := [],
              DisplayViews := [] }, none) ∧
    (createThenDestroy steadyBackend []).val? = none ∧
    (createThenDestroy steadyBackend []).trace.length =
      (sampleDevice.CreateSwapchain steadyBackend []).trace.length ∧
    (createThenDestroyTimes 11 0 (failingBackend .CreateImageView (-1)) []).val? =
      some ({ Device := 5, Swapchains := [400], SwapchainLen := [2],
              DisplaySize := { Width := 500, Height := 500 },
              DisplayFormat := FormatB8g8r8a8Unorm, Framebuffers := [],
              DisplayViews := [800, 0] }, some (.failedWith "vk.CreateImageView" (-1))) ∧
    (createThenDestroyTimes 11 1 (failingBackend .CreateImageView (-1)) []).val? = none ∧
    (createThenDestroyTimes 11 1 steadyBackend []).val? =
      some ({ Device := 5, Swapchains := [400], SwapchainLen := [2],
              DisplaySize := { Width := 500, Height := 500 },
              DisplayFormat := FormatB8g8r8a8Unorm, Framebuffers := [],
              DisplayViews := [] }, none) ∧
    (createThenDestroyTimes 11 2 steadyBackend []).val? = none := by
  refine ⟨fun s n b t h0 h => swapchainDestroy_panics s n h0 h b t, by decide!, by decide!,
    by decide!, by decide!, by decide!, by decide!, by decide!⟩

/-! ## Creating the swapchain -/

theorem chooseFormat_pure (fs : List SurfaceFormat) (b : Backend) (t : Trace) :
    ∀ (fuel i : Nat), chooseFormat fs fuel i b t = .panic t ∨
      ∃ c : Int, chooseFormat fs fuel i b t = .ok c t
  | 0, i => Or.inr ⟨-1, rfl⟩
  | fuel + 1, i => by
    simp only [chooseFormat, index, bind_apply]
    cases h : fs[i]? with
    | none => left; rfl
    | some f =>
      simp only [pure_apply, ite_apply_vk]
      split
      · right; exact ⟨_, rfl⟩
      · exact chooseFormat_pure fs b t fuel (i + 1)

theorem createSwapchain_cases (b : Backend) (t : Trace) (v : VulkanDeviceInfo) :
    (v.CreateSwapchain b t = .panic t ∧ v.gpuDevices = []) ∨
    ∃ gpu gpus, v.gpuDevices = gpu :: gpus ∧
    ∃ e1, e1 = ev b t (.GetPhysicalDeviceSurfaceCapabilities gpu v.Surface) ∧
    ((vkError e1.reply.result = true ∧
      v.CreateSwapchain b t =
        .ok ({}, some (.failedWith "vk.GetPhysicalDeviceSurfaceCapabilities" e1.reply.result))
          (t ++ [e1])) ∨
     (vkError e1.reply.result = false ∧
      ∃ e2, e2 = ev b (t ++ [e1]) (.GetPhysicalDeviceSurfaceFormats gpu v.Surface none) ∧
      ∃ e3, e3 = ev b (t ++ [e1, e2]) (.GetPhysicalDeviceSurfaceFormats gpu v.Surface
          (some (toUint32 e2.reply.count))) ∧
      ∃ formats, formats = fill ({} : SurfaceFormat) (toUint32 e2.reply.count) e3.reply.formats ∧
      ((chooseFormat formats (toUint32 e3.reply.count) 0 b (t ++ [e1, e2, e3]) =
          .panic (t ++ [e1, e2, e3]) ∧
        v.CreateSwapchain b t = .panic (t ++ [e1, e2, e3])) ∨
       ∃ c : Int, chooseFormat formats (toUint32 e3.reply.count) 0 b (t ++ [e1, e2, e3]) =
          .ok c (t ++ [e1, e2, e3]) ∧
        ((c < 0 ∧ v.CreateSwapchain b t = .ok ({}, some .noSuitableFormat) (t ++ [e1, e2, e3])) ∨
         (0 ≤ c ∧
          ((formats[c.toNat]? = none ∧ v.CreateSwapchain b t = .panic (t ++ [e1, e2, e3])) ∨
           ∃ chosen, formats[c.toNat]? = some chosen ∧
           ∃ e4, e4 = ev b (t ++ [e1, e2, e3]) (.CreateSwapchain v.Device
              { Surface := v.Surface
                MinImageCount := e1.reply.capabilities.MinImageCount
                ImageFormat := chosen.Format
                ImageColorSpace := chosen.ColorSpace
                ImageExtent := e1.reply.capabilities.CurrentExtent
                ImageUsage := ImageUsageColorAttachmentBit
                PreTransform := SurfaceTransformIdentityBit
                ImageArrayLayers := 1
                ImageSharingMode := SharingModeExclusive
                QueueFamilyIndexCount := 1
                PQueueFamilyIndices := [0]
                PresentMode := PresentModeFifo
                OldSwapchain := NullHandle
                Clipped := false }) ∧
           ((vkError e4.reply.result = true ∧
             v.CreateSwapchain b t =
               .ok ({ DisplaySize := e1.reply.capabilities.CurrentExtent,
                      DisplayFormat := chosen.Format, Swapchains := [e4.reply.handle] },
                    some (.failedWith "vk.CreateSwapchain" e4.reply.result))
                 (t ++ [e1, e2, e3, e4])) ∨
            (vkError e4.reply.result = false ∧
             ∃ e5, e5 = ev b (t ++ [e1, e2, e3, e4])
                (.GetSwapchainImages v.Device e4.reply.handle none) ∧
             ((vkError e5.reply.result = true ∧
               v.CreateSwapchain b t =
                 .ok ({ DisplaySize := e1.reply.capabilities.CurrentExtent,
                        DisplayFormat := chosen.Format, Swapchains := [e4.reply.handle],
                        SwapchainLen := [toUint32 e5.reply.count] },
                      some (.failedWith "vk.GetSwapchainImages" e5.reply.result))
                   (t ++ [e1, e2, e3, e4, e5])) ∨
              (vkError e5.reply.result = false ∧
               v.CreateSwapchain b t =
                 .ok ({ DisplaySize := e1.reply.capabilities.CurrentExtent,
                        DisplayFormat := chosen.Format, Swapchains := [e4.reply.handle],
                        SwapchainLen := [toUint32 e5.reply.count], Device := v.Device },
                      none)
                   (t ++ [e1, e2, e3, e4, e5]))))))))))) := by
  simp only [VulkanDeviceInfo.CreateSwapchain, VulkanSwapchainInfo.DefaultSwapchain, index,
    bind_apply, pure_apply, goPanic_apply, call_apply, ite_apply_vk]
  rcases hg : v.gpuDevices with _ | ⟨gpu, gpus⟩
  · left; simp [goPanic_apply]
  right
  refine ⟨gpu, gpus, rfl, _, rfl, ?_⟩
  simp only [List.getElem?_cons_zero, pure_apply, call_apply]
  generalize ev b t (.GetPhysicalDeviceSurfaceCapabilities gpu v.Surface) = e1
  cases h1 : vkError e1.reply.result
  swap
  · left; simp
  right
  refine ⟨rfl, _, rfl, _, rfl, _, rfl, ?_⟩
  simp only [Bool.false_eq_true, if_false, List.append_assoc, List.cons_append,
    List.nil_append]
  generalize ev b (t ++ [e1]) (.GetPhysicalDeviceSurfaceFormats gpu v.Surface none) = e2
  generalize ev b (t ++ [e1, e2]) _ = e3
  generalize fill ({} : SurfaceFormat) (toUint32 e2.reply.count) e3.reply.formats = formats
  rcases chooseFormat_pure formats b (t ++ [e1, e2, e3]) (toUint32 e3.reply.count) 0 with
    hp | ⟨c, hc⟩
  · left; simp [hp]
  right
  refine ⟨c, hc, ?_⟩
  simp only [hc]
  by_cases hneg : c < 0
  · left; simp [hneg]
  right
  refine ⟨by omega, ?_⟩
  simp only [hneg, if_false]
  cases hch : formats[c.toNat]? with
  | none => left; simp [goPanic_apply]
  | some chosen =>
    right
    refine ⟨chosen, rfl, _, rfl, ?_⟩
    simp only [pure_apply, call_apply]
    generalize ev b (t ++ [e1, e2, e3]) _ = e4
    cases h4 : vkError e4.reply.result
    swap
    · left; simp
    right
    refine ⟨rfl, _, rfl, ?_⟩
    simp only [Bool.false_eq_true, if_false, List.append_assoc, List.cons_append,
      List.nil_append]
    generalize ev b (t ++ [e1, e2, e3, e4]) _ = e5
    cases h5 : vkError e5.reply.result <;> simp

theorem fill_self {α : Type} (z : α) (xs : List α) : fill z xs.length xs = xs := by
  simp [fill]

theorem toUint32_of_lt (n : Nat) (h : n < 2 ^ 32) : toUint32 n = n := by
  unfold toUint32
  exact Nat.mod_eq_of_lt h

theorem chooseFormat_find (fs : List SurfaceFormat) (b : Backend) (t : Trace) :
    ∀ (fuel i : Nat), i + fuel = fs.length →
      ((fs.drop i).find? preferredFormat = none → chooseFormat fs fuel i b t = .ok (-1) t) ∧
      (∀ f, (fs.drop i).find? preferredFormat = some f →
        ∃ j, fs[j]? = some f ∧ chooseFormat fs fuel i b t = .ok (Int.ofNat j) t)
  | 0, i, h => by
    have hd : fs.drop i = [] := by
      apply List.drop_eq_nil_of_le
      omega
    simp [hd, chooseFormat, pure_apply]
  | fuel + 1, i, h => by
    have hi : i < fs.length := by omega
    have hd : fs.drop i = fs[i] :: fs.drop (i + 1) := List.drop_eq_getElem_cons hi
    obtain ⟨ih1, ih2⟩ := chooseFormat_find fs b t fuel (i + 1) (by omega)
    simp only [chooseFormat, index, bind_apply, List.getElem?_eq_getElem hi, pure_apply,
      ite_apply_vk, hd, List.find?_cons]
    cases hp : preferredFormat fs[i] with
    | true =>
      have hp1 : (fs[i].Format == FormatB8g8r8a8Unorm || fs[i].Format == FormatR8g8b8a8Unorm)
          = true := hp
      simp only [hp1, if_true]
      refine ⟨by simp, fun f hf => ⟨i, ?_, rfl⟩⟩
      simp only [Option.some.injEq] at hf
      simp [List.getElem?_eq_getElem hi, hf]
    | false =>
      have hp1 : (fs[i].Format == FormatB8g8r8a8Unorm || fs[i].Format == FormatR8g8b8a8Unorm)
          = false := hp
      simp only [hp1, Bool.false_eq_true, if_false]
      exact ⟨ih1, ih2⟩


/-- C13. Whenever `CreateSwapchain` asks the backend for a swapchain, whatever
the backend and the state, the run contains exactly one surface capability
query and one `CreateSwapchain` call; the call is on the device of the context
and asks for the minimum image count and the current extent of the capability
report unchanged, with exclusive sharing, FIFO present mode, identity
pre-transform and `Clipped` false; the method returns, and the `DisplaySize`
it returns is that current extent. -/
theorem createSwapchain_request (b : Backend) (t : Trace) (v : VulkanDeviceInfo)
    (h : countKind .CreateSwapchain (newEvents v.CreateSwapchain b t) ≠ 0) :
    ∃ e1 e4 info,
      eventsOfKind .GetPhysicalDeviceSurfaceCapabilities (newEvents v.CreateSwapchain b t) =
        [e1] ∧
      eventsOfKind .CreateSwapchain (newEvents v.CreateSwapchain b t) = [e4] ∧
      e4.call = .CreateSwapchain v.Device info ∧
      info.MinImageCount = e1.reply.capabilities.MinImageCount ∧
      info.ImageExtent = e1.reply.capabilities.CurrentExtent ∧
      info.ImageSharingMode = SharingModeExclusive ∧
      info.PresentMode = PresentModeFifo ∧
      info.PreTransform = SurfaceTransformIdentityBit ∧
      info.Clipped = false ∧
      ∃ s err, (v.CreateSwapchain b t).val? = some (s, err) ∧
        s.DisplaySize = e1.reply.capabilities.CurrentExtent := by
  rcases createSwapchain_cases b t v with ⟨hp, _⟩ | ⟨gpu, gpus, -, e1, he1, hrest⟩
  · rw [newEvents_of_panic_nil _ _ _ hp] at h
    simp [countKind] at h
  have k1 : e1.call.kind = .GetPhysicalDeviceSurfaceCapabilities := by rw [he1]; rfl
  rcases hrest with ⟨-, hres⟩ | ⟨-, e2, he2, e3, he3, formats, -, hrest⟩
  · rw [newEvents_of_ok _ _ _ _ _ hres] at h
    simp [countKind, k1] at h
  have k2 : e2.call.kind = .GetPhysicalDeviceSurfaceFormats := by rw [he2]; rfl
  have k3 : e3.call.kind = .GetPhysicalDeviceSurfaceFormats := by rw [he3]; rfl
  rcases hrest with ⟨-, hres⟩ | ⟨c, -, hrest⟩
  · rw [newEvents_of_panic _ _ _ _ hres] at h
    simp [countKind, k1, k2, k3] at h
  rcases hrest with ⟨-, hres⟩ | ⟨-, hrest⟩
  · rw [newEvents_of_ok _ _ _ _ _ hres] at h
    simp [countKind, k1, k2, k3] at h
  rcases hrest with ⟨-, hres⟩ | ⟨chosen, -, e4, he4, hrest⟩
  · rw [newEvents_of_panic _ _ _ _ hres] at h
    simp [countKind, k1, k2, k3] at h
  have k4 : e4.call.kind = .CreateSwapchain := by rw [he4]; rfl
  obtain ⟨info, c4, i1, i2, i3, i4, i5, i6⟩ : ∃ info, e4.call = .CreateSwapchain v.Device info ∧
      info.MinImageCount = e1.reply.capabilities.MinImageCount ∧
      info.ImageExtent = e1.reply.capabilities.CurrentExtent ∧
      info.ImageSharingMode = SharingModeExclusive ∧
      info.PresentMode = PresentModeFifo ∧
      info.PreTransform = SurfaceTransformIdentityBit ∧
      info.Clipped = false := by
    rw [he4]
    exact ⟨_, rfl, rfl, rfl, rfl, rfl, rfl, rfl⟩
  rcases hrest with ⟨-, hres⟩ | ⟨-, e5, he5, hrest⟩
  · rw [newEvents_of_ok _ _ _ _ _ hres, hres]
    exact ⟨e1, e4, info, by simp [eventsOfKind, k1, k2, k3, k4],
      by simp [eventsOfKind, k1, k2, k3, k4], c4, i1, i2, i3, i4, i5, i6, _, _, rfl, rfl⟩
  have k5 : e5.call.kind = .GetSwapchainImages := by rw [he5]; rfl
  rcases hrest with ⟨-, hres⟩ | ⟨-, hres⟩
  · rw [newEvents_of_ok _ _ _ _ _ hres, hres]
    exact ⟨e1, e4, info, by simp [eventsOfKind, k1, k2, k3, k4, k5],
      by simp [eventsOfKind, k1, k2, k3, k4, k5], c4, i1, i2, i3, i4, i5, i6, _, _, rfl, rfl⟩
  · rw [newEvents_of_ok _ _ _ _ _ hres, hres]
    exact ⟨e1, e4, info, by simp [eventsOfKind, k1, k2, k3, k4, k5],
      by simp [eventsOfKind, k1, k2, k3, k4, k5], c4, i1, i2, i3, i4, i5, i6, _, _, rfl, rfl⟩

theorem createSwapchain_request_witness :
    ∃ e1 e4 info,
      eventsOfKind .GetPhysicalDeviceSurfaceCapabilities
        (newEvents sampleDevice.CreateSwapchain steadyBackend []) = [e1] ∧
      eventsOfKind .CreateSwapchain
        (newEvents sampleDevice.CreateSwapchain steadyBackend []) = [e4] ∧
      e4.call = .CreateSwapchain sampleDevice.Device info ∧
      info.MinImageCount = e1.reply.capabilities.MinImageCount ∧
      info.ImageExtent = e1.reply.capabilities.CurrentExtent ∧
      info.ImageSharingMode = SharingModeExclusive ∧
      info.PresentMode = PresentModeFifo ∧
      info.PreTransform = SurfaceTransformIdentityBit ∧
      info.Clipped = false ∧
      ∃ s err, (sampleDevice.CreateSwapchain steadyBackend []).val? = some (s, err) ∧
        s.DisplaySize = e1.reply.capabilities.CurrentExtent :=
  createSwapchain_request steadyBackend [] sampleDevice (by decide!)

theorem exists_preferred_of_find {fs : List SurfaceFormat} {f : SurfaceFormat}
    (h : fs.find? preferredFormat = some f) : ¬ ∀ g ∈ fs, preferredFormat g = false := by
  intro hall
  have h1 := List.find?_some h
  have h2 := hall f (List.mem_of_find?_eq_some h)
  rw [h1] at h2
  cases h2

/-- C12. Take a device context with a GPU and a run of `CreateSwapchain` in
which the capability query succeeds and both format queries report the list
`fs` (fewer than 2^32 entries). Then the method returns; its error is the
no-suitable-format error exactly when no entry of `fs` is BGRA8-unorm or
RGBA8-unorm, and in that case the run contains no `CreateSwapchain` call; and
when `f` is the first entry of `fs` with one of these two formats, the
`DisplayFormat` returned is that of `f` and the run contains exactly one
`CreateSwapchain` call, asking for the format and the colour space of `f`. -/
theorem createSwapchain_chooses_format (b : Backend) (t : Trace) (v : VulkanDeviceInfo)
    (fs : List SurfaceFormat) (hg : v.gpuDevices ≠ [])
    (hc : ∀ e ∈ newEvents v.CreateSwapchain b t,
      e.call.kind = .GetPhysicalDeviceSurfaceCapabilities → e.reply.result = Success)
    (hf : ∀ e ∈ newEvents v.CreateSwapchain b t,
      e.call.kind = .GetPhysicalDeviceSurfaceFormats →
        e.reply.count = fs.length ∧ e.reply.formats = fs)
    (hlen : fs.length < 2 ^ 32) :
    ∃ s err t1, v.CreateSwapchain b t = .ok (s, err) t1 ∧
      (err = some .noSuitableFormat ↔ ∀ f ∈ fs, preferredFormat f = false) ∧
      (err = some .noSuitableFormat →
        countKind .CreateSwapchain (newEvents v.CreateSwapchain b t) = 0) ∧
      ∀ f, fs.find? preferredFormat = some f →
        s.DisplayFormat = f.Format ∧
        ∃ e4 info, eventsOfKind .CreateSwapchain (newEvents v.CreateSwapchain b t) = [e4] ∧
          e4.call = .CreateSwapchain v.Device info ∧
          info.ImageFormat = f.Format ∧ info.ImageColorSpace = f.ColorSpace := by
  rcases createSwapchain_cases b t v with ⟨-, hnil⟩ | ⟨gpu, gpus, -, e1, he1, hrest⟩
  · exact absurd hnil hg
  have k1 : e1.call.kind = .GetPhysicalDeviceSurfaceCapabilities := by rw [he1]; rfl
  rcases hrest with ⟨h1, hres⟩ | ⟨-, e2, he2, e3, he3, formats, hfm, hrest⟩
  · exfalso
    rw [newEvents_of_ok _ _ _ _ _ hres] at hc
    have := hc e1 (by simp) k1
    simp [vkError, this] at h1
  have k2 : e2.call.kind = .GetPhysicalDeviceSurfaceFormats := by rw [he2]; rfl
  have k3 : e3.call.kind = .GetPhysicalDeviceSurfaceFormats := by rw [he3]; rfl
  have core : (∃ l, newEvents v.CreateSwapchain b t = e1 :: e2 :: e3 :: l) →
      formats = fs ∧ toUint32 e3.reply.count = fs.length := by
    rintro ⟨l, hl⟩
    have f2 := hf e2 (by simp [hl]) k2
    have f3 := hf e3 (by simp [hl]) k3
    rw [hfm, f2.1, f3.1, f3.2, toUint32_of_lt _ hlen, fill_self]
    exact ⟨rfl, rfl⟩
  obtain ⟨find1, find2⟩ := chooseFormat_find fs b (t ++ [e1, e2, e3]) fs.length 0 (by simp)
  rw [List.drop_zero] at find1 find2
  rcases hrest with ⟨hp, hres⟩ | ⟨c, hch, hrest⟩
  · exfalso
    obtain ⟨e1f, e2f⟩ := core ⟨[], newEvents_of_panic _ _ _ _ hres⟩
    rw [e1f, e2f] at hp
    cases hfind : fs.find? preferredFormat with
    | none => rw [find1 hfind] at hp; cases hp
    | some f =>
      obtain ⟨j, -, hj⟩ := find2 f hfind
      rw [hj] at hp; cases hp
  rcases hrest with ⟨hneg, hres⟩ | ⟨hpos, hrest⟩
  · obtain ⟨e1f, e2f⟩ := core ⟨[], newEvents_of_ok _ _ _ _ _ hres⟩
    rw [e1f, e2f] at hch
    cases hfind : fs.find? preferredFormat with
    | none =>
      refine ⟨_, _, _, hres, ?_, ?_, ?_⟩
      · simpa using List.find?_eq_none.mp hfind
      · intro _
        rw [newEvents_of_ok _ _ _ _ _ hres]
        simp [countKind, k1, k2, k3]
      · intro f hf1
        cases hf1
    | some f =>
      exfalso
      obtain ⟨j, -, hj⟩ := find2 f hfind
      rw [hj] at hch
      simp only [Res.ok.injEq, and_true] at hch
      rw [← hch] at hneg
      exact absurd hneg (Int.not_lt.mpr (Int.ofNat_nonneg j))
  have fin : ∀ (chosen : SurfaceFormat), formats[c.toNat]? = some chosen →
      (∃ l, newEvents v.CreateSwapchain b t = e1 :: e2 :: e3 :: l) →
      ∃ f, fs.find? preferredFormat = some f ∧ chosen = f := by
    intro chosen hcho hnew
    obtain ⟨e1f, e2f⟩ := core hnew
    rw [e1f, e2f] at hch
    rw [e1f] at hcho
    cases hfind : fs.find? preferredFormat with
    | none =>
      rw [find1 hfind] at hch
      simp only [Res.ok.injEq, and_true] at hch
      omega
    | some f =>
      obtain ⟨j, hj1, hj⟩ := find2 f hfind
      rw [hj] at hch
      simp only [Res.ok.injEq, and_true] at hch
      have hcj : c.toNat = j := by rw [← hch]; rfl
      rw [hcj, hj1] at hcho
      exact ⟨f, rfl, (Option.some.inj hcho).symm⟩
  rcases hrest with ⟨hnone, hres⟩ | ⟨chosen, hcho, e4, he4, hrest⟩
  · exfalso
    obtain ⟨e1f, e2f⟩ := core ⟨[], newEvents_of_panic _ _ _ _ hres⟩
    rw [e1f, e2f] at hch
    rw [e1f] at hnone
    cases hfind : fs.find? preferredFormat with
    | none =>
      rw [find1 hfind] at hch
      simp only [Res.ok.injEq, and_true] at hch
      omega
    | some f =>
      obtain ⟨j, hj1, hj⟩ := find2 f hfind
      rw [hj] at hch
      simp only [Res.ok.injEq, and_true] at hch
      have hcj : c.toNat = j := by rw [← hch]; rfl
      rw [hcj, hj1] at hnone
      cases hnone
  have k4 : e4.call.kind = .CreateSwapchain := by rw [he4]; rfl
  obtain ⟨info, c4, i1, i2⟩ : ∃ info, e4.call = .CreateSwapchain v.Device info ∧
      info.ImageFormat = chosen.Format ∧ info.ImageColorSpace = chosen.ColorSpace := by
    rw [he4]
    exact ⟨_, rfl, rfl, rfl⟩
  have done : ∀ (s : VulkanSwapchainInfo) (err : Option GoError) (l : Trace),
      v.CreateSwapchain b t = .ok (s, err) (t ++ (e1 :: e2 :: e3 :: e4 :: l)) →
      err ≠ some .noSuitableFormat → s.DisplayFormat = chosen.Format →
      (∀ e ∈ l, e.call.kind ≠ .CreateSwapchain) →
      ∃ s err t1, v.CreateSwapchain b t = .ok (s, err) t1 ∧
      (err = some .noSuitableFormat ↔ ∀ f ∈ fs, preferredFormat f = false) ∧
      (err = some .noSuitableFormat →
        countKind .CreateSwapchain (newEvents v.CreateSwapchain b t) = 0) ∧
      ∀ f, fs.find? preferredFormat = some f →
        s.DisplayFormat = f.Format ∧
        ∃ e4 info, eventsOfKind .CreateSwapchain (newEvents v.CreateSwapchain b t) = [e4] ∧
          e4.call = .CreateSwapchain v.Device info ∧
          info.ImageFormat = f.Format ∧ info.ImageColorSpace = f.ColorSpace := by
    intro s err l hres herr hdf hl
    have hnew := newEvents_of_ok _ _ _ _ _ hres
    obtain ⟨f, hfind, hcf⟩ := fin chosen hcho ⟨_, hnew⟩
    refine ⟨s, err, _, hres, ⟨fun h => absurd h herr, fun h =>
      absurd h (exists_preferred_of_find hfind)⟩, fun h => absurd h herr, ?_⟩
    intro g hg1
    rw [hfind] at hg1
    have hgf : f = g := Option.some.inj hg1
    subst hgf
    subst hcf
    refine ⟨hdf, e4, info, ?_, c4, i1, i2⟩
    rw [hnew]
    have hl2 : l.filter (fun e => e.call.kind == CallKind.CreateSwapchain) = [] := by
      rw [List.filter_eq_nil_iff]
      intro e he
      simpa using hl e he
    simp [eventsOfKind, k1, k2, k3, k4, hl2]
  rcases hrest with ⟨-, hres⟩ | ⟨-, e5, he5, hrest⟩
  · exact done _ _ [] hres (by simp) rfl (by simp)
  have k5 : e5.call.kind = .GetSwapchainImages := by rw [he5]; rfl
  rcases hrest with ⟨-, hres⟩ | ⟨-, hres⟩
  · exact done _ _ [e5] hres (by simp) rfl (by simp [k5])
  · exact done _ _ [e5] hres (by simp) rfl (by simp [k5])

theorem createSwapchain_chooses_format_witness :
    ∃ s err t1, sampleDevice.CreateSwapchain steadyBackend [] = .ok (s, err) t1 ∧
      (err = some .noSuitableFormat ↔
        ∀ f ∈ [({ Format := FormatB8g8r8a8Unorm, ColorSpace := 0 } : SurfaceFormat)],
          preferredFormat f = false) ∧
      (err = some .noSuitableFormat →
        countKind .CreateSwapchain (newEvents sampleDevice.CreateSwapchain steadyBackend []) =
          0) ∧
      ∀ f, [({ Format := FormatB8g8r8a8Unorm, ColorSpace := 0 } : SurfaceFormat)].find?
          preferredFormat = some f →
        s.DisplayFormat = f.Format ∧
        ∃ e4 info, eventsOfKind .CreateSwapchain
            (newEvents sampleDevice.CreateSwapchain steadyBackend []) = [e4] ∧
          e4.call = .CreateSwapchain sampleDevice.Device info ∧
          info.ImageFormat = f.Format ∧ info.ImageColorSpace = f.ColorSpace :=
  createSwapchain_chooses_format steadyBackend [] sampleDevice
    [{ Format := FormatB8g8r8a8Unorm, ColorSpace := 0 }] (by decide) (by decide!) (by decide!)
    (by decide)

/-! ## Lengths after the set-up -/

theorem check_on (b : Backend) (hcheck : b.checkPanics = false ∨ AllSucceed b) (t : Trace)
    (c : Call) (t1 : Trace) : check (b.reply t c).result b t1 = .ok () t1 := by
  unfold check
  rcases hcheck with h | h
  · simp [h]
  · simp [h t c, vkError]

theorem forEach_on {α : Type} (b : Backend) (body : α → VkM Unit) (cs : α → List Call) :
    ∀ (xs : List α),
      (∀ x ∈ xs, ∀ t, ∃ l, body x b t = .ok () (t ++ l) ∧ l.map (fun e => e.call) = cs x) →
      ∀ t, ∃ l, forEach xs body b t = .ok () (t ++ l) ∧ l.map (fun e => e.call) = xs.flatMap cs
  | [], _, t => ⟨[], by simp [FieboLib.forEach, pure_apply], rfl⟩
  | x :: xs, h, t => by
    obtain ⟨l1, h1, e1⟩ := h x (by simp) t
    obtain ⟨l2, h2, e2⟩ := forEach_on b body cs xs (fun y hy => h y (by simp [hy])) (t ++ l1)
    refine ⟨l1 ++ l2, ?_, by simp [e1, e2]⟩
    simp [FieboLib.forEach, bind_apply, h1, h2]

theorem recordCommandBuffer_on (b : Backend) (hcheck : b.checkPanics = false ∨ AllSucceed b)
    (s : VulkanSwapchainInfo) (r : VulkanRenderInfo) (bufferInfo : VulkanBufferInfo)
    (gfx : VulkanGfxPipelineInfo) (i : Nat) (h1 : i < s.Framebuffers.length)
    (h2 : i < r.cmdBuffers.length) (t : Trace) :
    ∃ l, recordCommandBuffer s r bufferInfo gfx i b t = .ok () (t ++ l) ∧
      l.map (fun e => e.call) = expectedRecording s r bufferInfo gfx i := by
  simp only [recordCommandBuffer, index, List.getElem?_eq_getElem h1,
    List.getElem?_eq_getElem h2, bind_apply, pure_apply, call_apply, ev_reply,
    check_on b hcheck, List.append_assoc, List.cons_append, List.nil_append]
  refine ⟨_, rfl, ?_⟩
  simp [expectedRecording, ev_call, List.getD, List.getElem?_eq_getElem h1,
    List.getElem?_eq_getElem h2]

theorem vulkanInit_on (b : Backend) (hcheck : b.checkPanics = false ∨ AllSucceed b)
    (v : VulkanDeviceInfo) (s : VulkanSwapchainInfo) (r : VulkanRenderInfo)
    (bufferInfo : VulkanBufferInfo) (gfx : VulkanGfxPipelineInfo)
    (hlen : r.cmdBuffers.length ≤ s.Framebuffers.length) (t : Trace) :
    ∃ r1 l, VulkanInit v s r bufferInfo gfx b t = .ok r1 (t ++ l) ∧
      l.map (fun e => e.call) =
        (List.range r.cmdBuffers.length).flatMap (expectedRecording s r bufferInfo gfx) ++
          [.CreateFence v.Device, .CreateSemaphore v.Device] ∧
      r1.cmdBuffers = r.cmdBuffers ∧ r1.RenderPass = r.RenderPass := by
  obtain ⟨l0, h0, e0⟩ := forEach_on b (recordCommandBuffer s r bufferInfo gfx)
    (expectedRecording s r bufferInfo gfx) (List.range r.cmdBuffers.length)
    (fun i hi t => recordCommandBuffer_on b hcheck s r bufferInfo gfx i
      (by have := List.mem_range.mp hi; omega) (List.mem_range.mp hi) t) t
  simp only [VulkanInit, bind_apply, h0, call_apply, ev_reply, check_on b hcheck, pure_apply,
    List.append_assoc, List.cons_append, List.nil_append]
  refine ⟨_, _, rfl, ?_, rfl, rfl⟩
  simp [e0, ev_call]

/-- C15. Take a backend on which the helper `check` does not abort (it only
logs, or every call succeeds) and a state with at least as many framebuffers
as command buffers. Then `VulkanInit` returns, and its calls are, for each
command buffer `i` in order, exactly the seven calls of `expectedRecording`
(begin, begin render pass on `Framebuffers[i]` with one clear value, bind
pipeline, bind vertex buffers from binding 0 with zero offsets, draw
`(4, 1, 0, 0)`, end render pass, end), followed by the creation of the fence
and of the semaphore. Invoking `VulkanInit` again on the render info it
returned, after any history, makes the identical sequence of calls. -/
theorem vulkanInit_records (b : Backend) (hcheck : b.checkPanics = false ∨ AllSucceed b)
    (v : VulkanDeviceInfo) (s : VulkanSwapchainInfo) (r : VulkanRenderInfo)
    (bufferInfo : VulkanBufferInfo) (gfx : VulkanGfxPipelineInfo)
    (hlen : r.cmdBuffers.length ≤ s.Framebuffers.length) (t t2 : Trace) :
    ∃ r1 l1 r2 l2, VulkanInit v s r bufferInfo gfx b t = .ok r1 (t ++ l1) ∧
      l1.map (fun e => e.call) =
        (List.range r.cmdBuffers.length).flatMap (expectedRecording s r bufferInfo gfx) ++
          [.CreateFence v.Device, .CreateSemaphore v.Device] ∧
      VulkanInit v s r1 bufferInfo gfx b t2 = .ok r2 (t2 ++ l2) ∧
      l2.map (fun e => e.call) = l1.map (fun e => e.call) := by
  obtain ⟨r1, l1, h1, e1, c1, p1⟩ := vulkanInit_on b hcheck v s r bufferInfo gfx hlen t
  obtain ⟨r2, l2, h2, e2, -, -⟩ :=
    vulkanInit_on b hcheck v s r1 bufferInfo gfx (by rw [c1]; exact hlen) t2
  refine ⟨r1, l1, r2, l2, h1, e1, h2, ?_⟩
  rw [e1, e2, c1]
  have hexp : expectedRecording s r1 bufferInfo gfx = expectedRecording s r bufferInfo gfx := by
    funext i
    simp [expectedRecording, c1, p1]
  rw [hexp]

theorem vulkanInit_records_witness :
    ∃ r1 l1 r2 l2,
      VulkanInit sampleDevice sampleSwapchain sampleRender sampleBuffer samplePipeline
        steadyBackend [] = .ok r1 ([] ++ l1) ∧
      l1.map (fun e => e.call) =
        (List.range sampleRender.cmdBuffers.length).flatMap
          (expectedRecording sampleSwapchain sampleRender sampleBuffer samplePipeline) ++
          [.CreateFence sampleDevice.Device, .CreateSemaphore sampleDevice.Device] ∧
      VulkanInit sampleDevice sampleSwapchain r1 sampleBuffer samplePipeline
        steadyBackend [] = .ok r2 ([] ++ l2) ∧
      l2.map (fun e => e.call) = l1.map (fun e => e.call) :=
  vulkanInit_records steadyBackend (Or.inl rfl) sampleDevice sampleSwapchain sampleRender
    sampleBuffer samplePipeline (by decide) [] []

/-! ## Creating the device -/

theorem fill_length {α : Type} (z : α) (n : Nat) (xs : List α) : (fill z n xs).length = n := by
  simp [fill]
  omega

theorem newVulkanDevice_cases (b : Backend) (t : Trace) (exts : List String)
    (f : Handle → VkM Handle) (hext : ∀ inst b t, ∃ l, (f inst b t).trace = t ++ l) :
    ∃ e1, e1 = ev b t (.EnumerateInstanceExtensionProperties none) ∧
    (((vkError e1.reply.result && b.checkPanics) = true ∧
      NewVulkanDevice exts f b t = .panic (t ++ [e1])) ∨
     ((vkError e1.reply.result && b.checkPanics) = false ∧
      ∃ e2, e2 = ev b (t ++ [e1])
        (.EnumerateInstanceExtensionProperties (some (toUint32 e1.reply.count))) ∧
      (((vkError e2.reply.result && b.checkPanics) = true ∧
        NewVulkanDevice exts f b t = .panic (t ++ [e1, e2])) ∨
       ((vkError e2.reply.result && b.checkPanics) = false ∧
        ∃ e3 info, e3 = ev b (t ++ [e1, e2]) (.CreateInstance info) ∧
        ((vkError e3.reply.result = true ∧
          NewVulkanDevice exts f b t =
            .ok ({ Instance := e3.reply.handle },
                 some (.failedWith "vk.CreateInstance" e3.reply.result))
              (t ++ [e1, e2, e3])) ∨
         (vkError e3.reply.result = false ∧
          ∃ e4, e4 = ev b (t ++ [e1, e2, e3]) (.InitInstance e3.reply.handle) ∧
          ((∃ tp, f e3.reply.handle b (t ++ [e1, e2, e3, e4]) = .panic tp ∧
              NewVulkanDevice exts f b t = .panic tp) ∨
           ∃ surface lf tS, tS = t ++ ([e1, e2, e3, e4] ++ lf) ∧
            f e3.reply.handle b (t ++ [e1, e2, e3, e4]) = .ok surface tS ∧
           ∃ e5, e5 = ev b tS (.EnumeratePhysicalDevices e3.reply.handle none) ∧
           ((vkError e5.reply.result = true ∧
             ∃ e6, e6 = ev b (tS ++ [e5]) (.DestroySurface e3.reply.handle surface) ∧
             ∃ e7, e7 = ev b (tS ++ [e5, e6]) (.DestroyInstance e3.reply.handle) ∧
             NewVulkanDevice exts f b t =
               .ok ({ Instance := e3.reply.handle, Surface := surface },
                    some (.failedWith "vk.EnumeratePhysicalDevices" e5.reply.result))
                 (tS ++ [e5, e6, e7])) ∨
            (vkError e5.reply.result = false ∧ toUint32 e5.reply.count = 0 ∧
             ∃ e6, e6 = ev b (tS ++ [e5]) (.DestroySurface e3.reply.handle surface) ∧
             ∃ e7, e7 = ev b (tS ++ [e5, e6]) (.DestroyInstance e3.reply.handle) ∧
             NewVulkanDevice exts f b t =
               .ok ({ Instance := e3.reply.handle, Surface := surface }, some .noGPUs)
                 (tS ++ [e5, e6, e7])) ∨
            (vkError e5.reply.result = false ∧ toUint32 e5.reply.count ≠ 0 ∧
             ∃ e6, e6 = ev b (tS ++ [e5])
               (.EnumeratePhysicalDevices e3.reply.handle (some (toUint32 e5.reply.count))) ∧
             ((vkError e6.reply.result = true ∧
               ∃ e7, e7 = ev b (tS ++ [e5, e6]) (.DestroySurface e3.reply.handle surface) ∧
               ∃ e8, e8 = ev b (tS ++ [e5, e6, e7]) (.DestroyInstance e3.reply.handle) ∧
               NewVulkanDevice exts f b t =
                 .ok ({ Instance := e3.reply.handle, Surface := surface },
                      some (.failedWith "vk.EnumeratePhysicalDevices" e6.reply.result))
                   (tS ++ [e5, e6, e7, e8])) ∨
              (vkError e6.reply.result = false ∧
               ∃ gpu0, (fill NullHandle (toUint32 e5.reply.count) e6.reply.handles)[0]? =
                 some gpu0 ∧
               ∃ e7, e7 = ev b (tS ++ [e5, e6])
                 (.EnumerateDeviceExtensionProperties gpu0 none) ∧
               (((vkError e7.reply.result && b.checkPanics) = true ∧
                 NewVulkanDevice exts f b t = .panic (tS ++ [e5, e6, e7])) ∨
                ((vkError e7.reply.result && b.checkPanics) = false ∧
                 ∃ e8, e8 = ev b (tS ++ [e5, e6, e7])
                   (.EnumerateDeviceExtensionProperties gpu0
                     (some (toUint32 e7.reply.count))) ∧
                 (((vkError e8.reply.result && b.checkPanics) = true ∧
                   NewVulkanDevice exts f b t = .panic (tS ++ [e5, e6, e7, e8])) ∨
                  ((vkError e8.reply.result && b.checkPanics) = false ∧
                   ∃ e9 info, info.QueueCreateInfoCount = 1 ∧ info.QueueCount = 1 ∧
                     info.QueueFamilyIndex = 0 ∧
                     e9 = ev b (tS ++ [e5, e6, e7, e8]) (.CreateDevice gpu0 info) ∧
                   ((vkError e9.reply.result = true ∧
                     ∃ e10, e10 = ev b (tS ++ [e5, e6, e7, e8, e9])
                       (.DestroySurface e3.reply.handle surface) ∧
                     ∃ e11, e11 = ev b (tS ++ [e5, e6, e7, e8, e9, e10])
                       (.DestroyInstance e3.reply.handle) ∧
                     NewVulkanDevice exts f b t =
                       .ok ({ Instance := e3.reply.handle, Surface := surface },
                            some (.failedWith "vk.CreateDevice" e9.reply.result))
                         (tS ++ [e5, e6, e7, e8, e9, e10, e11])) ∨
                    (vkError e9.reply.result = false ∧
                     ∃ e10, e10 = ev b (tS ++ [e5, e6, e7, e8, e9])
                       (.GetDeviceQueue e9.reply.handle 0 0) ∧
                     NewVulkanDevice exts f b t =
                       .ok ({ Instance := e3.reply.handle, Surface := surface
                              gpuDevices :=
                                fill NullHandle (toUint32 e5.reply.count) e6.reply.handles
                              Device := e9.reply.handle, Queue := e10.reply.handle }, none)
                         (tS ++ [e5, e6, e7, e8, e9, e10])))))))))))))))))) := by
  simp only [NewVulkanDevice, getInstanceExtensions, getPhysicalDevices, getDeviceExtensions,
    check, index, enableDebug, bind_apply, pure_apply, goPanic_apply, call_apply, ite_apply_vk]
  refine ⟨_, rfl, ?_⟩
  generalize ev b t (.EnumerateInstanceExtensionProperties none) = e1
  cases hc1 : (vkError e1.reply.result && b.checkPanics)
  swap
  · left; simp
  right
  refine ⟨rfl, _, rfl, ?_⟩
  simp only [Bool.false_eq_true, if_false]
  generalize ev b (t ++ [e1]) (.EnumerateInstanceExtensionProperties _) = e2
  cases hc2 : (vkError e2.reply.result && b.checkPanics)
  swap
  · left; simp
  right
  refine ⟨rfl, _,
    { EnabledExtensionCount := toUint32 exts.length
      PpEnabledExtensionNames := exts
      EnabledLayerCount := toUint32 ([] : List String).length
      PpEnabledLayerNames := [] }, rfl, ?_⟩
  simp only [Bool.false_eq_true, if_false, List.append_assoc, List.cons_append,
    List.nil_append]
  generalize ev b (t ++ [e1, e2]) (.CreateInstance _) = e3
  cases h3 : vkError e3.reply.result
  swap
  · left; simp
  right
  refine ⟨rfl, _, rfl, ?_⟩
  simp only [Bool.false_eq_true, if_false, Option.isSome_none, List.append_assoc,
    List.cons_append, List.nil_append]
  generalize ev b (t ++ [e1, e2, e3]) (.InitInstance _) = e4
  cases hfr : f e3.reply.handle b (t ++ [e1, e2, e3, e4]) with
  | panic tp => left; exact ⟨tp, rfl, rfl⟩
  | ok surface tS =>
    right
    obtain ⟨lf, hlf⟩ := hext e3.reply.handle b (t ++ [e1, e2, e3, e4])
    rw [hfr] at hlf
    simp only [Res.trace, List.append_assoc] at hlf
    refine ⟨surface, lf, tS, hlf, rfl, _, rfl, ?_⟩
    simp only []
    generalize ev b tS (.EnumeratePhysicalDevices _ _) = e5
    cases h5 : vkError e5.reply.result
    swap
    · left
      refine ⟨rfl, _, rfl, _, rfl, ?_⟩
      simp
    right
    by_cases h0 : toUint32 e5.reply.count = 0
    · left
      refine ⟨rfl, h0, _, rfl, _, rfl, ?_⟩
      simp [h0]
    right
    refine ⟨rfl, h0, _, rfl, ?_⟩
    simp only [Bool.false_eq_true, if_false, beq_iff_eq, h0, List.append_assoc,
      List.cons_append, List.nil_append]
    generalize ev b (tS ++ [e5]) (.EnumeratePhysicalDevices _ _) = e6
    cases h6 : vkError e6.reply.result
    swap
    · left
      refine ⟨rfl, _, rfl, _, rfl, ?_⟩
      simp
    right
    have hlen : 0 < (fill NullHandle (toUint32 e5.reply.count) e6.reply.handles).length := by
      rw [fill_length]
      omega
    refine ⟨rfl, _, List.getElem?_eq_getElem hlen, _, rfl, ?_⟩
    simp only [Bool.false_eq_true, if_false, Option.isSome_none, List.getElem?_eq_getElem hlen,
      pure_apply, List.append_assoc, List.cons_append, List.nil_append]
    generalize (fill NullHandle (toUint32 e5.reply.count) e6.reply.handles)[0] = gpu0
    generalize ev b (tS ++ [e5, e6]) (.EnumerateDeviceExtensionProperties _ _) = e7
    cases hc7 : (vkError e7.reply.result && b.checkPanics)
    swap
    · left; simp
    right
    refine ⟨rfl, _, rfl, ?_⟩
    simp only [Bool.false_eq_true, if_false, List.append_assoc, List.cons_append,
      List.nil_append]
    generalize ev b (tS ++ [e5, e6, e7]) (.EnumerateDeviceExtensionProperties _ _) = e8
    cases hc8 : (vkError e8.reply.result && b.checkPanics)
    swap
    · left; simp
    right
    refine ⟨rfl, _,
      { QueueCreateInfoCount := 1
        QueueFamilyIndex := 0
        QueueCount := 1
        EnabledExtensionCount := toUint32 ["VK_KHR_swapchain\x00"].length
        PpEnabledExtensionNames := ["VK_KHR_swapchain\x00"]
        EnabledLayerCount := toUint32 ([] : List String).length
        PpEnabledLayerNames := [] }, rfl, rfl, rfl, rfl, ?_⟩
    simp only [Bool.false_eq_true, if_false, List.append_assoc, List.cons_append,
      List.nil_append]
    generalize ev b (tS ++ [e5, e6, e7, e8]) (.CreateDevice _ _) = e9
    cases h9 : vkError e9.reply.result
    swap
    · left
      refine ⟨rfl, _, rfl, _, rfl, ?_⟩
      simp
    right
    refine ⟨rfl, _, rfl, ?_⟩
    simp

theorem filter_of_avoids {α : Type} (k : CallKind) (m : VkM α) (h : Avoids k m) (b : Backend)
    (t l : Trace) (hl : (m b t).trace = t ++ l) :
    l.filter (fun e => e.call.kind == k) = [] := by
  obtain ⟨l1, h1, hav⟩ := h b t
  rw [hl] at h1
  have : l = l1 := List.append_cancel_left h1
  subst this
  rw [List.filter_eq_nil_iff]
  intro e he
  simpa using hav e he

theorem avoids_orPanic (k : CallKind) (ret : Int) : Avoids k (orPanic ret) := by
  unfold orPanic
  exact avoids_ite _ (avoids_goPanic k) (avoids_pure k _)

theorem createSurface_avoids (k : CallKind) (hk : k ≠ .CreateSurface) (inst : Handle) :
    Avoids k (createSurface inst) := by
  unfold createSurface
  exact avoids_bind (avoids_call k _ (fun h => hk (by rw [← h]; rfl))) (fun _ =>
    avoids_bind (avoids_orPanic k _) (fun _ => avoids_pure k _))

/-- C17. Take any surface factory that leaves the device set-up calls alone.
If, in a run of `NewVulkanDevice`, a physical-device enumeration call fails or
the count query reports zero GPUs, then the function returns an error, the run
contains no `CreateDevice` call, and its last two calls are `DestroySurface`
on the surface the factory returned and `DestroyInstance` on the instance
created. If the helper `check` does not abort (it only logs, or every call
succeeds) and the run enumerates the physical devices with every enumeration
call succeeding and the count query reporting at least one GPU, then the run
contains exactly one `CreateDevice` call, on the first enumerated device,
asking for one queue create info with one queue on family index 0; and when
that call succeeds the function returns without error a context whose `Device`
is the device created and whose `Queue` is the reply to `GetDeviceQueue` on
that device with family 0 and index 0. -/
theorem newVulkanDevice_enumeration (b : Backend) (t : Trace) (exts : List String)
    (f : Handle → VkM Handle) (hf : ∀ inst k, k ∈ deviceSetupKinds → Avoids k (f inst)) :
    ((∃ e ∈ eventsOfKind .EnumeratePhysicalDevices (newEvents (NewVulkanDevice exts f) b t),
        e.reply.result ≠ Success ∨
        (e.call.countOnly = true ∧ toUint32 e.reply.count = 0)) →
      ∃ v err eI lead, (NewVulkanDevice exts f b t).val? = some (v, some err) ∧
        countKind .CreateDevice (newEvents (NewVulkanDevice exts f) b t) = 0 ∧
        eventsOfKind .CreateInstance (newEvents (NewVulkanDevice exts f) b t) = [eI] ∧
        v.Instance = eI.reply.handle ∧
        (∃ t0 tS, f v.Instance b t0 = .ok v.Surface tS) ∧
        (newEvents (NewVulkanDevice exts f) b t).map (fun e => e.call) =
          lead ++ [.DestroySurface v.Instance v.Surface, .DestroyInstance v.Instance]) ∧
    ((b.checkPanics = false ∨ AllSucceed b) →
      (countKind .EnumeratePhysicalDevices (newEvents (NewVulkanDevice exts f) b t) ≠ 0 ∧
        ∀ e ∈ eventsOfKind .EnumeratePhysicalDevices (newEvents (NewVulkanDevice exts f) b t),
          e.reply.result = Success ∧
          (e.call.countOnly = true → toUint32 e.reply.count ≠ 0)) →
      ∃ e1 e2 eD gpu0 info,
        eventsOfKind .EnumeratePhysicalDevices (newEvents (NewVulkanDevice exts f) b t) =
          [e1, e2] ∧
        (fill NullHandle (toUint32 e1.reply.count) e2.reply.handles)[0]? = some gpu0 ∧
        eventsOfKind .CreateDevice (newEvents (NewVulkanDevice exts f) b t) = [eD] ∧
        eD.call = .CreateDevice gpu0 info ∧
        info.QueueCreateInfoCount = 1 ∧ info.QueueCount = 1 ∧ info.QueueFamilyIndex = 0 ∧
        (eD.reply.result = Success →
          ∃ v eQ, (NewVulkanDevice exts f b t).val? = some (v, none) ∧
            eventsOfKind .GetDeviceQueue (newEvents (NewVulkanDevice exts f) b t) = [eQ] ∧
            eQ.call = .GetDeviceQueue eD.reply.handle 0 0 ∧
            v.Device = eD.reply.handle ∧ v.Queue = eQ.reply.handle ∧
            v.gpuDevices[0]? = some gpu0)) := by
  have hext : ∀ inst b t, ∃ l, (f inst b t).trace = t ++ l := fun inst b t => by
    obtain ⟨l, hl, -⟩ := hf inst .CreateDevice (by decide) b t
    exact ⟨l, hl⟩
  generalize hN : newEvents (NewVulkanDevice exts f) b t = N
  obtain ⟨e1, he1, hrest⟩ := newVulkanDevice_cases b t exts f hext
  have k1 : e1.call.kind = .EnumerateInstanceExtensionProperties := by rw [he1]; rfl
  rcases hrest with ⟨-, hres⟩ | ⟨-, e2, he2, hrest⟩
  · have hN1 : N = [e1] := by rw [← hN]; exact newEvents_of_panic _ _ _ _ hres
    simp [hN1, eventsOfKind, countKind, k1]
  have k2 : e2.call.kind = .EnumerateInstanceExtensionProperties := by rw [he2]; rfl
  rcases hrest with ⟨-, hres⟩ | ⟨-, e3, info3, he3, hrest⟩
  · have hN1 : N = [e1, e2] := by rw [← hN]; exact newEvents_of_panic _ _ _ _ hres
    simp [hN1, eventsOfKind, countKind, k1, k2]
  have k3 : e3.call.kind = .CreateInstance := by rw [he3]; rfl
  rcases hrest with ⟨-, hres⟩ | ⟨-, e4, he4, hrest⟩
  · have hN1 : N = [e1, e2, e3] := by rw [← hN]; exact newEvents_of_ok _ _ _ _ _ hres
    simp [hN1, eventsOfKind, countKind, k1, k2, k3]
  have k4 : e4.call.kind = .InitInstance := by rw [he4]; rfl
  rcases hrest with ⟨tp, hfr, hres⟩ | ⟨surface, lf, tS, hlf, hfr, e5, he5, hrest⟩
  · obtain ⟨lp, hlp⟩ := hext e3.reply.handle b (t ++ [e1, e2, e3, e4])
    have fE := filter_of_avoids _ _ (hf e3.reply.handle .EnumeratePhysicalDevices (by decide))
      b _ lp hlp
    rw [hfr] at hlp
    simp only [Res.trace] at hlp
    have hN1 : N = [e1, e2, e3, e4] ++ lp := by
      rw [← hN, newEvents, hres, Res.trace, hlp]
      simp
    simp [hN1, eventsOfKind, countKind, k1, k2, k3, k4, fE]
  have htr : (f e3.reply.handle b (t ++ [e1, e2, e3, e4])).trace =
      (t ++ [e1, e2, e3, e4]) ++ lf := by
    rw [hfr, Res.trace, hlf]
    simp
  have fE := filter_of_avoids _ _ (hf e3.reply.handle .EnumeratePhysicalDevices (by decide))
    b _ lf htr
  have fD := filter_of_avoids _ _ (hf e3.reply.handle .CreateDevice (by decide)) b _ lf htr
  have fI := filter_of_avoids _ _ (hf e3.reply.handle .CreateInstance (by decide)) b _ lf htr
  have fQ := filter_of_avoids _ _ (hf e3.reply.handle .GetDeviceQueue (by decide)) b _ lf htr
  have k5 : e5.call.kind = .EnumeratePhysicalDevices := by rw [he5]; rfl
  have o5 : e5.call.countOnly = true := by rw [he5]; rfl
  have hnew : ∀ (tail : Trace), (NewVulkanDevice exts f b t).trace = tS ++ tail →
      N = [e1, e2, e3, e4] ++ (lf ++ tail) := by
    intro tail h
    rw [← hN, newEvents, h, hlf]
    simp
  have cleanup : ∀ (mid : Trace) (eS eI : Event) (err : GoError),
      eS.call = .DestroySurface e3.reply.handle surface →
      eI.call = .DestroyInstance e3.reply.handle →
      (∀ e ∈ mid, e.call.kind = .EnumeratePhysicalDevices) →
      (∃ e ∈ mid, e.reply.result ≠ Success ∨
        (e.call.countOnly = true ∧ toUint32 e.reply.count = 0)) →
      NewVulkanDevice exts f b t =
        .ok ({ Instance := e3.reply.handle, Surface := surface }, some err)
          (tS ++ (mid ++ [eS, eI])) →
      (∃ v err eI lead, (NewVulkanDevice exts f b t).val? = some (v, some err) ∧
        countKind .CreateDevice N = 0 ∧ eventsOfKind .CreateInstance N = [eI] ∧
        v.Instance = eI.reply.handle ∧
        (∃ t0 tS, f v.Instance b t0 = .ok v.Surface tS) ∧
        N.map (fun e => e.call) =
          lead ++ [.DestroySurface v.Instance v.Surface, .DestroyInstance v.Instance]) ∧
      ¬ (countKind .EnumeratePhysicalDevices N ≠ 0 ∧
        ∀ e ∈ eventsOfKind .EnumeratePhysicalDevices N, e.reply.result = Success ∧
          (e.call.countOnly = true → toUint32 e.reply.count ≠ 0)) := by
    intro mid eS eI err cS cI hmid hbad hres
    have kS : eS.call.kind = .DestroySurface := by rw [cS]; rfl
    have kI : eI.call.kind = .DestroyInstance := by rw [cI]; rfl
    have hN1 := hnew _ (by rw [hres]; rfl)
    have mD : mid.filter (fun e => e.call.kind == CallKind.CreateDevice) = [] := by
      rw [List.filter_eq_nil_iff]
      intro e he
      simp [hmid e he]
    have mI : mid.filter (fun e => e.call.kind == CallKind.CreateInstance) = [] := by
      rw [List.filter_eq_nil_iff]
      intro e he
      simp [hmid e he]
    have mE : mid.filter (fun e => e.call.kind == CallKind.EnumeratePhysicalDevices) = mid := by
      rw [List.filter_eq_self]
      intro e he
      simp [hmid e he]
    refine ⟨⟨_, err, e3, (([e1, e2, e3, e4] ++ (lf ++ mid)).map fun e => e.call),
      by rw [hres]; rfl, ?_, ?_, rfl, ⟨_, _, hfr⟩, ?_⟩, ?_⟩
    · simp [hN1, countKind, k1, k2, k3, k4, fD, mD, kS, kI]
    · simp [hN1, eventsOfKind, k1, k2, k3, k4, fI, mI, kS, kI]
    · simp [hN1, cS, cI]
    · rintro ⟨-, hall⟩
      have hE : eventsOfKind .EnumeratePhysicalDevices N = mid := by
        simp [hN1, eventsOfKind, k1, k2, k3, k4, fE, mE, kS, kI]
      rw [hE] at hall
      obtain ⟨e, he, hb⟩ := hbad
      obtain ⟨g1, g2⟩ := hall e he
      rcases hb with hb | ⟨hb1, hb2⟩
      · exact hb g1
      · exact g2 hb1 hb2
  have r5of : vkError e5.reply.result = false → e5.reply.result = Success := by
    intro h
    simpa [vkError] using h
  rcases hrest with ⟨h5, e6, he6, e7, he7, hres⟩ | ⟨h5, h0, e6, he6, e7, he7, hres⟩ |
    ⟨h5, h0, e6, he6, hrest⟩
  · have r5 : e5.reply.result ≠ Success := by simpa [vkError] using h5
    obtain ⟨hA, hB⟩ := cleanup [e5] e6 e7 _ (by rw [he6]; rfl) (by rw [he7]; rfl)
      (by simp [k5]) ⟨e5, by simp, Or.inl r5⟩ hres
    exact ⟨fun _ => hA, fun _ h => absurd h hB⟩
  · obtain ⟨hA, hB⟩ := cleanup [e5] e6 e7 _ (by rw [he6]; rfl) (by rw [he7]; rfl)
      (by simp [k5]) ⟨e5, by simp, Or.inr ⟨o5, h0⟩⟩ hres
    exact ⟨fun _ => hA, fun _ h => absurd h hB⟩
  have k6 : e6.call.kind = .EnumeratePhysicalDevices := by rw [he6]; rfl
  have o6 : e6.call.countOnly = false := by rw [he6]; rfl
  rcases hrest with ⟨h6, e7, he7, e8, he8, hres⟩ | ⟨h6, gpu0, hgpu, e7, he7, hrest⟩
  · have r6 : e6.reply.result ≠ Success := by simpa [vkError] using h6
    obtain ⟨hA, hB⟩ := cleanup [e5, e6] e7 e8 _ (by rw [he7]; rfl) (by rw [he8]; rfl)
      (by simp [k5, k6]) ⟨e6, by simp, Or.inl r6⟩ hres
    exact ⟨fun _ => hA, fun _ h => absurd h hB⟩
  have r5 := r5of h5
  have r6 : e6.reply.result = Success := by simpa [vkError] using h6
  have k7 : e7.call.kind = .EnumerateDeviceExtensionProperties := by rw [he7]; rfl
  have notA : ∀ tail : Trace,
      tail.filter (fun e => e.call.kind == CallKind.EnumeratePhysicalDevices) = [] →
      N = [e1, e2, e3, e4] ++ (lf ++ (e5 :: e6 :: tail)) →
      (¬ ∃ e ∈ eventsOfKind .EnumeratePhysicalDevices N, e.reply.result ≠ Success ∨
        (e.call.countOnly = true ∧ toUint32 e.reply.count = 0)) ∧
      eventsOfKind .EnumeratePhysicalDevices N = [e5, e6] := by
    intro tail htail hN1
    have hE : eventsOfKind .EnumeratePhysicalDevices N = [e5, e6] := by
      simp [hN1, eventsOfKind, k1, k2, k3, k4, k5, k6, fE, htail]
    refine ⟨?_, hE⟩
    rw [hE]
    simp [r5, r6, h0, o6]
  have checkOk : ∀ (e : Event) (tr : Trace) (c : Call), e = ev b tr c →
      (b.checkPanics = false ∨ AllSucceed b) →
      (vkError e.reply.result && b.checkPanics) = true → False := by
    intro e tr c he hck hc
    rcases hck with h | h
    · simp [h] at hc
    · have : e.reply.result = Success := by rw [he]; exact h tr c
      simp [this, vkError] at hc
  rcases hrest with ⟨hc7, hres⟩ | ⟨-, e8, he8, hrest⟩
  · have hN1 := hnew _ (by rw [hres]; rfl)
    obtain ⟨nA, -⟩ := notA [e7] (by simp [k7]) (by simpa using hN1)
    exact ⟨fun h => absurd h nA, fun hck _ => absurd hc7 (fun h => checkOk e7 _ _ he7 hck h)⟩
  have k8 : e8.call.kind = .EnumerateDeviceExtensionProperties := by rw [he8]; rfl
  rcases hrest with ⟨hc8, hres⟩ | ⟨-, e9, info, q1, q2, q3, he9, hrest⟩
  · have hN1 := hnew _ (by rw [hres]; rfl)
    obtain ⟨nA, -⟩ := notA [e7, e8] (by simp [k7, k8]) (by simpa using hN1)
    exact ⟨fun h => absurd h nA, fun hck _ => absurd hc8 (fun h => checkOk e8 _ _ he8 hck h)⟩
  have k9 : e9.call.kind = .CreateDevice := by rw [he9]; rfl
  have c9 : e9.call = .CreateDevice gpu0 info := by rw [he9]; rfl
  rcases hrest with ⟨h9, e10, he10, e11, he11, hres⟩ | ⟨h9, e10, he10, hres⟩
  · have k10 : e10.call.kind = .DestroySurface := by rw [he10]; rfl
    have k11 : e11.call.kind = .DestroyInstance := by rw [he11]; rfl
    have r9 : e9.reply.result ≠ Success := by simpa [vkError] using h9
    have hN1 := hnew _ (by rw [hres]; rfl)
    obtain ⟨nA, hE⟩ := notA [e7, e8, e9, e10, e11] (by simp [k7, k8, k9, k10, k11])
      (by simpa using hN1)
    refine ⟨fun h => absurd h nA, fun _ _ => ⟨e5, e6, e9, gpu0, info, hE, hgpu, ?_, c9, q1, q2,
      q3, fun h => absurd h r9⟩⟩
    simp [hN1, eventsOfKind, k1, k2, k3, k4, k5, k6, k7, k8, k9, k10, k11, fD]
  · have k10 : e10.call.kind = .GetDeviceQueue := by rw [he10]; rfl
    have c10 : e10.call = .GetDeviceQueue e9.reply.handle 0 0 := by rw [he10]; rfl
    have hN1 := hnew _ (by rw [hres]; rfl)
    obtain ⟨nA, hE⟩ := notA [e7, e8, e9, e10] (by simp [k7, k8, k9, k10]) (by simpa using hN1)
    refine ⟨fun h => absurd h nA, fun _ _ => ⟨e5, e6, e9, gpu0, info, hE, hgpu, ?_, c9, q1, q2,
      q3, fun _ => ⟨_, e10, by rw [hres]; rfl, ?_, c10, rfl, rfl, hgpu⟩⟩⟩
    · simp [hN1, eventsOfKind, k1, k2, k3, k4, k5, k6, k7, k8, k9, k10, fD]
    · simp [hN1, eventsOfKind, k1, k2, k3, k4, k5, k6, k7, k8, k9, k10, fQ]

theorem newVulkanDevice_enumeration_witness :
    (∃ v err eI lead, (NewVulkanDevice [] createSurface noGpuBackend []).val? =
        some (v, some err) ∧
      countKind .CreateDevice (newEvents (NewVulkanDevice [] createSurface) noGpuBackend []) =
        0 ∧
      eventsOfKind .CreateInstance
        (newEvents (NewVulkanDevice [] createSurface) noGpuBackend []) = [eI] ∧
      v.Instance = eI.reply.handle ∧
      (∃ t0 tS, createSurface v.Instance noGpuBackend t0 = .ok v.Surface tS) ∧
      (newEvents (NewVulkanDevice [] createSurface) noGpuBackend []).map (fun e => e.call) =
        lead ++ [.DestroySurface v.Instance v.Surface, .DestroyInstance v.Instance]) ∧
    (∃ e1 e2 eD gpu0 info,
      eventsOfKind .EnumeratePhysicalDevices
        (newEvents (NewVulkanDevice [] createSurface) steadyBackend []) = [e1, e2] ∧
      (fill NullHandle (toUint32 e1.reply.count) e2.reply.handles)[0]? = some gpu0 ∧
      eventsOfKind .CreateDevice
        (newEvents (NewVulkanDevice [] createSurface) steadyBackend []) = [eD] ∧
      eD.call = .CreateDevice gpu0 info ∧
      info.QueueCreateInfoCount = 1 ∧ info.QueueCount = 1 ∧ info.QueueFamilyIndex = 0 ∧
      (eD.reply.result = Success →
        ∃ v eQ, (NewVulkanDevice [] createSurface steadyBackend []).val? = some (v, none) ∧
          eventsOfKind .GetDeviceQueue
            (newEvents (NewVulkanDevice [] createSurface) steadyBackend []) = [eQ] ∧
          eQ.call = .GetDeviceQueue eD.reply.handle 0 0 ∧
          v.Device = eD.reply.handle ∧ v.Queue = eQ.reply.handle ∧
          v.gpuDevices[0]? = some gpu0)) :=
  ⟨(newVulkanDevice_enumeration noGpuBackend [] [] createSurface
      (fun inst k hk => createSurface_avoids k
        (by rintro rfl; simp [deviceSetupKinds] at hk) inst)).1 (by decide!),
   (newVulkanDevice_enumeration steadyBackend [] [] createSurface
      (fun inst k hk => createSurface_avoids k
        (by rintro rfl; simp [deviceSetupKinds] at hk) inst)).2 (Or.inl rfl) (by decide!)⟩

end FieboLib
